import Mathlib

/-!
# StreamSync backend: the real-time room synchronization engine

A shallow embedding of `src/socketHandlers.js` (the socket.io event handlers and the two
process-wide registries `activeConnections` and `roomConnections`), of the Supabase queries
the handlers issue, and of the parts of JavaScript and socket.io the handlers rely on.

Conventions.
* Every handler is a pure function from the state it reads to the state it leaves and the
  list of effects (events emitted, store calls issued) in program order.
* A handler that awaits the Durable Store is split at the await: the part after the await is
  a function of the store's response. The composite handler takes the store as a function.
* A thrown `TypeError` is `none`; the enclosing `try/catch` turns it into the error event of
  the `catch` block.
* `new Date()` is a parameter `now`.
-/

namespace StreamSync

/-! ## JavaScript values -/

/-- JavaScript values that occur in payload fields and socket properties: the primitives and
`Date` (a `Date` and its ISO string are both represented by the time value). -/
inductive JsVal where
  | undefined
  | null
  | bool (b : Bool)
  | num (n : Int)
  | str (s : String)
  | date (t : Nat)
  deriving DecidableEq

/-- A plain object whose field values are primitives, as an association list in insertion
order with distinct keys. -/
abbrev JsObj := List (String × JsVal)

/-- The payload a client sends with an event: a primitive, or an object. -/
inductive JsData where
  | val (v : JsVal)
  | obj (fields : JsObj)
  deriving DecidableEq

/-- JavaScript truthiness (`if (v)`, `!v`, `v || w`). -/
def JsVal.truthy : JsVal → Bool
  | .undefined => false
  | .null => false
  | .bool b => b
  | .num n => n != 0
  | .str s => s != ""
  | .date _ => true

/-- The expression `a || b`. -/
def jsOr (a b : JsVal) : JsVal := if a.truthy then a else b

/-- The string `${v}` that supabase-js puts in a filter such as `.eq('id', v)`. -/
def jsToString : JsVal → String
  | .undefined => "undefined"
  | .null => "null"
  | .bool true => "true"
  | .bool false => "false"
  | .num n => toString n
  | .str s => s
  | .date t => toString t

/-- Property read `o.k` on an object: `undefined` when the key is absent. -/
def getField (o : JsObj) (k : String) : JsVal :=
  match o.lookup k with
  | some v => v
  | none => JsVal.undefined

/-- Property write in an object literal: an existing key keeps its position and takes the
new value, a new key is appended. -/
def setField (o : JsObj) (k : String) (v : JsVal) : JsObj :=
  if o.any (fun e => e.1 == k) then o.map (fun e => if e.1 == k then (k, v) else e)
  else o ++ [(k, v)]

/-- Destructuring `const { k } = data`: throws on `undefined` and `null`, reads `undefined`
from any other primitive, reads the field from an object. -/
def JsData.prop (data : JsData) (k : String) : Option JsVal :=
  match data with
  | .val .undefined => none
  | .val .null => none
  | .val _ => some JsVal.undefined
  | .obj fields => some (getField fields k)

/-- Object spread `{ ...data }`: the own enumerable properties; a string spreads to its
indexed characters, every other primitive to nothing. -/
def spread (data : JsData) : JsObj :=
  match data with
  | .obj fields => fields
  | .val (.str s) => s.data.enum.map (fun e => (toString e.1, JsVal.str (String.singleton e.2)))
  | .val _ => []

/-- ECMAScript `WhiteSpace` and `LineTerminator` code points, the ones `trim` removes. -/
def isJsWhiteSpace (c : Char) : Bool :=
  let n := c.toNat
  n == 0x9 || n == 0xA || n == 0xB || n == 0xC || n == 0xD || n == 0x20 || n == 0xA0 ||
  n == 0x1680 || (0x2000 ≤ n && n ≤ 0x200A) || n == 0x2028 || n == 0x2029 || n == 0x202F ||
  n == 0x205F || n == 0x3000 || n == 0xFEFF

/-- The characters left by `String.prototype.trim`. -/
def trimChars (cs : List Char) : List Char :=
  ((cs.dropWhile isJsWhiteSpace).reverse.dropWhile isJsWhiteSpace).reverse

/-- `String.prototype.trim`. -/
def jsTrim (s : String) : String := ⟨trimChars s.data⟩

/-- The method call `message.trim()` on an arbitrary value: a `TypeError` when the value is
not a string (numbers, booleans and dates have no `trim`). -/
def JsVal.trim : JsVal → Option String
  | .str s => some (jsTrim s)
  | _ => none

/-! ## JavaScript `Map` and `Set` -/

/-- `Map.prototype.has`. -/
def mapHas {κ ν : Type} [DecidableEq κ] (m : List (κ × ν)) (k : κ) : Bool :=
  m.any (fun e => decide (e.1 = k))

/-- `Map.prototype.get`: `none` is `undefined`. -/
def mapGet {κ ν : Type} [DecidableEq κ] (m : List (κ × ν)) (k : κ) : Option ν :=
  (m.find? (fun e => decide (e.1 = k))).map Prod.snd

/-- `Map.prototype.set`: an existing key keeps its position, a new key goes last. -/
def mapSet {κ ν : Type} [DecidableEq κ] (m : List (κ × ν)) (k : κ) (v : ν) : List (κ × ν) :=
  if mapHas m k then m.map (fun e => if e.1 = k then (k, v) else e) else m ++ [(k, v)]

/-- `Map.prototype.delete`. -/
def mapDelete {κ ν : Type} [DecidableEq κ] (m : List (κ × ν)) (k : κ) : List (κ × ν) :=
  m.filter (fun e => decide (e.1 ≠ k))

/-- `Set.prototype.add`, the set being the list of its elements in insertion order. -/
def setAdd {α : Type} [DecidableEq α] (s : List α) (x : α) : List α :=
  if x ∈ s then s else s ++ [x]

/-- `Set.prototype.delete`. -/
def setDelete {α : Type} [DecidableEq α] (s : List α) (x : α) : List α :=
  s.filter (fun y => decide (y ≠ x))

/-! ## The Durable Store (Supabase / PostgREST) -/

/-- The `error` object of a supabase-js response. -/
structure StoreError where
  message : String
  deriving DecidableEq

/-- The `{ data, error }` object a supabase-js query resolves with; `none` is `null`. -/
structure Resp (α : Type) where
  data : Option α
  error : Option StoreError
  deriving DecidableEq

/-- The `settings` column written by `createRoom`. -/
structure RoomSettings where
  is_private : Bool
  allow_chatting : Bool
  allow_memes : Bool
  max_participants : Nat
  deriving DecidableEq

/-- A row of table `rooms`. -/
structure RoomRow where
  id : String
  name : String
  description : String
  host_id : String
  settings : RoomSettings
  is_active : Bool
  current_video : Option JsObj
  created_at : Nat
  deriving DecidableEq

/-- A row of table `room_participants`. -/
structure ParticipantRow where
  room_id : String
  user_id : String
  is_active : Bool
  joined_at : Nat
  deriving DecidableEq

/-- A row of table `profiles`: the columns `signup` writes (authController.js lines 41-46,
the nested `preferences` apart) and `last_seen`. -/
structure ProfileRow where
  id : String
  username : JsVal
  email : JsVal
  avatar : JsVal
  is_online : Bool
  last_seen : Nat
  deriving DecidableEq

/-- A row of table `chat_messages`. -/
structure ChatRow where
  id : String
  room_id : String
  user_id : String
  message : String
  created_at : Nat
  deriving DecidableEq

/-- The tables of the Durable Store the socket handlers touch. -/
structure Db where
  rooms : List RoomRow
  room_participants : List ParticipantRow
  profiles : List ProfileRow
  chat_messages : List ChatRow
  deriving DecidableEq

/-- The embedded resource `user:profiles(username, avatar)`: only these two columns. -/
structure ProfileEmbed where
  username : JsVal
  avatar : JsVal
  deriving DecidableEq

/-- The embedded resource `participants:room_participants!inner(user_id, is_active, user:...)`. -/
structure ParticipantEmbed where
  user_id : String
  is_active : Bool
  user : Option ProfileEmbed
  deriving DecidableEq

/-- The object bound to `room` in the join-room handler: the columns of the row (`*`) and the
embedded `participants`; `participants = none` is a record without that property. -/
structure RoomRecord where
  row : RoomRow
  participants : Option (List ParticipantEmbed)
  deriving DecidableEq

/-- The object bound to `chatMessage` in the chat-message handler: the inserted row (`*`) and
the embedded `user`; `none` is a `null` embed. -/
structure ChatRecord where
  row : ChatRow
  user : Option ProfileEmbed
  deriving DecidableEq

/-- The modifier `.single()`: exactly one row, otherwise an error and `data: null`. -/
def single {α : Type} (rows : List α) : Resp α :=
  match rows with
  | [r] => { data := some r, error := none }
  | _ => { data := none, error := some ⟨"JSON object requested, multiple (or no) rows returned"⟩ }

/-- A store call that did not reach the table (network, constraint, server fault) resolves
with the error and `data: null`; otherwise with the answer of the table. -/
def withFault {α : Type} (fault : Option StoreError) (answer : Resp α) : Resp α :=
  match fault with
  | some e => { data := none, error := some e }
  | none => answer

/-- The many-to-one embed `user:profiles(username, avatar)` for a user id. -/
def embedProfile (db : Db) (userId : String) : Option ProfileEmbed :=
  (db.profiles.find? (fun p => decide (p.id = userId))).map
    (fun p => { username := p.username, avatar := p.avatar })

/-- The one-to-many embed of the participants of a room. -/
def embedParticipants (db : Db) (roomId : String) : List ParticipantEmbed :=
  (db.room_participants.filter (fun p => decide (p.room_id = roomId))).map
    (fun p => { user_id := p.user_id, is_active := p.is_active, user := embedProfile db p.user_id })

/-- The query of the join-room handler (socketHandlers.js lines 64-75):
`from('rooms').select('*, participants:room_participants!inner(...)').eq('id', roomId).single()`.
The inner join drops a room without any participant row; there is no filter on `is_active`. -/
def selectRoomForJoin (db : Db) (roomId : JsVal) : Resp RoomRecord :=
  single ((db.rooms.filter (fun r => decide (r.id = jsToString roomId))).filterMap
    (fun r =>
      let ps := embedParticipants db r.id
      if ps.isEmpty then none else some { row := r, participants := some ps }))

/-- The query of the chat-message handler (lines 210-221):
`from('chat_messages').insert(...).select('*, user:profiles!chat_messages_user_id_fkey(username, avatar)').single()`.
The embed goes through the foreign key `chat_messages_user_id_fkey` from column `user_id` to
table `profiles`: an insert whose `user_id` has no profile row violates the key, records
nothing and resolves with an error. Otherwise the store assigns `id` and `created_at`, column
`room_id` holds the text of the value sent, and the row comes back with the profile embedded.
Returns the new table and the response. -/
def insertChatMessage (db : Db) (room_id : JsVal) (user_id message : String)
    (newId : String) (now : Nat) (fault : Option StoreError) : Db × Resp ChatRecord :=
  match fault with
  | some e => (db, { data := none, error := some e })
  | none =>
    match embedProfile db user_id with
    | none =>
      (db, { data := none,
             error := some ⟨"insert or update on table chat_messages violates foreign key constraint chat_messages_user_id_fkey"⟩ })
    | some user =>
      let row : ChatRow :=
        { id := newId, room_id := jsToString room_id, user_id := user_id, message := message,
          created_at := now }
      ({ db with chat_messages := db.chat_messages ++ [row] },
       single [{ row := row, user := some user }])

/-- The query of the playback handlers (lines 129-138):
`from('rooms').update(...).eq('id', roomId)` with the one column `current_video`, which is
replaced by the object given. -/
def updateCurrentVideo (db : Db) (roomId : JsVal) (current_video : JsObj)
    (fault : Option StoreError) : Db × Resp Unit :=
  match fault with
  | some e => (db, { data := none, error := some e })
  | none =>
    ({ db with rooms := db.rooms.map (fun r =>
        if r.id = jsToString roomId then { r with current_video := some current_video } else r) },
     { data := none, error := none })

/-- The presence query (lines 47-53 and 300-306):
`from('profiles').update(...).eq('id', userId)` with the columns `is_online`, `last_seen`. -/
def updatePresence (db : Db) (userId : String) (is_online : Bool) (last_seen : Nat)
    (fault : Option StoreError) : Db × Resp Unit :=
  match fault with
  | some e => (db, { data := none, error := some e })
  | none =>
    ({ db with profiles := db.profiles.map (fun p =>
        if p.id = userId then { p with is_online := is_online, last_seen := last_seen } else p) },
     { data := none, error := none })

/-- A call to the Durable Store issued by a handler. -/
inductive StoreOp where
  | selectRoom (roomId : JsVal)
  | updatePresence (userId : String) (is_online : Bool) (last_seen : Nat)
  | updateCurrentVideo (roomId : JsVal) (current_video : JsObj)
  | insertChatMessage (room_id : JsVal) (user_id : String) (message : String)
  deriving DecidableEq

/-- Whether the call writes to the store. -/
def StoreOp.isWrite : StoreOp → Bool
  | .selectRoom _ => false
  | _ => true

/-! ## Connections, socket.io addressing, events -/

/-- The properties of a socket.io `socket` object the handlers read and write. -/
structure Socket where
  /-- The property `socket.id`. -/
  id : String
  /-- The property `socket.userId`, set by `authenticateSocket`. -/
  userId : String
  /-- The property `socket.user`, set by `authenticateSocket`. -/
  user : JsObj
  /-- The property `socket.currentRoom`, `undefined` until the first successful join. -/
  currentRoom : JsVal
  /-- The socket.io rooms the socket has joined (`socket.rooms`). -/
  rooms : List JsVal
  /-- The property `socket.connected`. -/
  connected : Bool
  deriving DecidableEq

/-- The value stored in `activeConnections`. -/
structure ConnEntry where
  socketId : String
  user : JsObj
  connectedAt : Nat
  deriving DecidableEq

/-- The two module-level maps of socketHandlers.js (lines 5-6). -/
structure Registries where
  /-- The map `activeConnections`: user id to connection entry. -/
  activeConnections : List (String × ConnEntry)
  /-- The map `roomConnections`: room id to the `Set` of user ids. -/
  roomConnections : List (JsVal × List String)
  deriving DecidableEq

/-- Where an emitted event goes: `socket.emit` (the socket itself), `socket.to(room).emit`
(the room except the socket), `io.to(room).emit` (the whole room). -/
inductive Address where
  | self (socketId : String)
  | others (room : JsVal) (socketId : String)
  | all (room : JsVal)
  deriving DecidableEq

/-- The socket ids joined to a socket.io room. -/
def members (sockets : List Socket) (room : JsVal) : List String :=
  (sockets.filter (fun s => s.connected && decide (room ∈ s.rooms))).map (fun s => s.id)

/-- The socket ids an address delivers to. -/
def recipients (sockets : List Socket) : Address → List String
  | .self socketId =>
    (sockets.filter (fun s => s.connected && decide (s.id = socketId))).map (fun s => s.id)
  | .others room socketId => (members sockets room).filter (fun i => decide (i ≠ socketId))
  | .all room => members sockets room

/-- The `user` object of `user-joined`, `user-left` and `chat-message`. -/
structure UserInfo where
  id : JsVal
  username : JsVal
  avatar : JsVal
  deriving DecidableEq

/-- The object `chatResponse` (lines 228-238). -/
structure ChatResponse where
  id : String
  message : String
  user : UserInfo
  timestamp : Nat
  roomId : JsVal
  deriving DecidableEq

/-- The events the server emits, with their payloads. -/
inductive ServerEvent where
  | error (message : String)
  | userJoined (user : UserInfo) (timestamp : Nat)
  | roomState (room : RoomRecord) (connectedUsers : List String)
  | videoPlay (payload : JsObj)
  | videoPause (payload : JsObj)
  | videoSeek (payload : JsObj)
  | chatMessage (chatResponse : ChatResponse)
  | userTyping (userId : String) (username : JsVal) (isTyping : Bool)
  | userLeft (user : UserInfo) (timestamp : Nat)
  deriving DecidableEq

/-- What a handler does to the outside, in program order. -/
inductive Effect where
  | emit (dest : Address) (event : ServerEvent)
  | store (op : StoreOp)
  deriving DecidableEq

/-- Whether the effect is an event sent to two or more possible receivers (a room). -/
def Effect.isBroadcast : Effect → Bool
  | .emit (.others _ _) _ => true
  | .emit (.all _) _ => true
  | _ => false

/-- Whether the effect is an `error` event. -/
def Effect.isError : Effect → Bool
  | .emit _ (.error _) => true
  | _ => false

/-- Whether the effect is a write to the Durable Store. -/
def Effect.isStoreWrite : Effect → Bool
  | .store op => op.isWrite
  | _ => false

/-- The state a handler leaves and what it did. -/
structure Outcome where
  regs : Registries
  sock : Socket
  effects : List Effect
  deriving DecidableEq

/-- The statement `socket.emit('error', ...)` with the message given, followed by `return`. -/
def reject (regs : Registries) (sock : Socket) (message : String) : Outcome :=
  { regs := regs, sock := sock, effects := [Effect.emit (Address.self sock.id) (ServerEvent.error message)] }

/-- The literal with `id`, `username`, `avatar` taken from `socket.user`. -/
def userInfo (sock : Socket) : UserInfo :=
  { id := getField sock.user "id", username := getField sock.user "username",
    avatar := getField sock.user "avatar" }

/-! ## The handlers of `handleConnection` -/

/-- The body of `io.on('connection', ...)` before the listeners are registered (lines 37-56). -/
def onConnection (regs : Registries) (sock : Socket) (now : Nat) : Outcome :=
  let entry : ConnEntry := { socketId := sock.id, user := sock.user, connectedAt := now }
  { regs := { regs with activeConnections := mapSet regs.activeConnections sock.userId entry },
    sock := sock,
    effects := [Effect.store (StoreOp.updatePresence sock.userId true now)] }

/-- The join-room handler after `await` (lines 77-117), given the store response. -/
def onJoinRoomResume (regs : Registries) (sock : Socket) (roomId : JsVal)
    (resp : Resp RoomRecord) (now : Nat) : Outcome :=
  match resp.error, resp.data with
  | some _, _ => reject regs sock "Room not found"
  | none, none => reject regs sock "Room not found"
  | none, some room =>
    match room.participants with
    | none => reject regs sock "Error joining room"
    | some participants =>
      let isParticipant := participants.any (fun p => decide (p.user_id = sock.userId) && p.is_active)
      if !isParticipant then reject regs sock "Not authorized to join this room"
      else
        let sock1 := { sock with rooms := setAdd sock.rooms roomId, currentRoom := roomId }
        let rc0 := if !mapHas regs.roomConnections roomId
          then mapSet regs.roomConnections roomId [] else regs.roomConnections
        let rc1 := mapSet rc0 roomId (setAdd ((mapGet rc0 roomId).getD []) sock.userId)
        { regs := { regs with roomConnections := rc1 },
          sock := sock1,
          effects :=
            [Effect.emit (Address.others roomId sock.id) (ServerEvent.userJoined (userInfo sock) now),
             Effect.emit (Address.self sock.id)
               (ServerEvent.roomState room ((mapGet rc1 roomId).getD []))] }

/-- The join-room handler (lines 59-123); `fetchRoom` is the store answering the query. -/
def onJoinRoom (fetchRoom : JsVal → Resp RoomRecord) (regs : Registries) (sock : Socket)
    (data : JsData) (now : Nat) : Outcome :=
  match data.prop "roomId" with
  | none => reject regs sock "Error joining room"
  | some roomId =>
    let out := onJoinRoomResume regs sock roomId (fetchRoom roomId) now
    { out with effects := Effect.store (StoreOp.selectRoom roomId) :: out.effects }

/-- The object `current_video` written by video-play (lines 132-136). -/
def playState (data : JsData) (now : Nat) : JsObj :=
  setField (setField (spread data) "is_playing" (JsVal.bool true)) "last_updated" (JsVal.date now)

/-- The object `current_video` written by video-pause (lines 155-159). -/
def pauseState (data : JsData) (now : Nat) : JsObj :=
  setField (setField (spread data) "is_playing" (JsVal.bool false)) "last_updated" (JsVal.date now)

/-- The object `current_video` written by video-seek (lines 178-181). -/
def seekState (data : JsData) (now : Nat) : JsObj :=
  setField (spread data) "last_updated" (JsVal.date now)

/-- The payload broadcast by the three playback handlers (lines 141-143). -/
def playbackPayload (sock : Socket) (data : JsData) (now : Nat) : JsObj :=
  setField (setField (spread data) "triggeredBy" (getField sock.user "username"))
    "timestamp" (JsVal.date now)

/-- The callback of video-play passed to `.then` (lines 139-145). It takes no argument: the
result the update resolved with is not looked at. -/
def onVideoPlayThen (sock : Socket) (data : JsData) (_result : Resp Unit) (now : Nat) :
    List Effect :=
  [Effect.emit (Address.others sock.currentRoom sock.id)
    (ServerEvent.videoPlay (playbackPayload sock data now))]

/-- The callback of video-pause passed to `.then` (lines 162-168). -/
def onVideoPauseThen (sock : Socket) (data : JsData) (_result : Resp Unit) (now : Nat) :
    List Effect :=
  [Effect.emit (Address.others sock.currentRoom sock.id)
    (ServerEvent.videoPause (playbackPayload sock data now))]

/-- The callback of video-seek passed to `.then` (lines 184-190). -/
def onVideoSeekThen (sock : Socket) (data : JsData) (_result : Resp Unit) (now : Nat) :
    List Effect :=
  [Effect.emit (Address.others sock.currentRoom sock.id)
    (ServerEvent.videoSeek (playbackPayload sock data now))]

/-- The video-play handler (lines 126-147); `update` is the store answering the update,
`now` the time of receipt and `later` the time the callback runs. -/
def onVideoPlay (update : JsVal → JsObj → Resp Unit) (regs : Registries) (sock : Socket)
    (data : JsData) (now later : Nat) : Outcome :=
  if sock.currentRoom.truthy then
    let current_video := playState data now
    { regs := regs, sock := sock,
      effects := Effect.store (StoreOp.updateCurrentVideo sock.currentRoom current_video) ::
        onVideoPlayThen sock data (update sock.currentRoom current_video) later }
  else { regs := regs, sock := sock, effects := [] }

/-- The video-pause handler (lines 149-170). -/
def onVideoPause (update : JsVal → JsObj → Resp Unit) (regs : Registries) (sock : Socket)
    (data : JsData) (now later : Nat) : Outcome :=
  if sock.currentRoom.truthy then
    let current_video := pauseState data now
    { regs := regs, sock := sock,
      effects := Effect.store (StoreOp.updateCurrentVideo sock.currentRoom current_video) ::
        onVideoPauseThen sock data (update sock.currentRoom current_video) later }
  else { regs := regs, sock := sock, effects := [] }

/-- The video-seek handler (lines 172-192). -/
def onVideoSeek (update : JsVal → JsObj → Resp Unit) (regs : Registries) (sock : Socket)
    (data : JsData) (now later : Nat) : Outcome :=
  if sock.currentRoom.truthy then
    let current_video := seekState data now
    { regs := regs, sock := sock,
      effects := Effect.store (StoreOp.updateCurrentVideo sock.currentRoom current_video) ::
        onVideoSeekThen sock data (update sock.currentRoom current_video) later }
  else { regs := regs, sock := sock, effects := [] }

/-- The chat-message handler after `await` (lines 223-243), given the store response. Reading
`chatMessage.id` of `null` and `chatMessage.user.id` of `null` throw, and the `catch` block
(lines 245-248) reports `Error sending message`. The embedded `user` has no `id` column. -/
def onChatMessageResume (sock : Socket) (resp : Resp ChatRecord) : List Effect :=
  match resp.error with
  | some _ => [Effect.emit (Address.self sock.id) (ServerEvent.error "Error saving chat message")]
  | none =>
    match resp.data with
    | none => [Effect.emit (Address.self sock.id) (ServerEvent.error "Error sending message")]
    | some chatMessage =>
      match chatMessage.user with
      | none => [Effect.emit (Address.self sock.id) (ServerEvent.error "Error sending message")]
      | some user =>
        let chatResponse : ChatResponse :=
          { id := chatMessage.row.id,
            message := chatMessage.row.message,
            user :=
              { id := jsOr JsVal.undefined (JsVal.str sock.userId),
                username := jsOr user.username (getField sock.user "username"),
                avatar := jsOr user.avatar (getField sock.user "avatar") },
            timestamp := chatMessage.row.created_at,
            roomId := sock.currentRoom }
        [Effect.emit (Address.all sock.currentRoom) (ServerEvent.chatMessage chatResponse)]

/-- The chat-message handler (lines 195-249); `insert` is the store answering the insert of
`room_id`, `user_id`, `message`. -/
def onChatMessage (insert : JsVal → String → String → Resp ChatRecord) (regs : Registries)
    (sock : Socket) (data : JsData) : Outcome :=
  if !sock.currentRoom.truthy then reject regs sock "Not in a room"
  else
    match data.prop "message" with
    | none => reject regs sock "Error sending message"
    | some message =>
      if !message.truthy then reject regs sock "Message cannot be empty"
      else
        match message.trim with
        | none => reject regs sock "Error sending message"
        | some trimmed =>
          if trimmed.length == 0 then reject regs sock "Message cannot be empty"
          else
            { regs := regs, sock := sock,
              effects :=
                Effect.store (StoreOp.insertChatMessage sock.currentRoom sock.userId trimmed) ::
                  onChatMessageResume sock (insert sock.currentRoom sock.userId trimmed) }

/-- The typing-start handler (lines 252-260). -/
def onTypingStart (regs : Registries) (sock : Socket) : Outcome :=
  if sock.currentRoom.truthy then
    { regs := regs, sock := sock,
      effects := [Effect.emit (Address.others sock.currentRoom sock.id)
        (ServerEvent.userTyping sock.userId (getField sock.user "username") true)] }
  else { regs := regs, sock := sock, effects := [] }

/-- The typing-stop handler (lines 262-270). -/
def onTypingStop (regs : Registries) (sock : Socket) : Outcome :=
  if sock.currentRoom.truthy then
    { regs := regs, sock := sock,
      effects := [Effect.emit (Address.others sock.currentRoom sock.id)
        (ServerEvent.userTyping sock.userId (getField sock.user "username") false)] }
  else { regs := regs, sock := sock, effects := [] }

/-- The disconnect handler (lines 273-307). -/
def onDisconnect (regs : Registries) (sock : Socket) (now : Nat) : Outcome :=
  let ac := mapDelete regs.activeConnections sock.userId
  let offline := Effect.store (StoreOp.updatePresence sock.userId false now)
  if sock.currentRoom.truthy && mapHas regs.roomConnections sock.currentRoom then
    let remaining := setDelete ((mapGet regs.roomConnections sock.currentRoom).getD []) sock.userId
    let rc1 := mapSet regs.roomConnections sock.currentRoom remaining
    let rc2 := if remaining.length == 0 then mapDelete rc1 sock.currentRoom else rc1
    { regs := { activeConnections := ac, roomConnections := rc2 },
      sock := sock,
      effects :=
        [Effect.emit (Address.others sock.currentRoom sock.id) (ServerEvent.userLeft (userInfo sock) now),
         offline] }
  else
    { regs := { activeConnections := ac, roomConnections := regs.roomConnections },
      sock := sock,
      effects := [offline] }

/-! ## The engine as a transition system -/

/-- The engine process and its store: the two registries, every socket created so far, and
the tables. -/
structure World where
  regs : Registries
  sockets : List Socket
  db : Db
  deriving DecidableEq

/-- What can happen to the engine: an authenticated connection, a client event on a socket,
a transport disconnect, or a change of the tables made by the HTTP controllers. A handler
that awaits the store runs to its end in one step. `fault` is the failure, if any, of the
store call the handler makes; `newId` and `now` are what the store and the clock assign. -/
inductive Input where
  | connection (socketId userId : String) (user : JsObj) (now : Nat) (fault : Option StoreError)
  | joinRoom (socketId : String) (data : JsData) (now : Nat) (fault : Option StoreError)
  | videoPlay (socketId : String) (data : JsData) (now later : Nat) (fault : Option StoreError)
  | videoPause (socketId : String) (data : JsData) (now later : Nat) (fault : Option StoreError)
  | videoSeek (socketId : String) (data : JsData) (now later : Nat) (fault : Option StoreError)
  | chatMessage (socketId : String) (data : JsData) (newId : String) (now : Nat)
      (fault : Option StoreError)
  | typingStart (socketId : String)
  | typingStop (socketId : String)
  | disconnect (socketId : String) (now : Nat) (fault : Option StoreError)
  | storeChanged (db : Db)
  deriving DecidableEq

/-- The connected socket with the given id. -/
def findSocket (sockets : List Socket) (socketId : String) : Option Socket :=
  sockets.find? (fun s => s.connected && decide (s.id = socketId))

/-- The socket list with the socket of the same id replaced. -/
def putSocket (sockets : List Socket) (sock : Socket) : List Socket :=
  sockets.map (fun s => if s.id = sock.id then sock else s)

/-- The store answering the query of the join-room handler over given tables. -/
def storeFetchRoom (db : Db) (fault : Option StoreError) : JsVal → Resp RoomRecord :=
  fun roomId => withFault fault (selectRoomForJoin db roomId)

/-- The store answering the insert of the chat-message handler over given tables. -/
def storeInsertChat (db : Db) (newId : String) (now : Nat) (fault : Option StoreError) :
    JsVal → String → String → Resp ChatRecord :=
  fun room_id user_id message => (insertChatMessage db room_id user_id message newId now fault).2

/-- The store answering the update of the playback handlers over given tables. -/
def storeUpdateVideo (db : Db) (fault : Option StoreError) : JsVal → JsObj → Resp Unit :=
  fun roomId current_video => (updateCurrentVideo db roomId current_video fault).2

/-- The tables after a store call. -/
def applyStoreOp (db : Db) (newId : String) (now : Nat) (fault : Option StoreError) :
    StoreOp → Db
  | .selectRoom _ => db
  | .updatePresence userId is_online last_seen =>
    (updatePresence db userId is_online last_seen fault).1
  | .updateCurrentVideo roomId current_video => (updateCurrentVideo db roomId current_video fault).1
  | .insertChatMessage room_id user_id message =>
    (insertChatMessage db room_id user_id message newId now fault).1

/-- The tables after the store calls among the effects of a handler. -/
def applyEffects (db : Db) (newId : String) (now : Nat) (fault : Option StoreError)
    (effects : List Effect) : Db :=
  effects.foldl (fun d e =>
    match e with
    | .store op => applyStoreOp d newId now fault op
    | .emit _ _ => d) db

/-- The world after a handler has run on a socket. -/
def commit (w : World) (out : Outcome) (newId : String) (now : Nat)
    (fault : Option StoreError) : World × List Effect :=
  ({ regs := out.regs, sockets := putSocket w.sockets out.sock,
     db := applyEffects w.db newId now fault out.effects }, out.effects)

/-- One step of the engine. An event for a socket that is not connected does nothing. On a
transport disconnect socket.io first takes the socket out of its rooms and marks it
disconnected, then runs the disconnect handler. -/
def step (w : World) : Input → World × List Effect
  | .connection socketId userId user now fault =>
    if w.sockets.any (fun s => decide (s.id = socketId)) then (w, [])
    else
      let sock : Socket :=
        { id := socketId, userId := userId, user := user, currentRoom := JsVal.undefined,
          rooms := [JsVal.str socketId], connected := true }
      let out := onConnection w.regs sock now
      ({ regs := out.regs, sockets := w.sockets ++ [out.sock],
         db := applyEffects w.db "" now fault out.effects }, out.effects)
  | .joinRoom socketId data now fault =>
    match findSocket w.sockets socketId with
    | none => (w, [])
    | some sock =>
      commit w (onJoinRoom (storeFetchRoom w.db fault) w.regs sock data now) "" now fault
  | .videoPlay socketId data now later fault =>
    match findSocket w.sockets socketId with
    | none => (w, [])
    | some sock =>
      commit w (onVideoPlay (storeUpdateVideo w.db fault) w.regs sock data now later)
        "" now fault
  | .videoPause socketId data now later fault =>
    match findSocket w.sockets socketId with
    | none => (w, [])
    | some sock =>
      commit w (onVideoPause (storeUpdateVideo w.db fault) w.regs sock data now later)
        "" now fault
  | .videoSeek socketId data now later fault =>
    match findSocket w.sockets socketId with
    | none => (w, [])
    | some sock =>
      commit w (onVideoSeek (storeUpdateVideo w.db fault) w.regs sock data now later)
        "" now fault
  | .chatMessage socketId data newId now fault =>
    match findSocket w.sockets socketId with
    | none => (w, [])
    | some sock =>
      commit w (onChatMessage (storeInsertChat w.db newId now fault) w.regs sock data)
        newId now fault
  | .typingStart socketId =>
    match findSocket w.sockets socketId with
    | none => (w, [])
    | some sock => commit w (onTypingStart w.regs sock) "" 0 none
  | .typingStop socketId =>
    match findSocket w.sockets socketId with
    | none => (w, [])
    | some sock => commit w (onTypingStop w.regs sock) "" 0 none
  | .disconnect socketId now fault =>
    match findSocket w.sockets socketId with
    | none => (w, [])
    | some sock =>
      commit w (onDisconnect w.regs { sock with rooms := [], connected := false } now)
        "" now fault
  | .storeChanged db => ({ w with db := db }, [])

/-- The world after a sequence of inputs. -/
def run (w : World) (inputs : List Input) : World :=
  inputs.foldl (fun v i => (step v i).1) w

/-- The engine at process start, over given tables: both maps empty, no socket. -/
def World.init (db : Db) : World :=
  { regs := { activeConnections := [], roomConnections := [] }, sockets := [], db := db }

/-- A world the engine can be in: reached from process start by some inputs. -/
def Reachable (w : World) : Prop :=
  ∃ db inputs, run (World.init db) inputs = w

/-- The live membership set of a room: `roomConnections.get(roomId)`, empty when absent. -/
def liveSet (regs : Registries) (roomId : JsVal) : List String :=
  (mapGet regs.roomConnections roomId).getD []

/-! ## Concrete scenarios -/

/-- A room row with the given id and activity flag. -/
def exampleRoom (id : String) (is_active : Bool) : RoomRow :=
  { id := id, name := id, description := "", host_id := "H",
    settings := { is_private := false, allow_chatting := true, allow_memes := true,
                  max_participants := 50 },
    is_active := is_active, current_video := none, created_at := 0 }

/-- Tables with active rooms R1 and R2, the deactivated room R3 and the room R4 that has no
participant row; user A is an active participant of R1, R2 and R3, user B of R1. -/
def exampleDb : Db :=
  { rooms := [exampleRoom "R1" true, exampleRoom "R2" true, exampleRoom "R3" false,
              exampleRoom "R4" true],
    room_participants :=
      [{ room_id := "R1", user_id := "A", is_active := true, joined_at := 0 },
       { room_id := "R2", user_id := "A", is_active := true, joined_at := 0 },
       { room_id := "R3", user_id := "A", is_active := true, joined_at := 0 },
       { room_id := "R1", user_id := "B", is_active := true, joined_at := 0 }],
    profiles :=
      [{ id := "A", username := JsVal.str "alice", email := JsVal.str "a@example.org",
         avatar := JsVal.null, is_online := false, last_seen := 0 },
       { id := "B", username := JsVal.str "bob", email := JsVal.str "b@example.org",
         avatar := JsVal.null, is_online := false, last_seen := 0 },
       { id := "C", username := JsVal.str "carol", email := JsVal.str "c@example.org",
         avatar := JsVal.null, is_online := false, last_seen := 0 }],
    chat_messages := [] }

/-- The object `socket.user` of user A. -/
def exampleUserA : JsObj :=
  [("id", JsVal.str "A"), ("email", JsVal.str "a@example.org"), ("username", JsVal.str "alice"),
   ("avatar", JsVal.null)]

/-- The object `socket.user` of user C, who is a participant of no room. -/
def exampleUserC : JsObj :=
  [("id", JsVal.str "C"), ("email", JsVal.str "c@example.org"), ("username", JsVal.str "carol"),
   ("avatar", JsVal.null)]

/-- The client event `join-room` with payload carrying the room id. -/
def exampleJoin (socketId roomId : String) : Input :=
  Input.joinRoom socketId (JsData.obj [("roomId", JsVal.str roomId)]) 1 none

/-- User A connects as socket s1 and joins room R1. -/
def worldAInR1 : World :=
  run (World.init exampleDb) [Input.connection "s1" "A" exampleUserA 0 none, exampleJoin "s1" "R1"]

/-- Then the same connection joins room R2. -/
def worldAInR2 : World := (step worldAInR1 (exampleJoin "s1" "R2")).1

/-- Then the connection is closed. -/
def worldAGone : World := (step worldAInR2 (Input.disconnect "s1" 2 none)).1

/-- The socket of user A while in room R1. -/
def socketAInR1 : Socket :=
  { id := "s1", userId := "A", user := exampleUserA, currentRoom := JsVal.str "R1",
    rooms := [JsVal.str "s1", JsVal.str "R1"], connected := true }

/-- The socket of user C after connecting, in no room. -/
def socketC : Socket :=
  { id := "s3", userId := "C", user := exampleUserC, currentRoom := JsVal.undefined,
    rooms := [JsVal.str "s3"], connected := true }

/-- The tables of `exampleDb` after the profile row of user A is gone. -/
def exampleDbNoProfileA : Db :=
  { exampleDb with profiles := exampleDb.profiles.filter (fun p => decide (p.id ≠ "A")) }

/-- The registries of `worldAInR1`. -/
def regsAInR1 : Registries :=
  { activeConnections := [("A", { socketId := "s1", user := exampleUserA, connectedAt := 0 })],
    roomConnections := [(JsVal.str "R1", ["A"])] }

/-- Whether the effect is a `room-state` event. -/
def Effect.isRoomState : Effect → Bool
  | .emit _ (.roomState _ _) => true
  | _ => false

/-- Whether the effect is a `chat-message` event. -/
def Effect.isChatMessage : Effect → Bool
  | .emit _ (.chatMessage _) => true
  | _ => false

/-- User A connected as socket s1, in no room yet. -/
def worldAConnected : World :=
  run (World.init exampleDb) [Input.connection "s1" "A" exampleUserA 0 none]

/-- A store that fails every update of `current_video`. -/
def failingUpdate : JsVal → JsObj → Resp Unit :=
  fun _ _ => { data := none, error := some ⟨"update failed"⟩ }

/-- A playback payload. -/
def examplePayload : JsData :=
  JsData.obj [("videoId", JsVal.str "v1"), ("position", JsVal.num 42)]

/-- The object `socket.user` of user B. -/
def exampleUserB : JsObj :=
  [("id", JsVal.str "B"), ("email", JsVal.str "b@example.org"), ("username", JsVal.str "bob"),
   ("avatar", JsVal.null)]

/-- The socket of user B while in room R1. -/
def socketBInR1 : Socket :=
  { id := "s2", userId := "B", user := exampleUserB, currentRoom := JsVal.str "R1",
    rooms := [JsVal.str "s2", JsVal.str "R1"], connected := true }

/-- The inputs by which A (socket s1) and then B (socket s2) connect and join room R1. -/
def inputsABJoinR1 : List Input :=
  [Input.connection "s1" "A" exampleUserA 0 none, exampleJoin "s1" "R1",
   Input.connection "s2" "B" exampleUserB 0 none, exampleJoin "s2" "R1"]

/-- Users A and B both connected and in room R1. -/
def worldABInR1 : World := run (World.init exampleDb) inputsABJoinR1

/-- Every connected socket that has a current room is joined to the socket.io room of that
name. -/
def JoinedToCurrentRoom (sockets : List Socket) : Prop :=
  ∀ s ∈ sockets, s.connected = true → s.currentRoom = JsVal.undefined ∨ s.currentRoom ∈ s.rooms

/-! ## Authentication (`authenticateSocket` and `utils/supabaseAuth`) -/

/-- The user object Supabase Auth returns, as far as the code reads it. -/
structure AuthUser where
  id : String
  email : JsVal
  deriving DecidableEq

/-- A call to the Identity Provider made during the handshake. -/
inductive IdentityCall where
  | getUser (token : JsVal)
  | selectProfile (userId : String)
  deriving DecidableEq

/-- The function `verifySupabaseToken` (supabaseAuth.js lines 3-15); `getUser` is
`supabaseAdmin.auth.getUser`, `none` is the thrown `Token verification failed`. -/
def verifySupabaseToken (getUser : JsVal → Resp AuthUser) (token : JsVal) : Option AuthUser :=
  match (getUser token).error, (getUser token).data with
  | none, some user => some user
  | _, _ => none

/-- The function `getUserProfile` (supabaseAuth.js lines 17-30); `selectProfile` is the query
`from('profiles').select('*').eq('id', userId).single()`, `none` is the thrown
`Failed to fetch user profile`, `some none` is a `null` record returned without error. -/
def getUserProfile (selectProfile : String → Resp JsObj) (userId : String) :
    Option (Option JsObj) :=
  match (selectProfile userId).error with
  | some _ => none
  | none => some (selectProfile userId).data

/-- The object literal with a trailing spread: the fields of `o` written over `base` in order. -/
def spreadInto (base o : JsObj) : JsObj :=
  o.foldl (fun acc e => setField acc e.1 e.2) base

/-- What the middleware passes to `next`: nothing (accepted, with the properties it set on
the socket) or an `Error` with the given reason. -/
inductive Handshake where
  | accepted (userId : String) (user : JsObj)
  | refused (reason : String)
  deriving DecidableEq

/-- The result of the middleware and the calls to the Identity Provider it made, in order. -/
structure AuthOutcome where
  result : Handshake
  calls : List IdentityCall
  deriving DecidableEq

/-- The middleware `authenticateSocket` (socketHandlers.js lines 8-30); `token` is
`socket.handshake.auth.token`. -/
def authenticateSocket (getUser : JsVal → Resp AuthUser) (selectProfile : String → Resp JsObj)
    (token : JsVal) : AuthOutcome :=
  if !token.truthy then
    { result := Handshake.refused "Authentication error: No token provided", calls := [] }
  else
    match verifySupabaseToken getUser token with
    | none =>
      { result := Handshake.refused "Authentication error: Invalid token",
        calls := [IdentityCall.getUser token] }
    | some user =>
      match getUserProfile selectProfile user.id with
      | none =>
        { result := Handshake.refused "Authentication error: Invalid token",
          calls := [IdentityCall.getUser token, IdentityCall.selectProfile user.id] }
      | some profile =>
        { result := Handshake.accepted user.id
            (spreadInto [("id", JsVal.str user.id), ("email", user.email)] (profile.getD [])),
          calls := [IdentityCall.getUser token, IdentityCall.selectProfile user.id] }

/-- A connection attempt: socket.io runs the middleware registered with `io.use` and fires
`connection` only when the middleware called `next()` without an error. -/
def connect (w : World) (getUser : JsVal → Resp AuthUser) (selectProfile : String → Resp JsObj)
    (socketId : String) (token : JsVal) (now : Nat) (fault : Option StoreError) :
    World × AuthOutcome :=
  match (authenticateSocket getUser selectProfile token).result with
  | .accepted userId user =>
    ((step w (Input.connection socketId userId user now fault)).1,
     authenticateSocket getUser selectProfile token)
  | .refused _ => (w, authenticateSocket getUser selectProfile token)

/-- The record `select('*')` returns for a profile row. -/
def profileObject (p : ProfileRow) : JsObj :=
  [("id", JsVal.str p.id), ("username", p.username), ("email", p.email), ("avatar", p.avatar),
   ("is_online", JsVal.bool p.is_online), ("last_seen", JsVal.date p.last_seen)]

/-- The store answering the profile query of `getUserProfile` over given tables. -/
def storeSelectProfile (db : Db) (fault : Option StoreError) : String → Resp JsObj :=
  fun userId =>
    withFault fault (single ((db.profiles.filter (fun p => decide (p.id = userId))).map profileObject))

/-! ## Predicates on steps and states -/

/-- The input is a join-room request of a socket of the user for the room, answered by the
store with the record of that room whose participant list holds a record of the user with
`is_active` true. -/
def ValidatedJoin (w : World) (i : Input) (room : JsVal) (userId : String) : Prop :=
  ∃ socketId data now fault sock record participants,
    i = Input.joinRoom socketId data now fault ∧
    findSocket w.sockets socketId = some sock ∧ sock.userId = userId ∧
    data.prop "roomId" = some room ∧
    storeFetchRoom w.db fault room = { data := some record, error := none } ∧
    record.row.id = jsToString room ∧
    record.participants = some participants ∧
    ∃ p ∈ participants, p.user_id = userId ∧ p.is_active = true

/-- No entry of `roomConnections` holds an empty set. -/
def NoEmptyRoom (regs : Registries) : Prop :=
  ∀ e ∈ regs.roomConnections, e.2 ≠ []

/-- Whether the effect is an emitted event. -/
def Effect.isEmit : Effect → Bool
  | .emit _ _ => true
  | .store _ => false

/-- Whether the effect is a `user-left` event. -/
def Effect.isUserLeft : Effect → Bool
  | .emit _ (.userLeft _ _) => true
  | _ => false

/-! ## Further scenarios -/

/-- Users A and B each connect twice (A as s1 and s4, B as s2 and s5) and all four
connections join room R1. -/
def inputsTwoConnectionsEach : List Input :=
  [Input.connection "s1" "A" exampleUserA 0 none, Input.connection "s4" "A" exampleUserA 0 none,
   Input.connection "s2" "B" exampleUserB 0 none, Input.connection "s5" "B" exampleUserB 0 none,
   exampleJoin "s1" "R1", exampleJoin "s4" "R1", exampleJoin "s2" "R1", exampleJoin "s5" "R1"]

/-- Then the first connection of A and the first connection of B are closed. -/
def worldSecondConnectionsLeft : World :=
  run (World.init exampleDb)
    (inputsTwoConnectionsEach ++ [Input.disconnect "s1" 2 none, Input.disconnect "s2" 3 none])

/-- User A connects as s1 and then, without s1 being closed, as s4. -/
def worldAReconnected : World :=
  run (World.init exampleDb)
    [Input.connection "s1" "A" exampleUserA 0 none, Input.connection "s4" "A" exampleUserA 1 none]

/-- An Identity Provider that knows the token `good` of user A and no other. -/
def exampleGetUser : JsVal → Resp AuthUser :=
  fun token =>
    if token = JsVal.str "good" then
      { data := some { id := "A", email := JsVal.str "a@example.org" }, error := none }
    else { data := none, error := some ⟨"invalid JWT"⟩ }

/-- The socket of user A after connecting, in no room. -/
def socketAConnected : Socket :=
  { id := "s1", userId := "A", user := exampleUserA, currentRoom := JsVal.undefined,
    rooms := [JsVal.str "s1"], connected := true }

/-- The socket of user B after connecting, in no room. -/
def socketBConnected : Socket :=
  { id := "s2", userId := "B", user := exampleUserB, currentRoom := JsVal.undefined,
    rooms := [JsVal.str "s2"], connected := true }

/-- The record the query of the join-room handler returns for room R1 over `exampleDb`. -/
def exampleRecordR1 : RoomRecord :=
  { row := exampleRoom "R1" true, participants := some (embedParticipants exampleDb "R1") }

/-- The registries with no room tracked yet. -/
def regsNoRoom : Registries :=
  { activeConnections := [("A", { socketId := "s1", user := exampleUserA, connectedAt := 0 }),
                          ("B", { socketId := "s2", user := exampleUserB, connectedAt := 0 })],
    roomConnections := [] }

/-- The registries with A and B in room R1 and C in room R2. -/
def regsTwoRooms : Registries :=
  { activeConnections := [],
    roomConnections := [(JsVal.str "R1", ["A", "B"]), (JsVal.str "R2", ["C"])] }

/-! ## Objects as sets of properties -/

/-- The two objects have the same own properties with the same values, whatever the order
in which they are listed. -/
def SameProperties (o1 o2 : JsObj) : Prop :=
  ∀ k, o1.lookup k = o2.lookup k

/-! ## The HTTP middleware `authenticateToken` (auth.js) -/

/-- The method call `s.split(' ')` on the characters of a string. -/
def splitOnSpace : List Char → List (List Char)
  | [] => [[]]
  | c :: cs =>
    if c = ' ' then [] :: splitOnSpace cs
    else
      match splitOnSpace cs with
      | [] => [[c]]
      | w :: ws => (c :: w) :: ws

/-- The expression `authHeader && authHeader.split(' ')[1]` (auth.js line 6), with `none` for
`undefined`: the header itself when it is missing or empty, else the second part. -/
def bearerToken (authHeader : Option String) : Option String :=
  match authHeader with
  | none => none
  | some h =>
    if h = "" then some ""
    else ((splitOnSpace h.data).get? 1).map String.mk

/-- What the HTTP middleware does: it calls `next()` with `req.user` set, or it answers. -/
inductive HttpAuth where
  | next (user : JsObj)
  | respond (status : Nat) (message : String)
  deriving DecidableEq

/-- The middleware `authenticateToken` (auth.js lines 3-26); `authHeader` is
`req.headers.authorization`. -/
def authenticateToken (getUser : JsVal → Resp AuthUser) (selectProfile : String → Resp JsObj)
    (authHeader : Option String) : HttpAuth :=
  match bearerToken authHeader with
  | none => HttpAuth.respond 401 "Access token required"
  | some token =>
    if token = "" then HttpAuth.respond 401 "Access token required"
    else
      match verifySupabaseToken getUser (JsVal.str token) with
      | none => HttpAuth.respond 401 "Invalid or expired token"
      | some user =>
        match getUserProfile selectProfile user.id with
        | none => HttpAuth.respond 401 "Invalid or expired token"
        | some profile =>
          HttpAuth.next
            (spreadInto [("id", JsVal.str user.id), ("email", user.email)] (profile.getD []))

/-! ## The HTTP operation `joinRoom` (roomController.js) -/

/-- The status and the `message` of the JSON body an HTTP handler answers with (the `room`
property of a success body is left out). -/
structure HttpResponse where
  status : Nat
  message : String
  deriving DecidableEq

/-- The number of participant rows of the room with `is_active` true. -/
def activeCount (db : Db) (roomId : String) : Nat :=
  (db.room_participants.filter (fun p => decide (p.room_id = roomId) && p.is_active)).length

/-- The first query of `joinRoom` (lines 83-88): the room by id with `is_active` true and its
participant rows (no inner join). -/
def selectActiveRoom (db : Db) (roomId : String) (fault : Option StoreError) :
    Resp (RoomRow × List ParticipantRow) :=
  withFault fault
    (single ((db.rooms.filter (fun r => decide (r.id = roomId) && r.is_active)).map
      (fun r => (r, db.room_participants.filter (fun p => decide (p.room_id = r.id))))))

/-- The update that reactivates a participant (lines 102-109). -/
def reactivateParticipant (db : Db) (roomId userId : String) (now : Nat) : Db :=
  { db with room_participants := db.room_participants.map (fun p =>
      if p.room_id = roomId ∧ p.user_id = userId then
        { p with is_active := true, joined_at := now }
      else p) }

/-- The insert of a new participant (lines 123-129); the store sets `joined_at`. -/
def insertParticipant (db : Db) (roomId userId : String) (now : Nat) : Db :=
  { db with room_participants := db.room_participants ++
      [{ room_id := roomId, user_id := userId, is_active := true, joined_at := now }] }

/-- The last part of `joinRoom` (lines 136-159): the room is read again, with the inner join
on its participants. -/
def joinRoomAnswer (db : Db) (roomId : String) (fault : Option StoreError) : HttpResponse :=
  match (withFault fault (selectRoomForJoin db (JsVal.str roomId))).error with
  | some _ => { status := 500, message := "Error fetching room data" }
  | none => { status := 200, message := "Joined room successfully" }

/-- The HTTP operation `joinRoom` (roomController.js lines 77-165): `roomId` is
`req.params.roomId`, `userId` is `req.user.id`; the three faults are those of the first query,
of the write and of the last query. Returns the tables it leaves and the answer. -/
def joinRoom (db : Db) (roomId userId : String) (now : Nat)
    (faultSelect faultWrite faultFetch : Option StoreError) : Db × HttpResponse :=
  match (selectActiveRoom db roomId faultSelect).error, (selectActiveRoom db roomId faultSelect).data with
  | some _, _ => (db, { status := 404, message := "Room not found or inactive" })
  | none, none => (db, { status := 404, message := "Room not found or inactive" })
  | none, some (room, participants) =>
    match participants.find? (fun p => decide (p.user_id = userId)) with
    | some existingParticipant =>
      if !existingParticipant.is_active then
        match faultWrite with
        | some _ => (db, { status := 500, message := "Error rejoining room" })
        | none =>
          (reactivateParticipant db roomId userId now,
           joinRoomAnswer (reactivateParticipant db roomId userId now) roomId faultFetch)
      else (db, joinRoomAnswer db roomId faultFetch)
    | none =>
      let activeParticipants := (participants.filter (fun p => p.is_active)).length
      if activeParticipants ≥ room.settings.max_participants then
        (db, { status := 400, message := "Room is full" })
      else
        match faultWrite with
        | some _ => (db, { status := 500, message := "Error joining room" })
        | none =>
          (insertParticipant db roomId userId now,
           joinRoomAnswer (insertParticipant db roomId userId now) roomId faultFetch)

/-! ## Pagination (`getRooms`, `listMemes`, `listReviews`) -/

/-- The values of the pagination arithmetic: a number (integers only), `NaN`, or a string. -/
inductive PageVal where
  | num (n : Int)
  | nan
  | text (s : String)
  deriving DecidableEq

/-- The value of a run of decimal digits read after `acc`; `none` on any other character. -/
def digitsValueAux (acc : Nat) : List Char → Option Nat
  | [] => some acc
  | c :: cs =>
    if c.isDigit then digitsValueAux (acc * 10 + (c.toNat - 48)) cs else none

/-- The conversion of a string to a number, for the strings that spell an integer in decimal
digits with an optional sign, white space around it allowed, and for the empty string, which
is 0; every other string gives `none`, standing for `NaN` (fractions, exponents and
prefixed literals are outside this model). -/
def parseNumber (s : String) : Option Int :=
  match trimChars s.data with
  | [] => some 0
  | '-' :: c :: cs => (digitsValueAux 0 (c :: cs)).map (fun n => -(n : Int))
  | '+' :: c :: cs => (digitsValueAux 0 (c :: cs)).map (fun n => (n : Int))
  | cs => (digitsValueAux 0 cs).map (fun n => (n : Int))

/-- The conversion `ToNumber`; `none` is `NaN`. -/
def PageVal.toNumber : PageVal → Option Int
  | .num n => some n
  | .nan => none
  | .text s => parseNumber s

/-- The conversion `ToString`. -/
def PageVal.toText : PageVal → String
  | .num n => toString n
  | .nan => "NaN"
  | .text s => s

/-- The operator `-`: both operands are converted to numbers. -/
def jsSub (a b : PageVal) : PageVal :=
  match a.toNumber, b.toNumber with
  | some x, some y => PageVal.num (x - y)
  | _, _ => PageVal.nan

/-- The operator `*`: both operands are converted to numbers. -/
def jsMul (a b : PageVal) : PageVal :=
  match a.toNumber, b.toNumber with
  | some x, some y => PageVal.num (x * y)
  | _, _ => PageVal.nan

/-- The operator `+`: string concatenation when either operand is a string, addition of
numbers otherwise. -/
def jsAdd (a b : PageVal) : PageVal :=
  match a, b with
  | .text s, _ => PageVal.text (s ++ b.toText)
  | _, .text t => PageVal.text (a.toText ++ t)
  | _, _ =>
    match a.toNumber, b.toNumber with
    | some x, some y => PageVal.num (x + y)
    | _, _ => PageVal.nan

/-- A property of `req.query` destructured with a numeric default: the default when the
parameter is absent, else the string the query carries. -/
def queryOrDefault (param : Option String) (dflt : Int) : PageVal :=
  match param with
  | none => PageVal.num dflt
  | some s => PageVal.text s

/-- The two arguments of `.range(offset, offset + limit - 1)` with
`offset = (page - 1) * limit`. -/
def pageRange (page limit : PageVal) : PageVal × PageVal :=
  let offset := jsMul (jsSub page (PageVal.num 1)) limit
  (offset, jsSub (jsAdd offset limit) (PageVal.num 1))

/-- The range `getRooms` asks the store for (roomController.js lines 192-193 and 208). -/
def getRoomsRange (page limit : Option String) : PageVal × PageVal :=
  pageRange (queryOrDefault page 1) (queryOrDefault limit 10)

/-- The range `listMemes` asks the store for (memeController.js lines 62-63 and 96). -/
def listMemesRange (page limit : Option String) : PageVal × PageVal :=
  pageRange (queryOrDefault page 1) (queryOrDefault limit 20)

/-- The range `listReviews` asks the store for (reviewController.js lines 71-72 and 92). -/
def listReviewsRange (page limit : Option String) : PageVal × PageVal :=
  pageRange (queryOrDefault page 1) (queryOrDefault limit 10)

/-- The number of rows a range asks for, when both ends are numbers. -/
def rowsRequested (r : PageVal × PageVal) : Option Int :=
  match r.1, r.2 with
  | .num a, .num b => some (b - a + 1)
  | _, _ => none

/-! ## Scenarios for playback state, identity and capacity -/

/-- A playback state with a media descriptor, the is-playing flag and a position. -/
def examplePriorState : JsObj :=
  [("videoId", JsVal.str "v1"), ("is_playing", JsVal.bool true), ("position", JsVal.num 10),
   ("last_updated", JsVal.date 1)]

/-- The tables of `exampleDb` with room R1 holding `examplePriorState`. -/
def exampleDbPlaying : Db :=
  { exampleDb with rooms := exampleDb.rooms.map (fun r =>
      if r.id = "R1" then { r with current_video := some examplePriorState } else r) }

/-- User A in room R1 over `exampleDbPlaying`. -/
def worldAInR1Playing : World :=
  run (World.init exampleDb)
    [Input.connection "s1" "A" exampleUserA 0 none, exampleJoin "s1" "R1",
     Input.storeChanged exampleDbPlaying]

/-- A seek payload that carries the position only. -/
def exampleSeek : JsData := JsData.obj [("position", JsVal.num 42)]

/-- The tables of `exampleDb` after the profile of A was left with an older email. -/
def exampleDbStaleEmail : Db :=
  { exampleDb with profiles := exampleDb.profiles.map (fun p =>
      if p.id = "A" then { p with email := JsVal.str "old@example.org" } else p) }

/-- Tables with room R5 of capacity one, where user A is an active participant and user B an
inactive one. -/
def exampleDbFull : Db :=
  { rooms :=
      [{ id := "R5", name := "R5", description := "", host_id := "A",
         settings := { is_private := false, allow_chatting := true, allow_memes := true,
                       max_participants := 1 },
         is_active := true, current_video := none, created_at := 0 }],
    room_participants :=
      [{ room_id := "R5", user_id := "A", is_active := true, joined_at := 0 },
       { room_id := "R5", user_id := "B", is_active := false, joined_at := 0 }],
    profiles := exampleDb.profiles,
    chat_messages := [] }

/-! ## Theorems -/

/-! ### Auxiliary facts -/

/-- A socket id receives what is sent to the others of a room exactly when it is joined to
the room and is not the sending socket. -/
theorem mem_recipients_others (sockets : List Socket) (room : JsVal) (socketId i : String) :
    i ∈ recipients sockets (Address.others room socketId) ↔
      i ∈ members sockets room ∧ i ≠ socketId := by
  simp [recipients, List.mem_filter]

/-- Membership in a socket.io room. -/
theorem mem_members (sockets : List Socket) (room : JsVal) (i : String) :
    i ∈ members sockets room ↔
      ∃ s ∈ sockets, s.connected = true ∧ room ∈ s.rooms ∧ s.id = i := by
  simp [members, List.mem_filter, and_assoc]

/-- What `trim` returns is the argument without a prefix and a suffix of white space. -/
theorem trimChars_decompose (cs : List Char) :
    ∃ pre post, cs = pre ++ trimChars cs ++ post ∧
      pre.all isJsWhiteSpace = true ∧ post.all isJsWhiteSpace = true := by
  refine ⟨cs.takeWhile isJsWhiteSpace,
    ((cs.dropWhile isJsWhiteSpace).reverse.takeWhile isJsWhiteSpace).reverse, ?_, ?_, ?_⟩
  · have h1 := List.takeWhile_append_dropWhile isJsWhiteSpace cs
    have h2 := List.takeWhile_append_dropWhile isJsWhiteSpace (cs.dropWhile isJsWhiteSpace).reverse
    have h3 : cs.dropWhile isJsWhiteSpace =
        ((cs.dropWhile isJsWhiteSpace).reverse.dropWhile isJsWhiteSpace).reverse ++
          ((cs.dropWhile isJsWhiteSpace).reverse.takeWhile isJsWhiteSpace).reverse := by
      rw [← List.reverse_append, h2, List.reverse_reverse]
    unfold trimChars
    rw [List.append_assoc, ← h3, h1]
  · exact List.all_takeWhile
  · rw [List.all_reverse]; exact List.all_takeWhile

/-- The last character `trim` leaves is not white space. -/
theorem trimChars_last_not_space (cs : List Char) (c : Char)
    (h : (trimChars cs).getLast? = some c) : isJsWhiteSpace c = false := by
  unfold trimChars at h
  rw [List.getLast?_reverse] at h
  have := List.head?_dropWhile_not isJsWhiteSpace (cs.dropWhile isJsWhiteSpace).reverse
  rw [h] at this
  simpa using this

/-- The first character `trim` leaves is not white space. -/
theorem trimChars_head_not_space (cs : List Char) (c : Char)
    (h : (trimChars cs).head? = some c) : isJsWhiteSpace c = false := by
  have hne : trimChars cs ≠ [] := by
    intro h0; rw [h0] at h; simp at h
  have h3 : cs.dropWhile isJsWhiteSpace =
      trimChars cs ++ ((cs.dropWhile isJsWhiteSpace).reverse.takeWhile isJsWhiteSpace).reverse := by
    have h2 := List.takeWhile_append_dropWhile isJsWhiteSpace (cs.dropWhile isJsWhiteSpace).reverse
    unfold trimChars
    rw [← List.reverse_append, h2, List.reverse_reverse]
  have h4 : (cs.dropWhile isJsWhiteSpace).head? = some c := by
    rw [h3, List.head?_append_of_ne_nil _ hne, h]
  have := List.head?_dropWhile_not isJsWhiteSpace cs
  rw [h4] at this
  simpa using this

/-- A non-empty result of `trim` is not made of white space only. -/
theorem trimChars_not_blank (cs : List Char) (h : trimChars cs ≠ []) :
    (trimChars cs).all isJsWhiteSpace = false := by
  cases hh : (trimChars cs).head? with
  | none => simp at hh; exact absurd hh h
  | some c =>
    have hc := trimChars_head_not_space cs c hh
    have hmem : c ∈ trimChars cs := List.mem_of_mem_head? hh
    rw [Bool.eq_false_iff]
    intro hall
    rw [List.all_eq_true] at hall
    have := hall c hmem
    rw [hc] at this
    exact Bool.false_ne_true this

/-- The test `message.trim().length === 0` is the test that the trimmed text is empty. -/
theorem jsTrim_eq_empty_iff (s : String) : jsTrim s = "" ↔ (jsTrim s).length = 0 := by
  constructor
  · intro h; rw [h]; rfl
  · intro h
    have hd : (jsTrim s).data = [] := List.length_eq_zero.1 h
    exact String.ext hd

/-- A chat message from a connection in a room whose text is not blank passes validation:
the insert is issued with the trimmed text and the handler goes on with the response. -/
theorem chat_effects_of_accepted (insert : JsVal → String → String → Resp ChatRecord)
    (regs : Registries) (sock : Socket) (data : JsData) (msg : String)
    (hroom : sock.currentRoom.truthy = true)
    (hmsg : data.prop "message" = some (JsVal.str msg))
    (hne : jsTrim msg ≠ "") :
    onChatMessage insert regs sock data =
      { regs := regs, sock := sock,
        effects :=
          Effect.store (StoreOp.insertChatMessage sock.currentRoom sock.userId (jsTrim msg)) ::
            onChatMessageResume sock (insert sock.currentRoom sock.userId (jsTrim msg)) } := by
  have hm : (JsVal.str msg).truthy = true := by
    cases h : (JsVal.str msg).truthy with
    | true => rfl
    | false =>
      have : msg = "" := by simpa [JsVal.truthy] using h
      subst this
      exact absurd (by decide) hne
  have hl : ¬ (jsTrim msg).length = 0 := fun h => hne ((jsTrim_eq_empty_iff msg).2 h)
  unfold onChatMessage
  simp [hroom, hmsg, hm, JsVal.trim, hl]

/-- No embedded participant is an active record of the user when no participant row is. -/
theorem any_embedParticipants_false (db : Db) (roomId userId : String)
    (hnot : ∀ p ∈ db.room_participants, p.room_id = roomId → p.user_id = userId →
      p.is_active = false) :
    (embedParticipants db roomId).any
      (fun p => decide (p.user_id = userId) && p.is_active) = false := by
  rw [Bool.eq_false_iff]
  intro h
  rw [List.any_eq_true] at h
  obtain ⟨e, he, hp⟩ := h
  unfold embedParticipants at he
  rw [List.mem_map] at he
  obtain ⟨p, hpm, rfl⟩ := he
  rw [List.mem_filter] at hpm
  simp only [Bool.and_eq_true, decide_eq_true_eq] at hp hpm
  have := hnot p hpm.1 hpm.2 hp.1
  rw [this] at hp
  exact Bool.false_ne_true hp.2

/-- The element added to a set is in it. -/
theorem mem_setAdd_self {α : Type} [DecidableEq α] (s : List α) (x : α) : x ∈ setAdd s x := by
  unfold setAdd
  split
  · assumption
  · simp

/-- A socket of the list after a replacement is an old one or the new one. -/
theorem mem_putSocket (sockets : List Socket) (x s : Socket) (h : s ∈ putSocket sockets x) :
    s ∈ sockets ∨ s = x := by
  unfold putSocket at h
  rw [List.mem_map] at h
  obtain ⟨t, ht, rfl⟩ := h
  split
  · exact Or.inr rfl
  · exact Or.inl ht

/-- The socket found is in the list. -/
theorem findSocket_mem (sockets : List Socket) (socketId : String) (sock : Socket)
    (h : findSocket sockets socketId = some sock) : sock ∈ sockets :=
  List.mem_of_find?_eq_some h

/-- The join-room handler leaves the socket as it was or joined to its current room. -/
theorem onJoinRoomResume_sock (regs : Registries) (sock : Socket) (roomId : JsVal)
    (resp : Resp RoomRecord) (now : Nat) :
    (onJoinRoomResume regs sock roomId resp now).sock = sock ∨
      (onJoinRoomResume regs sock roomId resp now).sock.currentRoom ∈
        (onJoinRoomResume regs sock roomId resp now).sock.rooms := by
  obtain ⟨data, error⟩ := resp
  cases error with
  | some e => left; simp [onJoinRoomResume, reject]
  | none =>
    cases data with
    | none => left; simp [onJoinRoomResume, reject]
    | some room =>
      obtain ⟨row, participants⟩ := room
      cases participants with
      | none => left; simp [onJoinRoomResume, reject]
      | some ps =>
        by_cases hp : ps.any (fun p => decide (p.user_id = sock.userId) && p.is_active) = true
        · right
          simp only [onJoinRoomResume, hp, Bool.not_true, Bool.false_eq_true, if_false]
          exact mem_setAdd_self _ _
        · left
          simp [onJoinRoomResume, reject, hp]

/-- The join-room handler leaves the socket as it was or joined to its current room. -/
theorem onJoinRoom_sock (fetchRoom : JsVal → Resp RoomRecord) (regs : Registries) (sock : Socket)
    (data : JsData) (now : Nat) :
    (onJoinRoom fetchRoom regs sock data now).sock = sock ∨
      (onJoinRoom fetchRoom regs sock data now).sock.currentRoom ∈
        (onJoinRoom fetchRoom regs sock data now).sock.rooms := by
  unfold onJoinRoom
  cases data.prop "roomId" with
  | none => left; rfl
  | some roomId => exact onJoinRoomResume_sock regs sock roomId (fetchRoom roomId) now

/-- Committing an outcome whose socket is joined to its current room keeps the invariant. -/
theorem joined_commit (w : World) (out : Outcome) (newId : String) (now : Nat)
    (fault : Option StoreError) (hw : JoinedToCurrentRoom w.sockets)
    (hout : out.sock.connected = true →
      out.sock.currentRoom = JsVal.undefined ∨ out.sock.currentRoom ∈ out.sock.rooms) :
    JoinedToCurrentRoom (commit w out newId now fault).1.sockets := by
  intro s hs hc
  rcases mem_putSocket _ _ _ hs with h | h
  · exact hw s h hc
  · subst h; exact hout hc

/-- One step of the engine keeps every connected socket joined to its current room. -/
theorem joined_step (w : World) (i : Input) (hw : JoinedToCurrentRoom w.sockets) :
    JoinedToCurrentRoom (step w i).1.sockets := by
  cases i with
  | connection socketId userId user now fault =>
    simp only [step]
    split
    · exact hw
    · intro s hs hc
      simp only [onConnection, List.mem_append, List.mem_singleton] at hs
      rcases hs with h | h
      · exact hw s h hc
      · subst h; left; rfl
  | joinRoom socketId data now fault =>
    simp only [step]
    cases hf : findSocket w.sockets socketId with
    | none => exact hw
    | some sock =>
      dsimp only
      apply joined_commit _ _ _ _ _ hw
      intro hc
      rcases onJoinRoom_sock (storeFetchRoom w.db fault) w.regs sock data now with h | h
      · rw [h] at hc ⊢
        exact hw sock (findSocket_mem _ _ _ hf) hc
      · exact Or.inr h
  | videoPlay socketId data now later fault =>
    simp only [step]
    cases hf : findSocket w.sockets socketId with
    | none => exact hw
    | some sock =>
      dsimp only
      apply joined_commit _ _ _ _ _ hw
      have : (onVideoPlay (storeUpdateVideo w.db fault) w.regs sock data now later).sock = sock := by
        unfold onVideoPlay; split <;> rfl
      rw [this]
      exact hw sock (findSocket_mem _ _ _ hf)
  | videoPause socketId data now later fault =>
    simp only [step]
    cases hf : findSocket w.sockets socketId with
    | none => exact hw
    | some sock =>
      dsimp only
      apply joined_commit _ _ _ _ _ hw
      have : (onVideoPause (storeUpdateVideo w.db fault) w.regs sock data now later).sock = sock := by
        unfold onVideoPause; split <;> rfl
      rw [this]
      exact hw sock (findSocket_mem _ _ _ hf)
  | videoSeek socketId data now later fault =>
    simp only [step]
    cases hf : findSocket w.sockets socketId with
    | none => exact hw
    | some sock =>
      dsimp only
      apply joined_commit _ _ _ _ _ hw
      have : (onVideoSeek (storeUpdateVideo w.db fault) w.regs sock data now later).sock = sock := by
        unfold onVideoSeek; split <;> rfl
      rw [this]
      exact hw sock (findSocket_mem _ _ _ hf)
  | chatMessage socketId data newId now fault =>
    simp only [step]
    cases hf : findSocket w.sockets socketId with
    | none => exact hw
    | some sock =>
      dsimp only
      apply joined_commit _ _ _ _ _ hw
      have : (onChatMessage (storeInsertChat w.db newId now fault) w.regs sock data).sock = sock := by
        unfold onChatMessage reject; repeat' split
        all_goals rfl
      rw [this]
      exact hw sock (findSocket_mem _ _ _ hf)
  | typingStart socketId =>
    simp only [step]
    cases hf : findSocket w.sockets socketId with
    | none => exact hw
    | some sock =>
      dsimp only
      apply joined_commit _ _ _ _ _ hw
      have : (onTypingStart w.regs sock).sock = sock := by
        unfold onTypingStart; split <;> rfl
      rw [this]
      exact hw sock (findSocket_mem _ _ _ hf)
  | typingStop socketId =>
    simp only [step]
    cases hf : findSocket w.sockets socketId with
    | none => exact hw
    | some sock =>
      dsimp only
      apply joined_commit _ _ _ _ _ hw
      have : (onTypingStop w.regs sock).sock = sock := by
        unfold onTypingStop; split <;> rfl
      rw [this]
      exact hw sock (findSocket_mem _ _ _ hf)
  | disconnect socketId now fault =>
    simp only [step]
    cases hf : findSocket w.sockets socketId with
    | none => exact hw
    | some sock =>
      dsimp only
      apply joined_commit _ _ _ _ _ hw
      have : (onDisconnect w.regs { sock with rooms := [], connected := false } now).sock =
          { sock with rooms := [], connected := false } := by
        unfold onDisconnect; simp only; split <;> rfl
      rw [this]
      intro hc
      simp at hc
  | storeChanged db => exact hw

/-- A run of the engine keeps every connected socket joined to its current room. -/
theorem joined_run (inputs : List Input) (w : World) (hw : JoinedToCurrentRoom w.sockets) :
    JoinedToCurrentRoom (run w inputs).sockets := by
  induction inputs generalizing w with
  | nil => exact hw
  | cons i rest ih => exact ih (step w i).1 (joined_step w i hw)

/-- In a reachable world every connected socket is joined to its current room. -/
theorem joined_of_reachable (w : World) (h : Reachable w) : JoinedToCurrentRoom w.sockets := by
  obtain ⟨db, inputs, rfl⟩ := h
  apply joined_run
  intro s hs
  simp [World.init] at hs

/-- A chat-message event is emitted only by a connection whose current room is truthy. -/
theorem currentRoom_truthy_of_chat_emitted (insert : JsVal → String → String → Resp ChatRecord)
    (regs : Registries) (sock : Socket) (data : JsData) (dest : Address)
    (chatResponse : ChatResponse)
    (h : Effect.emit dest (ServerEvent.chatMessage chatResponse) ∈
      (onChatMessage insert regs sock data).effects) :
    sock.currentRoom.truthy = true := by
  cases ht : sock.currentRoom.truthy with
  | true => rfl
  | false => simp [onChatMessage, ht, reject] at h

/-- `Map.get` on a list with a first entry. -/
theorem mapGet_cons {κ ν : Type} [DecidableEq κ] (e : κ × ν) (m : List (κ × ν)) (k : κ) :
    mapGet (e :: m) k = if e.1 = k then some e.2 else mapGet m k := by
  by_cases h : e.1 = k <;> simp [mapGet, List.find?_cons, h]

/-- `Map.has` on a list with a first entry. -/
theorem mapHas_cons {κ ν : Type} [DecidableEq κ] (e : κ × ν) (m : List (κ × ν)) (k : κ) :
    mapHas (e :: m) k = (decide (e.1 = k) || mapHas m k) := rfl

/-- Reading a key after its entries have been overwritten. -/
theorem mapGet_map_self {κ ν : Type} [DecidableEq κ] (m : List (κ × ν)) (k : κ) (v : ν)
    (h : mapHas m k = true) :
    mapGet (m.map (fun e => if e.1 = k then (k, v) else e)) k = some v := by
  induction m with
  | nil => simp [mapHas] at h
  | cons e rest ih =>
    rw [List.map_cons, mapGet_cons]
    by_cases he : e.1 = k
    · simp [he]
    · rw [mapHas_cons] at h
      simp only [he, decide_False, Bool.false_or] at h
      simp only [he, if_false]
      exact ih h

/-- Reading a key after its entry has been appended. -/
theorem mapGet_append_self {κ ν : Type} [DecidableEq κ] (m : List (κ × ν)) (k : κ) (v : ν)
    (h : mapHas m k = false) : mapGet (m ++ [(k, v)]) k = some v := by
  induction m with
  | nil => simp [mapGet_cons, mapGet]
  | cons e rest ih =>
    rw [mapHas_cons] at h
    simp only [Bool.or_eq_false_iff, decide_eq_false_iff_not] at h
    rw [List.cons_append, mapGet_cons]
    simp only [h.1, if_false]
    exact ih h.2

/-- `Map.get` after `Map.set` of the same key. -/
theorem mapGet_mapSet_self {κ ν : Type} [DecidableEq κ] (m : List (κ × ν)) (k : κ) (v : ν) :
    mapGet (mapSet m k v) k = some v := by
  unfold mapSet
  cases h : mapHas m k with
  | true => simp only [if_true]; exact mapGet_map_self m k v h
  | false => simp only [Bool.false_eq_true, if_false]; exact mapGet_append_self m k v h

/-- Overwriting the entries of a key leaves the other keys as they were. -/
theorem mapGet_map_other {κ ν : Type} [DecidableEq κ] (m : List (κ × ν)) (k k2 : κ) (v : ν)
    (hk : k2 ≠ k) :
    mapGet (m.map (fun e => if e.1 = k then (k, v) else e)) k2 = mapGet m k2 := by
  induction m with
  | nil => rfl
  | cons e rest ih =>
    rw [List.map_cons, mapGet_cons, mapGet_cons, ih]
    by_cases he : e.1 = k
    · have h2 : ¬ e.1 = k2 := by rw [he]; exact fun h => hk h.symm
      simp [he, h2, Ne.symm hk]
    · simp [he]

/-- Appending an entry of a key leaves the other keys as they were. -/
theorem mapGet_append_other {κ ν : Type} [DecidableEq κ] (m : List (κ × ν)) (k k2 : κ) (v : ν)
    (hk : k2 ≠ k) : mapGet (m ++ [(k, v)]) k2 = mapGet m k2 := by
  induction m with
  | nil => simp [mapGet_cons, mapGet, Ne.symm hk]
  | cons e rest ih => rw [List.cons_append, mapGet_cons, mapGet_cons, ih]

/-- `Map.get` after `Map.set` of another key. -/
theorem mapGet_mapSet_other {κ ν : Type} [DecidableEq κ] (m : List (κ × ν)) (k k2 : κ) (v : ν)
    (hk : k2 ≠ k) : mapGet (mapSet m k v) k2 = mapGet m k2 := by
  unfold mapSet
  split
  · exact mapGet_map_other m k k2 v hk
  · exact mapGet_append_other m k k2 v hk

/-- `Map.delete` on a list with a first entry. -/
theorem mapDelete_cons {κ ν : Type} [DecidableEq κ] (e : κ × ν) (m : List (κ × ν)) (k : κ) :
    mapDelete (e :: m) k = if e.1 = k then mapDelete m k else e :: mapDelete m k := by
  by_cases h : e.1 = k <;> simp [mapDelete, List.filter_cons, h]

/-- `Map.get` after `Map.delete` of the same key. -/
theorem mapGet_mapDelete_self {κ ν : Type} [DecidableEq κ] (m : List (κ × ν)) (k : κ) :
    mapGet (mapDelete m k) k = none := by
  induction m with
  | nil => rfl
  | cons e rest ih =>
    rw [mapDelete_cons]
    by_cases he : e.1 = k
    · simp only [he, if_true]; exact ih
    · simp only [he, if_false]; rw [mapGet_cons]; simp only [he, if_false]; exact ih

/-- `Map.get` after `Map.delete` of another key. -/
theorem mapGet_mapDelete_other {κ ν : Type} [DecidableEq κ] (m : List (κ × ν)) (k k2 : κ)
    (hk : k2 ≠ k) : mapGet (mapDelete m k) k2 = mapGet m k2 := by
  induction m with
  | nil => rfl
  | cons e rest ih =>
    rw [mapDelete_cons, mapGet_cons]
    by_cases he : e.1 = k
    · have h2 : ¬ e.1 = k2 := by rw [he]; exact fun h => hk h.symm
      have h3 : ¬ k = k2 := fun h => hk h.symm
      simp only [he, if_true, h3, if_false]
      exact ih
    · simp only [he, if_false]
      rw [mapGet_cons, ih]

/-- `Map.get` of a key the map does not have. -/
theorem mapGet_eq_none_of_not_has {κ ν : Type} [DecidableEq κ] (m : List (κ × ν)) (k : κ)
    (h : mapHas m k = false) : mapGet m k = none := by
  induction m with
  | nil => rfl
  | cons e rest ih =>
    rw [mapHas_cons] at h
    simp only [Bool.or_eq_false_iff, decide_eq_false_iff_not] at h
    rw [mapGet_cons]
    simp only [h.1, if_false]
    exact ih h.2

/-- An entry after `Map.set` is an old entry of another key or the entry set. -/
theorem mem_mapSet {κ ν : Type} [DecidableEq κ] (m : List (κ × ν)) (k : κ) (v : ν)
    (e : κ × ν) (h : e ∈ mapSet m k v) : (e ∈ m ∧ e.1 ≠ k) ∨ e = (k, v) := by
  unfold mapSet at h
  split at h
  · rw [List.mem_map] at h
    obtain ⟨a, ha, rfl⟩ := h
    by_cases hk : a.1 = k
    · right; simp [hk]
    · left; simp [hk, ha]
  · rename_i hn
    rw [List.mem_append] at h
    rcases h with h | h
    · left
      refine ⟨h, fun hk => hn ?_⟩
      simp only [mapHas, List.any_eq_true, decide_eq_true_eq]
      exact ⟨e, h, hk⟩
    · right; simpa using h

/-- An entry after `Map.delete` is an old entry of another key. -/
theorem mem_mapDelete {κ ν : Type} [DecidableEq κ] (m : List (κ × ν)) (k : κ)
    (e : κ × ν) (h : e ∈ mapDelete m k) : e ∈ m ∧ e.1 ≠ k := by
  simpa [mapDelete, List.mem_filter] using h

/-- Membership after `Set.add`. -/
theorem mem_setAdd {α : Type} [DecidableEq α] (s : List α) (x y : α) :
    y ∈ setAdd s x ↔ y ∈ s ∨ y = x := by
  unfold setAdd
  split
  · rename_i h
    constructor
    · exact Or.inl
    · rintro (h1 | h1)
      · exact h1
      · rw [h1]; exact h
  · simp

/-- Membership after `Set.delete`. -/
theorem mem_setDelete {α : Type} [DecidableEq α] (s : List α) (x y : α) :
    y ∈ setDelete s x ↔ y ∈ s ∧ y ≠ x := by
  simp [setDelete, List.mem_filter]

/-- The outcome of the join-room handler when the store returned a room whose participant
list holds an active record of the requester (both guards pass). -/
theorem onJoinRoomResume_accepted (regs : Registries) (sock : Socket) (roomId : JsVal)
    (room : RoomRecord) (ps : List ParticipantEmbed) (now : Nat)
    (hps : room.participants = some ps)
    (hany : ps.any (fun p => decide (p.user_id = sock.userId) && p.is_active) = true) :
    (onJoinRoomResume regs sock roomId { data := some room, error := none } now).effects =
      [Effect.emit (Address.others roomId sock.id) (ServerEvent.userJoined (userInfo sock) now),
       Effect.emit (Address.self sock.id)
         (ServerEvent.roomState room (setAdd (liveSet regs roomId) sock.userId))] ∧
    liveSet (onJoinRoomResume regs sock roomId { data := some room, error := none } now).regs
      roomId = setAdd (liveSet regs roomId) sock.userId ∧
    (∀ r, r ≠ roomId →
      mapGet (onJoinRoomResume regs sock roomId { data := some room, error := none }
        now).regs.roomConnections r = mapGet regs.roomConnections r) ∧
    (onJoinRoomResume regs sock roomId { data := some room, error := none }
        now).regs.activeConnections = regs.activeConnections ∧
    (onJoinRoomResume regs sock roomId { data := some room, error := none } now).sock =
      { sock with rooms := setAdd sock.rooms roomId, currentRoom := roomId } := by
  have hset : ∀ rc0 : List (JsVal × List String),
      (mapGet (mapSet rc0 roomId (setAdd ((mapGet rc0 roomId).getD []) sock.userId)) roomId).getD []
        = setAdd ((mapGet rc0 roomId).getD []) sock.userId := by
    intro rc0; rw [mapGet_mapSet_self]; rfl
  cases hh : mapHas regs.roomConnections roomId with
  | true =>
    simp only [onJoinRoomResume, hps, hany, hh, Bool.not_true, Bool.false_eq_true, if_false,
      liveSet, hset]
    refine ⟨trivial, trivial, ?_, trivial, trivial⟩
    intro r hr
    exact mapGet_mapSet_other _ _ _ _ hr
  | false =>
    have hnone := mapGet_eq_none_of_not_has _ _ hh
    have h0 : (mapGet (mapSet regs.roomConnections roomId ([] : List String)) roomId).getD [] =
        (mapGet regs.roomConnections roomId).getD [] := by
      rw [mapGet_mapSet_self, hnone]; rfl
    simp only [onJoinRoomResume, hps, hany, hh, Bool.not_true, Bool.not_false, Bool.false_eq_true,
      if_false, if_true, liveSet, h0]
    refine ⟨?_, ?_, ?_, trivial, trivial⟩
    · rw [mapGet_mapSet_self]; rfl
    · rw [mapGet_mapSet_self]; rfl
    intro r hr
    rw [mapGet_mapSet_other _ _ _ _ hr, mapGet_mapSet_other _ _ _ _ hr]

/-- The outcome of the join-room handler when a guard fails: one error event to the sender,
no change of state. -/
theorem onJoinRoomResume_rejected (regs : Registries) (sock : Socket) (roomId : JsVal)
    (resp : Resp RoomRecord) (now : Nat) :
    (resp.error ≠ none ∨ resp.data = none →
      onJoinRoomResume regs sock roomId resp now = reject regs sock "Room not found") ∧
    (∀ room, resp.error = none → resp.data = some room → room.participants = none →
      onJoinRoomResume regs sock roomId resp now = reject regs sock "Error joining room") ∧
    (∀ room ps, resp.error = none → resp.data = some room → room.participants = some ps →
      ps.any (fun p => decide (p.user_id = sock.userId) && p.is_active) = false →
      onJoinRoomResume regs sock roomId resp now =
        reject regs sock "Not authorized to join this room") := by
  obtain ⟨data, error⟩ := resp
  refine ⟨?_, ?_, ?_⟩
  · intro h
    cases error with
    | some e => simp [onJoinRoomResume]
    | none =>
      rcases h with h | h
      · exact absurd rfl h
      · simp only at h; subst h; simp [onJoinRoomResume]
  · intro room he hd hp
    simp only at he hd; subst he; subst hd
    simp [onJoinRoomResume, hp]
  · intro room ps he hd hp hany
    simp only at he hd; subst he; subst hd
    simp [onJoinRoomResume, hp, hany]

/-- The disconnect handler leaves the set of every room other than the current one as it was. -/
theorem onDisconnect_other (regs : Registries) (sock : Socket) (now : Nat) (r : JsVal)
    (hr : r ≠ sock.currentRoom) :
    mapGet (onDisconnect regs sock now).regs.roomConnections r = mapGet regs.roomConnections r := by
  unfold onDisconnect
  simp only
  split
  · split
    · rw [mapGet_mapDelete_other _ _ _ hr, mapGet_mapSet_other _ _ _ _ hr]
    · rw [mapGet_mapSet_other _ _ _ _ hr]
  · rfl

/-- The disconnect handler takes the user id, and nothing else, out of the set of the
current room. -/
theorem onDisconnect_current (regs : Registries) (sock : Socket) (now : Nat)
    (ht : sock.currentRoom.truthy = true) :
    liveSet (onDisconnect regs sock now).regs sock.currentRoom =
      setDelete (liveSet regs sock.currentRoom) sock.userId := by
  unfold onDisconnect liveSet
  simp only [ht, Bool.true_and]
  cases hh : mapHas regs.roomConnections sock.currentRoom with
  | false =>
    simp only [Bool.false_eq_true, if_false, mapGet_eq_none_of_not_has _ _ hh]
    rfl
  | true =>
    simp only [if_true]
    split
    · rename_i hl
      rw [mapGet_mapDelete_self]
      have : (setDelete ((mapGet regs.roomConnections sock.currentRoom).getD []) sock.userId).length
          = 0 := by simpa using hl
      rw [List.length_eq_zero.1 this]
      rfl
    · rw [mapGet_mapSet_self]; rfl

/-- The disconnect handler of a connection without a current room leaves `roomConnections`
as it was. -/
theorem onDisconnect_no_room (regs : Registries) (sock : Socket) (now : Nat)
    (ht : sock.currentRoom.truthy = false) :
    (onDisconnect regs sock now).regs.roomConnections = regs.roomConnections := by
  simp [onDisconnect, ht]

/-- The disconnect handler adds no user id to any set. -/
theorem onDisconnect_subset (regs : Registries) (sock : Socket) (now : Nat) (r : JsVal)
    (u : String) (h : u ∈ liveSet (onDisconnect regs sock now).regs r) : u ∈ liveSet regs r := by
  by_cases hr : r = sock.currentRoom
  · subst hr
    cases ht : sock.currentRoom.truthy with
    | true =>
      rw [onDisconnect_current regs sock now ht, mem_setDelete] at h
      exact h.1
    | false =>
      unfold liveSet at h ⊢
      rw [onDisconnect_no_room regs sock now ht] at h
      exact h
  · unfold liveSet at h ⊢
    rw [onDisconnect_other regs sock now r hr] at h
    exact h

/-- The modifier `.single()` returns a record only for a result of exactly that one row. -/
theorem single_some {α : Type} (rows : List α) (r : α) (e : Option StoreError)
    (h : single rows = { data := some r, error := e }) : rows = [r] := by
  match rows, h with
  | [x], h =>
    simp only [single, Resp.mk.injEq, Option.some.injEq] at h
    rw [h.1]
  | [], h => simp [single] at h
  | _ :: _ :: _, h => simp [single] at h

/-- The record the query of the join-room handler returns is a row with the id asked for,
with its participant list. -/
theorem selectRoomForJoin_some (db : Db) (roomId : JsVal) (record : RoomRecord)
    (e : Option StoreError)
    (h : selectRoomForJoin db roomId = { data := some record, error := e }) :
    record.row.id = jsToString roomId ∧ record.row ∈ db.rooms ∧
      record.participants = some (embedParticipants db record.row.id) := by
  unfold selectRoomForJoin at h
  have hrows := single_some _ _ _ h
  have hmem : record ∈ [record] := List.mem_singleton.2 rfl
  rw [← hrows, List.mem_filterMap] at hmem
  obtain ⟨row, hrow, hsome⟩ := hmem
  rw [List.mem_filter] at hrow
  simp only at hsome
  split at hsome
  · exact absurd hsome (by simp)
  · simp only [Option.some.injEq] at hsome
    subst hsome
    exact ⟨by simpa using hrow.2, hrow.1, rfl⟩

/-- The three playback handlers, the chat handler and the typing handlers leave the
registries as they were. -/
theorem relay_handlers_regs (update : JsVal → JsObj → Resp Unit)
    (insert : JsVal → String → String → Resp ChatRecord) (regs : Registries) (sock : Socket)
    (data : JsData) (now later : Nat) :
    (onVideoPlay update regs sock data now later).regs = regs ∧
    (onVideoPause update regs sock data now later).regs = regs ∧
    (onVideoSeek update regs sock data now later).regs = regs ∧
    (onChatMessage insert regs sock data).regs = regs ∧
    (onTypingStart regs sock).regs = regs ∧
    (onTypingStop regs sock).regs = regs := by
  refine ⟨?_, ?_, ?_, ?_, ?_, ?_⟩
  · unfold onVideoPlay; split <;> rfl
  · unfold onVideoPause; split <;> rfl
  · unfold onVideoSeek; split <;> rfl
  · unfold onChatMessage reject; repeat' split
    all_goals rfl
  · unfold onTypingStart; split <;> rfl
  · unfold onTypingStop; split <;> rfl

/-- A store call that resolved with a record did not fail. -/
theorem withFault_some {α : Type} (fault : Option StoreError) (answer : Resp α) (r : α)
    (h : withFault fault answer = { data := some r, error := none }) :
    fault = none ∧ answer = { data := some r, error := none } := by
  cases fault with
  | none => exact ⟨rfl, h⟩
  | some e => simp [withFault] at h

/-- A step of the engine puts a user id into the set of a room only by a validated join. -/
theorem step_adds_only_validated (w : World) (i : Input) (room : JsVal) (u : String)
    (h1 : u ∈ liveSet (step w i).1.regs room) (h0 : u ∉ liveSet w.regs room) :
    ValidatedJoin w i room u := by
  cases i with
  | connection socketId userId user now fault =>
    exfalso; apply h0
    simp only [step] at h1
    split at h1
    · exact h1
    · exact h1
  | joinRoom socketId data now fault =>
    simp only [step] at h1
    cases hf : findSocket w.sockets socketId with
    | none => rw [hf] at h1; exact absurd h1 h0
    | some sock =>
      rw [hf] at h1
      simp only [commit] at h1
      cases hd : data.prop "roomId" with
      | none => simp only [onJoinRoom, hd, reject] at h1; exact absurd h1 h0
      | some roomId =>
        simp only [onJoinRoom, hd] at h1
        have hrej := onJoinRoomResume_rejected w.regs sock roomId
          (storeFetchRoom w.db fault roomId) now
        cases herr : (storeFetchRoom w.db fault roomId).error with
        | some e =>
          rw [hrej.1 (Or.inl (by rw [herr]; simp))] at h1; exact absurd h1 h0
        | none =>
          cases hdat : (storeFetchRoom w.db fault roomId).data with
          | none => rw [hrej.1 (Or.inr hdat)] at h1; exact absurd h1 h0
          | some record =>
            cases hp : record.participants with
            | none => rw [hrej.2.1 record herr hdat hp] at h1; exact absurd h1 h0
            | some ps =>
              cases hany : ps.any (fun p => decide (p.user_id = sock.userId) && p.is_active) with
              | false => rw [hrej.2.2 record ps herr hdat hp hany] at h1; exact absurd h1 h0
              | true =>
                have hresp : storeFetchRoom w.db fault roomId =
                    { data := some record, error := none } := by
                  rw [← herr, ← hdat]
                rw [hresp] at h1
                have hacc := onJoinRoomResume_accepted w.regs sock roomId record ps now hp hany
                by_cases hr : room = roomId
                · subst hr
                  rw [hacc.2.1, mem_setAdd] at h1
                  rcases h1 with h1 | h1
                  · exact absurd h1 h0
                  · have hsel := (withFault_some fault _ record hresp).2
                    have hid := (selectRoomForJoin_some w.db room record none hsel).1
                    rw [List.any_eq_true] at hany
                    obtain ⟨p, hpm, hpp⟩ := hany
                    simp only [Bool.and_eq_true, decide_eq_true_eq] at hpp
                    exact ⟨socketId, data, now, fault, sock, record, ps, rfl, hf, h1.symm, hd,
                      hresp, hid, hp, p, hpm, by rw [h1]; exact hpp.1, hpp.2⟩
                · exfalso; apply h0
                  unfold liveSet at h1 ⊢
                  rw [hacc.2.2.1 room hr] at h1
                  exact h1
  | videoPlay socketId data now later fault =>
    exfalso; apply h0
    simp only [step] at h1
    cases hf : findSocket w.sockets socketId with
    | none => rw [hf] at h1; exact h1
    | some sock =>
      rw [hf] at h1
      simp only [commit] at h1
      rw [(relay_handlers_regs (storeUpdateVideo w.db fault) (storeInsertChat w.db "" now fault)
        w.regs sock data now later).1] at h1
      exact h1
  | videoPause socketId data now later fault =>
    exfalso; apply h0
    simp only [step] at h1
    cases hf : findSocket w.sockets socketId with
    | none => rw [hf] at h1; exact h1
    | some sock =>
      rw [hf] at h1
      simp only [commit] at h1
      rw [(relay_handlers_regs (storeUpdateVideo w.db fault) (storeInsertChat w.db "" now fault)
        w.regs sock data now later).2.1] at h1
      exact h1
  | videoSeek socketId data now later fault =>
    exfalso; apply h0
    simp only [step] at h1
    cases hf : findSocket w.sockets socketId with
    | none => rw [hf] at h1; exact h1
    | some sock =>
      rw [hf] at h1
      simp only [commit] at h1
      rw [(relay_handlers_regs (storeUpdateVideo w.db fault) (storeInsertChat w.db "" now fault)
        w.regs sock data now later).2.2.1] at h1
      exact h1
  | chatMessage socketId data newId now fault =>
    exfalso; apply h0
    simp only [step] at h1
    cases hf : findSocket w.sockets socketId with
    | none => rw [hf] at h1; exact h1
    | some sock =>
      rw [hf] at h1
      simp only [commit] at h1
      rw [(relay_handlers_regs (storeUpdateVideo w.db fault) (storeInsertChat w.db newId now fault)
        w.regs sock data now now).2.2.2.1] at h1
      exact h1
  | typingStart socketId =>
    exfalso; apply h0
    simp only [step] at h1
    cases hf : findSocket w.sockets socketId with
    | none => rw [hf] at h1; exact h1
    | some sock =>
      rw [hf] at h1
      simp only [commit] at h1
      rw [(relay_handlers_regs (storeUpdateVideo w.db none) (storeInsertChat w.db "" 0 none)
        w.regs sock (JsData.val JsVal.undefined) 0 0).2.2.2.2.1] at h1
      exact h1
  | typingStop socketId =>
    exfalso; apply h0
    simp only [step] at h1
    cases hf : findSocket w.sockets socketId with
    | none => rw [hf] at h1; exact h1
    | some sock =>
      rw [hf] at h1
      simp only [commit] at h1
      rw [(relay_handlers_regs (storeUpdateVideo w.db none) (storeInsertChat w.db "" 0 none)
        w.regs sock (JsData.val JsVal.undefined) 0 0).2.2.2.2.2] at h1
      exact h1
  | disconnect socketId now fault =>
    exfalso; apply h0
    simp only [step] at h1
    cases hf : findSocket w.sockets socketId with
    | none => rw [hf] at h1; exact h1
    | some sock =>
      rw [hf] at h1
      simp only [commit] at h1
      exact onDisconnect_subset _ _ _ _ _ h1
  | storeChanged db => exact absurd h1 h0

/-- Along a run, a user id in the set of a room was in it at the start or was put there by a
validated join. -/
theorem run_members_validated (inputs : List Input) (w : World) (room : JsVal) (u : String)
    (h : u ∈ liveSet (run w inputs).regs room) :
    u ∈ liveSet w.regs room ∨
      ∃ pre i post, inputs = pre ++ i :: post ∧ ValidatedJoin (run w pre) i room u ∧
        u ∉ liveSet (run w pre).regs room ∧ u ∈ liveSet (step (run w pre) i).1.regs room := by
  induction inputs generalizing w with
  | nil => exact Or.inl h
  | cons i rest ih =>
    rcases ih (step w i).1 h with h1 | ⟨pre, j, post, hsplit, hv, hbefore, hafter⟩
    · by_cases h0 : u ∈ liveSet w.regs room
      · exact Or.inl h0
      · exact Or.inr ⟨[], i, rest, rfl, step_adds_only_validated w i room u h1 h0, h0, h1⟩
    · exact Or.inr ⟨i :: pre, j, post, by rw [hsplit]; rfl, hv, hbefore, hafter⟩

/-- `Set.add` never leaves an empty set. -/
theorem setAdd_ne_nil {α : Type} [DecidableEq α] (s : List α) (x : α) : setAdd s x ≠ [] := by
  intro h
  have := mem_setAdd_self s x
  rw [h] at this
  exact List.not_mem_nil _ this

/-- The join-room handler leaves no entry with an empty set. -/
theorem onJoinRoomResume_noEmpty (regs : Registries) (sock : Socket) (roomId : JsVal)
    (resp : Resp RoomRecord) (now : Nat) (h : NoEmptyRoom regs) :
    NoEmptyRoom (onJoinRoomResume regs sock roomId resp now).regs := by
  obtain ⟨data, error⟩ := resp
  cases error with
  | some e => simpa [onJoinRoomResume, reject] using h
  | none =>
    cases data with
    | none => simpa [onJoinRoomResume, reject] using h
    | some room =>
      cases hp : room.participants with
      | none => simpa [onJoinRoomResume, reject, hp] using h
      | some ps =>
        cases hany : ps.any (fun p => decide (p.user_id = sock.userId) && p.is_active) with
        | false => simpa [onJoinRoomResume, reject, hp, hany] using h
        | true =>
          simp only [onJoinRoomResume, hp, hany, Bool.not_true, Bool.false_eq_true, if_false]
          intro e he
          rcases mem_mapSet _ _ _ _ he with ⟨hm, hk⟩ | rfl
          · split at hm
            · rcases mem_mapSet _ _ _ _ hm with ⟨hm2, _⟩ | rfl
              · exact h e hm2
              · exact absurd rfl hk
            · exact h e hm
          · exact setAdd_ne_nil _ _

/-- The disconnect handler leaves no entry with an empty set. -/
theorem onDisconnect_noEmpty (regs : Registries) (sock : Socket) (now : Nat)
    (h : NoEmptyRoom regs) : NoEmptyRoom (onDisconnect regs sock now).regs := by
  unfold onDisconnect
  simp only
  split
  · split
    · intro e he
      obtain ⟨hm, hk⟩ := mem_mapDelete _ _ _ he
      rcases mem_mapSet _ _ _ _ hm with ⟨hm2, _⟩ | rfl
      · exact h e hm2
      · exact absurd rfl hk
    · rename_i hl
      intro e he
      rcases mem_mapSet _ _ _ _ he with ⟨hm2, _⟩ | rfl
      · exact h e hm2
      · intro h0
        apply hl
        simp only at h0
        simp [h0]
  · exact h

/-- One step of the engine leaves no entry of `roomConnections` with an empty set. -/
theorem noEmpty_step (w : World) (i : Input) (h : NoEmptyRoom w.regs) :
    NoEmptyRoom (step w i).1.regs := by
  cases i with
  | connection socketId userId user now fault =>
    simp only [step]
    split
    · exact h
    · exact h
  | joinRoom socketId data now fault =>
    simp only [step]
    cases hf : findSocket w.sockets socketId with
    | none => exact h
    | some sock =>
      simp only [commit]
      cases hd : data.prop "roomId" with
      | none => simpa [onJoinRoom, hd, reject] using h
      | some roomId =>
        simp only [onJoinRoom, hd]
        exact onJoinRoomResume_noEmpty _ _ _ _ _ h
  | videoPlay socketId data now later fault =>
    simp only [step]
    cases hf : findSocket w.sockets socketId with
    | none => exact h
    | some sock =>
      simp only [commit]
      rw [(relay_handlers_regs (storeUpdateVideo w.db fault) (storeInsertChat w.db "" now fault)
        w.regs sock data now later).1]
      exact h
  | videoPause socketId data now later fault =>
    simp only [step]
    cases hf : findSocket w.sockets socketId with
    | none => exact h
    | some sock =>
      simp only [commit]
      rw [(relay_handlers_regs (storeUpdateVideo w.db fault) (storeInsertChat w.db "" now fault)
        w.regs sock data now later).2.1]
      exact h
  | videoSeek socketId data now later fault =>
    simp only [step]
    cases hf : findSocket w.sockets socketId with
    | none => exact h
    | some sock =>
      simp only [commit]
      rw [(relay_handlers_regs (storeUpdateVideo w.db fault) (storeInsertChat w.db "" now fault)
        w.regs sock data now later).2.2.1]
      exact h
  | chatMessage socketId data newId now fault =>
    simp only [step]
    cases hf : findSocket w.sockets socketId with
    | none => exact h
    | some sock =>
      simp only [commit]
      rw [(relay_handlers_regs (storeUpdateVideo w.db fault) (storeInsertChat w.db newId now fault)
        w.regs sock data now now).2.2.2.1]
      exact h
  | typingStart socketId =>
    simp only [step]
    cases hf : findSocket w.sockets socketId with
    | none => exact h
    | some sock =>
      simp only [commit]
      rw [(relay_handlers_regs (storeUpdateVideo w.db none) (storeInsertChat w.db "" 0 none)
        w.regs sock (JsData.val JsVal.undefined) 0 0).2.2.2.2.1]
      exact h
  | typingStop socketId =>
    simp only [step]
    cases hf : findSocket w.sockets socketId with
    | none => exact h
    | some sock =>
      simp only [commit]
      rw [(relay_handlers_regs (storeUpdateVideo w.db none) (storeInsertChat w.db "" 0 none)
        w.regs sock (JsData.val JsVal.undefined) 0 0).2.2.2.2.2]
      exact h
  | disconnect socketId now fault =>
    simp only [step]
    cases hf : findSocket w.sockets socketId with
    | none => exact h
    | some sock =>
      simp only [commit]
      exact onDisconnect_noEmpty _ _ _ h
  | storeChanged db => exact h

/-- A run of the engine leaves no entry of `roomConnections` with an empty set. -/
theorem noEmpty_run (inputs : List Input) (w : World) (h : NoEmptyRoom w.regs) :
    NoEmptyRoom (run w inputs).regs := by
  induction inputs generalizing w with
  | nil => exact h
  | cons i rest ih => exact ih (step w i).1 (noEmpty_step w i h)

/-- Property read on an object with a first field. -/
theorem getField_cons (e : String × JsVal) (o : JsObj) (k : String) :
    getField (e :: o) k = if e.1 = k then e.2 else getField o k := by
  obtain ⟨a, b⟩ := e
  by_cases h : a = k
  · subst h; simp [getField, List.lookup]
  · have hne : (k == a) = false := by simpa using fun h2 => h h2.symm
    simp [getField, List.lookup, hne, h]

/-- Reading a field whose entries have been overwritten. -/
theorem getField_map_self (o : JsObj) (k : String) (v : JsVal)
    (h : o.any (fun e => e.1 == k) = true) :
    getField (o.map (fun e => if e.1 == k then (k, v) else e)) k = v := by
  induction o with
  | nil => simp at h
  | cons e rest ih =>
    rw [List.map_cons, getField_cons]
    by_cases he : e.1 = k
    · simp [he]
    · have hr : rest.any (fun e => e.1 == k) = true := by simpa [he] using h
      have hb : (e.1 == k) = false := by simpa using he
      simp only [hb, Bool.false_eq_true, if_false, he]
      exact ih hr

/-- Reading a field that has been appended. -/
theorem getField_append_self (o : JsObj) (k : String) (v : JsVal)
    (h : ¬ o.any (fun e => e.1 == k) = true) : getField (o ++ [(k, v)]) k = v := by
  induction o with
  | nil => simp [getField_cons]
  | cons e rest ih =>
    have he : ¬ e.1 = k := by
      intro he; apply h; simp [he]
    have hr : ¬ rest.any (fun e => e.1 == k) = true := by
      intro hr; apply h; simp only [List.any_cons, hr, Bool.or_true]
    rw [List.cons_append, getField_cons]
    simp only [he, if_false]
    exact ih hr

/-- Reading a field just written. -/
theorem getField_setField_self (o : JsObj) (k : String) (v : JsVal) :
    getField (setField o k v) k = v := by
  unfold setField
  split
  · rename_i h; exact getField_map_self o k v h
  · rename_i h; exact getField_append_self o k v h

/-- Overwriting the entries of a field leaves the other fields as they were. -/
theorem getField_map_other (o : JsObj) (k k2 : String) (v : JsVal) (hk : k2 ≠ k) :
    getField (o.map (fun e => if e.1 == k then (k, v) else e)) k2 = getField o k2 := by
  induction o with
  | nil => rfl
  | cons e rest ih =>
    rw [List.map_cons, getField_cons, getField_cons, ih]
    by_cases he : e.1 = k
    · have h2 : ¬ e.1 = k2 := by rw [he]; exact fun h => hk h.symm
      simp [he, h2, Ne.symm hk]
    · have hb : (e.1 == k) = false := by simpa using he
      simp [hb]

/-- Appending a field leaves the other fields as they were. -/
theorem getField_append_other (o : JsObj) (k k2 : String) (v : JsVal) (hk : k2 ≠ k) :
    getField (o ++ [(k, v)]) k2 = getField o k2 := by
  induction o with
  | nil =>
    rw [List.nil_append, getField_cons]
    simp only [Ne.symm hk, if_false]
  | cons e rest ih => rw [List.cons_append, getField_cons, getField_cons, ih]

/-- Reading a field other than the one just written. -/
theorem getField_setField_other (o : JsObj) (k k2 : String) (v : JsVal) (hk : k2 ≠ k) :
    getField (setField o k v) k2 = getField o k2 := by
  unfold setField
  split
  · exact getField_map_other o k k2 v hk
  · exact getField_append_other o k k2 v hk

/-- The outcome of the whole join-room handler when the payload carries a room id, the store
returned the room and the requester is an active participant of it. -/
theorem onJoinRoom_accepted (fetchRoom : JsVal → Resp RoomRecord) (regs : Registries)
    (sock : Socket) (data : JsData) (roomId : JsVal) (room : RoomRecord)
    (ps : List ParticipantEmbed) (now : Nat)
    (hdata : data.prop "roomId" = some roomId)
    (hresp : fetchRoom roomId = { data := some room, error := none })
    (hps : room.participants = some ps)
    (hany : ps.any (fun p => decide (p.user_id = sock.userId) && p.is_active) = true) :
    (onJoinRoom fetchRoom regs sock data now).effects =
      [Effect.store (StoreOp.selectRoom roomId),
       Effect.emit (Address.others roomId sock.id) (ServerEvent.userJoined (userInfo sock) now),
       Effect.emit (Address.self sock.id)
         (ServerEvent.roomState room (setAdd (liveSet regs roomId) sock.userId))] ∧
    liveSet (onJoinRoom fetchRoom regs sock data now).regs roomId =
      setAdd (liveSet regs roomId) sock.userId ∧
    (∀ r, r ≠ roomId →
      mapGet (onJoinRoom fetchRoom regs sock data now).regs.roomConnections r =
        mapGet regs.roomConnections r) ∧
    (onJoinRoom fetchRoom regs sock data now).regs.activeConnections = regs.activeConnections ∧
    (onJoinRoom fetchRoom regs sock data now).sock =
      { sock with rooms := setAdd sock.rooms roomId, currentRoom := roomId } := by
  have h := onJoinRoomResume_accepted regs sock roomId room ps now hps hany
  simp only [onJoinRoom, hdata, hresp]
  exact ⟨by rw [h.1], h.2.1, h.2.2.1, h.2.2.2.1, h.2.2.2.2⟩

/-- Property lookup on an object with a first field. -/
theorem lookup_cons_eq (e : String × JsVal) (o : JsObj) (k : String) :
    List.lookup k (e :: o) = if e.1 = k then some e.2 else List.lookup k o := by
  obtain ⟨a, b⟩ := e
  by_cases h : a = k
  · subst h; simp [List.lookup]
  · have hne : (k == a) = false := by simpa using fun h2 => h h2.symm
    simp [List.lookup, hne, h]

/-- Looking up a field whose entries have been overwritten. -/
theorem lookup_map_self (o : JsObj) (k : String) (v : JsVal)
    (h : o.any (fun e => e.1 == k) = true) :
    List.lookup k (o.map (fun e => if e.1 == k then (k, v) else e)) = some v := by
  induction o with
  | nil => simp at h
  | cons e rest ih =>
    rw [List.map_cons, lookup_cons_eq]
    by_cases he : e.1 = k
    · simp [he]
    · have hr : rest.any (fun e => e.1 == k) = true := by simpa [he] using h
      have hb : (e.1 == k) = false := by simpa using he
      simp only [hb, Bool.false_eq_true, if_false, he]
      exact ih hr

/-- Looking up a field that has been appended. -/
theorem lookup_append_self (o : JsObj) (k : String) (v : JsVal)
    (h : ¬ o.any (fun e => e.1 == k) = true) : List.lookup k (o ++ [(k, v)]) = some v := by
  induction o with
  | nil => simp [lookup_cons_eq]
  | cons e rest ih =>
    have he : ¬ e.1 = k := by
      intro he; apply h; simp [he]
    have hr : ¬ rest.any (fun e => e.1 == k) = true := by
      intro hr; apply h; simp only [List.any_cons, hr, Bool.or_true]
    rw [List.cons_append, lookup_cons_eq]
    simp only [he, if_false]
    exact ih hr

/-- Looking up a field just written. -/
theorem lookup_setField_self (o : JsObj) (k : String) (v : JsVal) :
    List.lookup k (setField o k v) = some v := by
  unfold setField
  split
  · rename_i h; exact lookup_map_self o k v h
  · rename_i h; exact lookup_append_self o k v h

/-- Overwriting the entries of a field leaves the lookup of the other fields as it was. -/
theorem lookup_map_other (o : JsObj) (k k2 : String) (v : JsVal) (hk : k2 ≠ k) :
    List.lookup k2 (o.map (fun e => if e.1 == k then (k, v) else e)) = List.lookup k2 o := by
  induction o with
  | nil => rfl
  | cons e rest ih =>
    rw [List.map_cons, lookup_cons_eq, lookup_cons_eq, ih]
    by_cases he : e.1 = k
    · have h2 : ¬ e.1 = k2 := by rw [he]; exact fun h => hk h.symm
      simp [he, h2, Ne.symm hk]
    · have hb : (e.1 == k) = false := by simpa using he
      simp [hb]

/-- Appending a field leaves the lookup of the other fields as it was. -/
theorem lookup_append_other (o : JsObj) (k k2 : String) (v : JsVal) (hk : k2 ≠ k) :
    List.lookup k2 (o ++ [(k, v)]) = List.lookup k2 o := by
  induction o with
  | nil =>
    rw [List.nil_append, lookup_cons_eq]
    simp only [Ne.symm hk, if_false]
  | cons e rest ih => rw [List.cons_append, lookup_cons_eq, lookup_cons_eq, ih]

/-- Looking up a field other than the one just written. -/
theorem lookup_setField_other (o : JsObj) (k k2 : String) (v : JsVal) (hk : k2 ≠ k) :
    List.lookup k2 (setField o k v) = List.lookup k2 o := by
  unfold setField
  split
  · exact lookup_map_other o k k2 v hk
  · exact lookup_append_other o k k2 v hk

/-- The range of a page when page and limit are numbers. -/
theorem pageRange_of_numbers (p l : Int) :
    pageRange (PageVal.num p) (PageVal.num l) =
      (PageVal.num ((p - 1) * l), PageVal.num ((p - 1) * l + l - 1)) := by
  simp [pageRange, jsMul, jsSub, jsAdd, PageVal.toNumber]

/-- Spreading an object over a base, one field at a time. -/
theorem spreadInto_cons (base : JsObj) (e : String × JsVal) (o : JsObj) :
    spreadInto base (e :: o) = spreadInto (setField base e.1 e.2) o := rfl

/-- A field the spread object does not have keeps the value of the base. -/
theorem lookup_spreadInto_absent (base o : JsObj) (k : String) (h : ∀ e ∈ o, e.1 ≠ k) :
    List.lookup k (spreadInto base o) = List.lookup k base := by
  induction o generalizing base with
  | nil => rfl
  | cons e rest ih =>
    rw [spreadInto_cons, ih _ (fun x hx => h x (List.mem_cons_of_mem _ hx))]
    exact lookup_setField_other _ _ _ _ (fun hk => h e (List.mem_cons_self _ _) hk.symm)

/-- A field the spread object has takes a value of that object. -/
theorem lookup_spreadInto_present (base o : JsObj) (k : String) (h : ∃ e ∈ o, e.1 = k) :
    ∃ v, (k, v) ∈ o ∧ List.lookup k (spreadInto base o) = some v := by
  induction o generalizing base with
  | nil => obtain ⟨e, he, _⟩ := h; exact absurd he (List.not_mem_nil _)
  | cons e rest ih =>
    rw [spreadInto_cons]
    by_cases hr : ∃ x ∈ rest, x.1 = k
    · obtain ⟨v, hv, hl⟩ := ih (setField base e.1 e.2) hr
      exact ⟨v, List.mem_cons_of_mem _ hv, hl⟩
    · have hno : ∀ x ∈ rest, x.1 ≠ k := fun x hx hk => hr ⟨x, hx, hk⟩
      have hek : e.1 = k := by
        obtain ⟨x, hx, hk⟩ := h
        rcases List.mem_cons.1 hx with h1 | h1
        · rw [← h1]; exact hk
        · exact absurd hk (hno x h1)
      refine ⟨e.2, ?_, ?_⟩
      · rw [← hek]; exact List.mem_cons_self _ _
      · rw [lookup_spreadInto_absent _ _ _ hno, ← hek]
        exact lookup_setField_self _ _ _

/-- A profile query that resolves without an error returns the record of a row of the table
whose `id` is the id asked for. -/
theorem storeSelectProfile_of_no_error (db : Db) (fault : Option StoreError) (userId : String)
    (h : (storeSelectProfile db fault userId).error = none) :
    ∃ row ∈ db.profiles, row.id = userId ∧
      (storeSelectProfile db fault userId).data = some (profileObject row) := by
  cases fault with
  | some e => simp [storeSelectProfile, withFault] at h
  | none =>
    simp only [storeSelectProfile, withFault] at h ⊢
    generalize hl : (db.profiles.filter (fun p => decide (p.id = userId))) = l at h ⊢
    match l, hl with
    | [], _ => simp [single] at h
    | [r], hl =>
      have hr : r ∈ db.profiles.filter (fun p => decide (p.id = userId)) := by rw [hl]; simp
      rw [List.mem_filter] at hr
      exact ⟨r, hr.1, by simpa using hr.2, by simp [single]⟩
    | _ :: _ :: _, _ => simp [single] at h

/-- Over the tables, `getUserProfile` returns the record of a profile row with the id asked
for, never `null`. -/
theorem getUserProfile_store (db : Db) (fault : Option StoreError) (userId : String)
    (profile : Option JsObj)
    (h : getUserProfile (storeSelectProfile db fault) userId = some profile) :
    ∃ row ∈ db.profiles, row.id = userId ∧ profile = some (profileObject row) := by
  unfold getUserProfile at h
  cases he : (storeSelectProfile db fault userId).error with
  | some e => simp [he] at h
  | none =>
    simp only [he, Option.some.injEq] at h
    obtain ⟨row, hmem, hid, hd⟩ := storeSelectProfile_of_no_error db fault userId he
    exact ⟨row, hmem, hid, by rw [← h, hd]⟩

/-- The object `{ id, email, ...profile }` for the record of a profile row with that `id`. -/
theorem spreadInto_profileObject (email : JsVal) (row : ProfileRow) :
    spreadInto [("id", JsVal.str row.id), ("email", email)] (profileObject row) =
      [("id", JsVal.str row.id), ("email", row.email), ("username", row.username),
       ("avatar", row.avatar), ("is_online", JsVal.bool row.is_online),
       ("last_seen", JsVal.date row.last_seen)] := by
  simp [spreadInto, profileObject, setField]

/-- Through `joinRoom`, a caller without a participant row of the room never lifts the number
of active participants above the capacity of the room. -/
theorem joinRoom_new_participant_within_capacity (db : Db) (roomId userId : String) (now : Nat)
    (faultSelect faultWrite faultFetch : Option StoreError) (room : RoomRow)
    (hroom : db.rooms.filter (fun r => decide (r.id = roomId) && r.is_active) = [room])
    (hnew : ∀ p ∈ db.room_participants, p.room_id = roomId → p.user_id ≠ userId)
    (hcap : activeCount db roomId ≤ room.settings.max_participants) :
    activeCount (joinRoom db roomId userId now faultSelect faultWrite faultFetch).1 roomId ≤
      room.settings.max_participants := by
  have hid : room.id = roomId := by
    have hm : room ∈ db.rooms.filter (fun r => decide (r.id = roomId) && r.is_active) := by
      rw [hroom]; exact List.mem_singleton.2 rfl
    rw [List.mem_filter] at hm
    have h2 := hm.2
    simp only [Bool.and_eq_true, decide_eq_true_eq] at h2
    exact h2.1
  cases faultSelect with
  | some e => simpa [joinRoom, selectActiveRoom, withFault] using hcap
  | none =>
    have hfind : (db.room_participants.filter (fun p => decide (p.room_id = roomId))).find?
        (fun p => decide (p.user_id = userId)) = none := by
      rw [List.find?_eq_none]
      intro p hp
      rw [List.mem_filter] at hp
      simpa using hnew p hp.1 (by simpa using hp.2)
    have hcount : ((db.room_participants.filter (fun p => decide (p.room_id = roomId))).filter
        (fun p => p.is_active)).length = activeCount db roomId := by
      unfold activeCount
      rw [List.filter_filter]
      congr 1
      apply List.filter_congr
      intro p _
      exact Bool.and_comm _ _
    simp only [joinRoom, selectActiveRoom, withFault, hroom, List.map_cons, List.map_nil, single,
      hid, hfind, hcount]
    by_cases hfull : activeCount db roomId ≥ room.settings.max_participants
    · simp only [hfull, if_true]; exact hcap
    · simp only [hfull, if_false]
      cases faultWrite with
      | some e => exact hcap
      | none =>
        simp only [activeCount, insertParticipant, List.filter_append, List.length_append]
        simp only [activeCount] at hfull
        simp
        omega

/-! ### The claims -/

/-- C1 (the code departs from the claim): user A, in room R1 through socket s1, sends
join-room for R2. The join succeeds (a room-state event is emitted), and in the world
reached A is in the live membership set of R2 and still in the one of R1: the handler never
takes the user out of the set of the room the connection was in. -/
theorem rejoin_leaves_user_in_two_live_sets :
    Reachable worldAInR2 ∧
    (step worldAInR1 (exampleJoin "s1" "R2")).2.any Effect.isRoomState = true ∧
    "A" ∈ liveSet worldAInR2.regs (JsVal.str "R2") ∧
    "A" ∈ liveSet worldAInR2.regs (JsVal.str "R1") :=
  ⟨⟨exampleDb,
    [Input.connection "s1" "A" exampleUserA 0 none, exampleJoin "s1" "R1", exampleJoin "s1" "R2"],
    rfl⟩, by decide, by decide, by decide⟩

/-- C2 (the code departs from the claim): user A joins R1, then R2, then disconnects. After
the disconnect handler has run the socket is gone and A is absent from `activeConnections`,
but A is still in the set `roomConnections` holds for R1, which is now the only entry. -/
theorem disconnect_after_rejoin_leaves_stale_member :
    Reachable worldAGone ∧
    findSocket worldAGone.sockets "s1" = none ∧
    mapHas worldAGone.regs.activeConnections "A" = false ∧
    "A" ∈ liveSet worldAGone.regs (JsVal.str "R1") ∧
    worldAGone.regs.roomConnections = [(JsVal.str "R1", ["A"])] :=
  ⟨⟨exampleDb,
    [Input.connection "s1" "A" exampleUserA 0 none, exampleJoin "s1" "R1", exampleJoin "s1" "R2",
     Input.disconnect "s1" 2 none],
    rfl⟩, by decide, by decide, by decide, by decide⟩

/-- C3: for every chat-message event from a connection in a room whose text is not blank,
over every state of the tables and every outcome of the store call: a chat-message broadcast
is emitted if and only if the insert resolved without an error, which is the case if and only
if the row was recorded; after a failed insert the tables are unchanged and the one event is
the error `Error saving chat message` to the sender; after a successful insert the returned
row carries the joined profile of the sender and the one event is the broadcast to the whole
room. An insert for a sender without a profile row violates the foreign key the query embeds
through, so it is a failed insert: no row comes back with a `null` profile. -/
theorem chat_broadcast_iff_insert_succeeded (db : Db) (regs : Registries) (sock : Socket)
    (data : JsData) (msg newId : String) (now : Nat) (fault : Option StoreError)
    (hroom : sock.currentRoom.truthy = true)
    (hmsg : data.prop "message" = some (JsVal.str msg))
    (hne : jsTrim msg ≠ "") :
    ((∃ dest chatResponse, Effect.emit dest (ServerEvent.chatMessage chatResponse) ∈
        (onChatMessage (storeInsertChat db newId now fault) regs sock data).effects) ↔
      (storeInsertChat db newId now fault sock.currentRoom sock.userId (jsTrim msg)).error =
        none) ∧
    ((storeInsertChat db newId now fault sock.currentRoom sock.userId (jsTrim msg)).error =
        none ↔
      (insertChatMessage db sock.currentRoom sock.userId (jsTrim msg) newId now
          fault).1.chat_messages =
        db.chat_messages ++
          [{ id := newId, room_id := jsToString sock.currentRoom, user_id := sock.userId,
             message := jsTrim msg, created_at := now }]) ∧
    ((storeInsertChat db newId now fault sock.currentRoom sock.userId (jsTrim msg)).error ≠
        none →
      (insertChatMessage db sock.currentRoom sock.userId (jsTrim msg) newId now fault).1 = db ∧
      (onChatMessage (storeInsertChat db newId now fault) regs sock data).effects =
        [Effect.store (StoreOp.insertChatMessage sock.currentRoom sock.userId (jsTrim msg)),
         Effect.emit (Address.self sock.id) (ServerEvent.error "Error saving chat message")]) ∧
    ((storeInsertChat db newId now fault sock.currentRoom sock.userId (jsTrim msg)).error =
        none →
      ∃ profile,
        embedProfile db sock.userId = some profile ∧
        (storeInsertChat db newId now fault sock.currentRoom sock.userId (jsTrim msg)).data =
          some { row := { id := newId, room_id := jsToString sock.currentRoom,
                          user_id := sock.userId, message := jsTrim msg, created_at := now },
                 user := some profile } ∧
        (onChatMessage (storeInsertChat db newId now fault) regs sock data).effects =
          [Effect.store (StoreOp.insertChatMessage sock.currentRoom sock.userId (jsTrim msg)),
           Effect.emit (Address.all sock.currentRoom)
             (ServerEvent.chatMessage
               { id := newId, message := jsTrim msg,
                 user := { id := JsVal.str sock.userId,
                           username := jsOr profile.username (getField sock.user "username"),
                           avatar := jsOr profile.avatar (getField sock.user "avatar") },
                 timestamp := now, roomId := sock.currentRoom })]) ∧
    (fault = none →
      ((storeInsertChat db newId now fault sock.currentRoom sock.userId (jsTrim msg)).error =
          none ↔
        ∃ p ∈ db.profiles, p.id = sock.userId)) := by
  have heff := chat_effects_of_accepted (storeInsertChat db newId now fault) regs sock data msg
    hroom hmsg hne
  have hjs : jsOr JsVal.undefined (JsVal.str sock.userId) = JsVal.str sock.userId := rfl
  have hlen : ∀ (l : List ChatRow) (r : ChatRow), l ≠ l ++ [r] := by
    intro l r h
    have h2 := congrArg List.length h
    simp at h2
  rw [heff]
  cases fault with
  | some e =>
    simp [onChatMessageResume, storeInsertChat, insertChatMessage, hlen]
  | none =>
    cases hp : embedProfile db sock.userId with
    | none =>
      have hno : ¬ ∃ p ∈ db.profiles, p.id = sock.userId := by
        rintro ⟨p, hmem, hid⟩
        unfold embedProfile at hp
        cases hf : db.profiles.find? (fun p => decide (p.id = sock.userId)) with
        | some q => simp [hf] at hp
        | none =>
          rw [List.find?_eq_none] at hf
          exact hf p hmem (by simpa using hid)
      simp [onChatMessageResume, storeInsertChat, insertChatMessage, hp, hlen, hno]
    | some profile =>
      have hyes : ∃ p ∈ db.profiles, p.id = sock.userId := by
        unfold embedProfile at hp
        cases hf : db.profiles.find? (fun p => decide (p.id = sock.userId)) with
        | none => simp [hf] at hp
        | some p =>
          exact ⟨p, List.mem_of_find?_eq_some hf, by simpa using List.find?_some hf⟩
      simp [onChatMessageResume, storeInsertChat, insertChatMessage, single, hp, hjs, hyes]

/-- C3 at concrete inputs: user A, in room R1, sends "hi". Over `exampleDb` the insert
succeeds and the broadcast is emitted; when the store call fails, and over tables without a
profile row for A, the insert resolves with an error, nothing is recorded and no broadcast is
emitted. -/
theorem chat_broadcast_iff_insert_succeeded_witness :
    (∃ dest chatResponse, Effect.emit dest (ServerEvent.chatMessage chatResponse) ∈
      (onChatMessage (storeInsertChat exampleDb "m1" 5 none) regsAInR1 socketAInR1
        (JsData.obj [("message", JsVal.str "hi")])).effects) ∧
    (¬ ∃ dest chatResponse, Effect.emit dest (ServerEvent.chatMessage chatResponse) ∈
      (onChatMessage (storeInsertChat exampleDb "m1" 5 (some ⟨"timeout"⟩)) regsAInR1 socketAInR1
        (JsData.obj [("message", JsVal.str "hi")])).effects) ∧
    (¬ ∃ dest chatResponse, Effect.emit dest (ServerEvent.chatMessage chatResponse) ∈
      (onChatMessage (storeInsertChat exampleDbNoProfileA "m1" 5 none) regsAInR1 socketAInR1
        (JsData.obj [("message", JsVal.str "hi")])).effects) ∧
    (insertChatMessage exampleDbNoProfileA (JsVal.str "R1") "A" "hi" "m1" 5 none).1 =
      exampleDbNoProfileA ∧
    (step (run worldAInR1 [Input.storeChanged exampleDbNoProfileA])
        (Input.chatMessage "s1" (JsData.obj [("message", JsVal.str "hi")]) "m1" 5 none)).2 =
      [Effect.store (StoreOp.insertChatMessage (JsVal.str "R1") "A" "hi"),
       Effect.emit (Address.self "s1") (ServerEvent.error "Error saving chat message")] ∧
    (step (run worldAInR1 [Input.storeChanged exampleDbNoProfileA])
        (Input.chatMessage "s1" (JsData.obj [("message", JsVal.str "hi")]) "m1" 5
          none)).1.db.chat_messages = [] :=
  ⟨(chat_broadcast_iff_insert_succeeded exampleDb regsAInR1 socketAInR1
      (JsData.obj [("message", JsVal.str "hi")]) "hi" "m1" 5 none (by decide) (by decide)
      (by decide)).1.mpr (by decide),
   fun h => absurd ((chat_broadcast_iff_insert_succeeded exampleDb regsAInR1 socketAInR1
      (JsData.obj [("message", JsVal.str "hi")]) "hi" "m1" 5 (some ⟨"timeout"⟩) (by decide)
      (by decide) (by decide)).1.mp h) (by decide),
   fun h => absurd ((chat_broadcast_iff_insert_succeeded exampleDbNoProfileA regsAInR1
      socketAInR1 (JsData.obj [("message", JsVal.str "hi")]) "hi" "m1" 5 none (by decide)
      (by decide) (by decide)).1.mp h) (by decide),
   ((chat_broadcast_iff_insert_succeeded exampleDbNoProfileA regsAInR1 socketAInR1
      (JsData.obj [("message", JsVal.str "hi")]) "hi" "m1" 5 none (by decide) (by decide)
      (by decide)).2.2.1 (by decide)).1,
   by decide, by decide⟩

/-- C4: every event emitted by the video-play, video-pause and video-seek handlers is
addressed to the sender's current room except the sending socket, so its receivers are the
members of that room other than the sender; every chat-message event emitted by the
chat-message handler is addressed to the whole current room, so its receivers are all
members of the room, and in every reachable world the sending socket is one of them. -/
theorem playback_excludes_sender_chat_includes_sender
    (update : JsVal → JsObj → Resp Unit) (insert : JsVal → String → String → Resp ChatRecord)
    (regs : Registries) (sock : Socket) (data : JsData) (now later : Nat) :
    (∀ dest ev,
      (Effect.emit dest ev ∈ (onVideoPlay update regs sock data now later).effects ∨
       Effect.emit dest ev ∈ (onVideoPause update regs sock data now later).effects ∨
       Effect.emit dest ev ∈ (onVideoSeek update regs sock data now later).effects) →
      dest = Address.others sock.currentRoom sock.id ∧
      ∀ sockets i, i ∈ recipients sockets dest ↔
        i ∈ members sockets sock.currentRoom ∧ i ≠ sock.id) ∧
    (∀ dest chatResponse,
      Effect.emit dest (ServerEvent.chatMessage chatResponse) ∈
        (onChatMessage insert regs sock data).effects →
      dest = Address.all sock.currentRoom ∧
      (∀ sockets i, i ∈ recipients sockets dest ↔ i ∈ members sockets sock.currentRoom) ∧
      (∀ w, Reachable w → sock ∈ w.sockets → sock.connected = true →
        sock.id ∈ recipients w.sockets dest)) := by
  constructor
  · intro dest ev h
    have hd : dest = Address.others sock.currentRoom sock.id := by
      rcases h with h | h | h
      · unfold onVideoPlay at h
        split at h
        · simp [onVideoPlayThen] at h; exact h.1
        · simp at h
      · unfold onVideoPause at h
        split at h
        · simp [onVideoPauseThen] at h; exact h.1
        · simp at h
      · unfold onVideoSeek at h
        split at h
        · simp [onVideoSeekThen] at h; exact h.1
        · simp at h
    subst hd
    exact ⟨rfl, fun sockets i => mem_recipients_others sockets _ _ i⟩
  · intro dest r h
    have htruthy := currentRoom_truthy_of_chat_emitted insert regs sock data dest r h
    have hd : dest = Address.all sock.currentRoom := by
      unfold onChatMessage at h
      repeat' split at h
      all_goals simp [reject, onChatMessageResume] at h
      repeat' split at h
      all_goals simp at h
      exact h.1
    subst hd
    refine ⟨rfl, fun sockets i => by simp [recipients], ?_⟩
    intro w hw hs hc
    simp only [recipients]
    rcases joined_of_reachable w hw sock hs hc with hu | hr
    · rw [hu] at htruthy
      exact absurd htruthy (by decide)
    · exact (mem_members w.sockets _ _).2 ⟨sock, hs, hc, hr, rfl⟩

/-- C4 at a concrete input: users A (socket s1) and B (socket s2) are in room R1. The
video-play event A triggers goes to s2 only; the chat message A sends goes to s1 and s2. -/
theorem playback_excludes_sender_chat_includes_sender_witness :
    Reachable worldABInR1 ∧
    worldABInR1.sockets = [socketAInR1, socketBInR1] ∧
    Effect.emit (Address.others (JsVal.str "R1") "s1")
        (ServerEvent.videoPlay (playbackPayload socketAInR1 examplePayload 2)) ∈
      (onVideoPlay failingUpdate worldABInR1.regs socketAInR1 examplePayload 1 2).effects ∧
    recipients worldABInR1.sockets (Address.others (JsVal.str "R1") "s1") = ["s2"] ∧
    (∀ i, i ∈ recipients worldABInR1.sockets (Address.others (JsVal.str "R1") "s1") ↔
      i ∈ members worldABInR1.sockets (JsVal.str "R1") ∧ i ≠ "s1") ∧
    recipients worldABInR1.sockets (Address.all (JsVal.str "R1")) = ["s1", "s2"] ∧
    "s1" ∈ recipients worldABInR1.sockets (Address.all (JsVal.str "R1")) :=
  have hchat := playback_excludes_sender_chat_includes_sender failingUpdate
    (storeInsertChat exampleDb "m1" 5 none) worldABInR1.regs socketAInR1
    (JsData.obj [("message", JsVal.str "hi")]) 1 2
  have hplay := playback_excludes_sender_chat_includes_sender failingUpdate
    (storeInsertChat exampleDb "m1" 5 none) worldABInR1.regs socketAInR1 examplePayload 1 2
  have hreach : Reachable worldABInR1 := ⟨exampleDb, inputsABJoinR1, rfl⟩
  ⟨hreach, by decide, by decide, by decide,
   fun i => (hplay.1 (Address.others (JsVal.str "R1") "s1")
      (ServerEvent.videoPlay (playbackPayload socketAInR1 examplePayload 2))
      (Or.inl (by decide))).2 worldABInR1.sockets i,
   by decide,
   (hchat.2 (Address.all (JsVal.str "R1"))
      { id := "m1", message := "hi",
        user := { id := JsVal.str "A", username := JsVal.str "alice", avatar := JsVal.null },
        timestamp := 5, roomId := JsVal.str "R1" }
      (by decide)).2.2 worldABInR1 hreach (by decide) (by decide)⟩

/-- C5: for every payload, the video-play, video-pause, video-seek, typing-start and
typing-stop handlers run on a connection whose `currentRoom` is not truthy (no current room)
do nothing: the effect list is empty (no broadcast, no error event, no store call) and the
registries and the socket are as before. -/
theorem no_room_events_are_ignored (update : JsVal → JsObj → Resp Unit) (regs : Registries)
    (sock : Socket) (data : JsData) (now later : Nat)
    (hroom : sock.currentRoom.truthy = false) :
    onVideoPlay update regs sock data now later = { regs := regs, sock := sock, effects := [] } ∧
    onVideoPause update regs sock data now later = { regs := regs, sock := sock, effects := [] } ∧
    onVideoSeek update regs sock data now later = { regs := regs, sock := sock, effects := [] } ∧
    onTypingStart regs sock = { regs := regs, sock := sock, effects := [] } ∧
    onTypingStop regs sock = { regs := regs, sock := sock, effects := [] } := by
  simp [onVideoPlay, onVideoPause, onVideoSeek, onTypingStart, onTypingStop, hroom]

/-- C5 at a concrete input: user C, connected and in no room, sends the five events. -/
theorem no_room_events_are_ignored_witness :
    socketC.currentRoom.truthy = false ∧
    onVideoPlay (storeUpdateVideo exampleDb none) regsAInR1 socketC examplePayload 1 2 =
      { regs := regsAInR1, sock := socketC, effects := [] } ∧
    onVideoPause (storeUpdateVideo exampleDb none) regsAInR1 socketC examplePayload 1 2 =
      { regs := regsAInR1, sock := socketC, effects := [] } ∧
    onVideoSeek (storeUpdateVideo exampleDb none) regsAInR1 socketC examplePayload 1 2 =
      { regs := regsAInR1, sock := socketC, effects := [] } ∧
    onTypingStart regsAInR1 socketC = { regs := regsAInR1, sock := socketC, effects := [] } ∧
    onTypingStop regsAInR1 socketC = { regs := regsAInR1, sock := socketC, effects := [] } :=
  ⟨by decide,
   no_room_events_are_ignored (storeUpdateVideo exampleDb none) regsAInR1 socketC examplePayload
     1 2 (by decide)⟩

/-- C6 (counterexample to the claim as stated): room R4 exists and has no participant row;
user C has no participant record for it. The inner join in the query returns no row, so C
receives `Room not found`, not `Not authorized to join this room`. -/
theorem join_room_without_participant_rows_reports_not_found :
    (∃ r ∈ exampleDb.rooms, r.id = "R4") ∧
    (∀ p ∈ exampleDb.room_participants,
      ¬ (p.room_id = "R4" ∧ p.user_id = "C" ∧ p.is_active = true)) ∧
    (onJoinRoom (storeFetchRoom exampleDb none) regsAInR1 socketC
        (JsData.obj [("roomId", JsVal.str "R4")]) 1).effects =
      [Effect.store (StoreOp.selectRoom (JsVal.str "R4")),
       Effect.emit (Address.self "s3") (ServerEvent.error "Room not found")] ∧
    Effect.emit (Address.self "s3") (ServerEvent.error "Not authorized to join this room") ∉
      (onJoinRoom (storeFetchRoom exampleDb none) regsAInR1 socketC
        (JsData.obj [("roomId", JsVal.str "R4")]) 1).effects := by
  refine ⟨by decide, by decide, by decide, by decide⟩

/-- C6 (as amended): for every join-room request for an existing room (exactly one room
row has the id) by a user without a participant row with `is_active` true for it, the
handler emits exactly one event besides the query, an error event to the sender, and leaves
the registries and the socket as they were: the error is `Not authorized to join this room`
when the room has at least one participant row, and `Room not found` when it has none. -/
theorem join_rejected_for_non_participant (db : Db) (regs : Registries) (sock : Socket)
    (data : JsData) (roomId : JsVal) (now : Nat) (room : RoomRow)
    (hdata : data.prop "roomId" = some roomId)
    (hroom : db.rooms.filter (fun r => decide (r.id = jsToString roomId)) = [room])
    (hnot : ∀ p ∈ db.room_participants, p.room_id = room.id → p.user_id = sock.userId →
      p.is_active = false) :
    onJoinRoom (storeFetchRoom db none) regs sock data now =
      { regs := regs, sock := sock,
        effects :=
          [Effect.store (StoreOp.selectRoom roomId),
           Effect.emit (Address.self sock.id)
             (ServerEvent.error
               (if (embedParticipants db room.id).isEmpty then "Room not found"
                else "Not authorized to join this room"))] } := by
  have hany := any_embedParticipants_false db room.id sock.userId hnot
  unfold onJoinRoom
  simp only [hdata, storeFetchRoom, withFault, selectRoomForJoin, hroom, List.filterMap_cons,
    List.filterMap_nil]
  by_cases hemp : (embedParticipants db room.id).isEmpty = true
  · simp [hemp, single, onJoinRoomResume, reject]
  · simp [hemp, single, onJoinRoomResume, reject, hany]

/-- C6 at a concrete input: user C asks to join room R1, whose participants are A and B. -/
theorem join_rejected_for_non_participant_witness :
    (embedParticipants exampleDb "R1").isEmpty = false ∧
    onJoinRoom (storeFetchRoom exampleDb none) regsAInR1 socketC
        (JsData.obj [("roomId", JsVal.str "R1")]) 1 =
      { regs := regsAInR1, sock := socketC,
        effects :=
          [Effect.store (StoreOp.selectRoom (JsVal.str "R1")),
           Effect.emit (Address.self "s3")
             (ServerEvent.error "Not authorized to join this room")] } :=
  ⟨by decide,
   join_rejected_for_non_participant exampleDb regsAInR1 socketC
     (JsData.obj [("roomId", JsVal.str "R1")]) (JsVal.str "R1") 1 (exampleRoom "R1" true)
     (by decide) (by decide) (by decide)⟩

/-- C7 (the code departs from the claim): room R3 exists with `is_active = false` and user A
is an active participant of it. The query returns the room, the join-room request of A
succeeds (room-state is emitted, no error event) and A is added to the live membership set
of R3. -/
theorem join_inactive_room_succeeds :
    (∃ r ∈ exampleDb.rooms, r.id = "R3" ∧ r.is_active = false) ∧
    (selectRoomForJoin exampleDb (JsVal.str "R3")).error = none ∧
    (step worldAConnected (exampleJoin "s1" "R3")).2.any Effect.isRoomState = true ∧
    (step worldAConnected (exampleJoin "s1" "R3")).2.any Effect.isError = false ∧
    "A" ∈ liveSet (step worldAConnected (exampleJoin "s1" "R3")).1.regs (JsVal.str "R3") := by
  refine ⟨by decide, by decide, by decide, by decide, by decide⟩

/-- C8 (the code departs from the claim): user A, in room R1, sends video-play, video-pause
and video-seek while the update of the room's playback state fails. Each update resolves with
an error and leaves the tables as they were, yet each event is broadcast to the other members
of the room; no error event is sent to the sender. With user B in the room as well, the
socket of B is the receiver of the video-play event. -/
theorem playback_broadcast_despite_failed_update :
    (failingUpdate (JsVal.str "R1") (playState examplePayload 1)).error ≠ none ∧
    Effect.emit (Address.others (JsVal.str "R1") "s1")
        (ServerEvent.videoPlay (playbackPayload socketAInR1 examplePayload 2)) ∈
      (onVideoPlay failingUpdate regsAInR1 socketAInR1 examplePayload 1 2).effects ∧
    (step worldAInR1 (Input.videoPlay "s1" examplePayload 1 2 (some ⟨"update failed"⟩))).2.any
      Effect.isBroadcast = true ∧
    (storeUpdateVideo worldAInR1.db (some ⟨"update failed"⟩) (JsVal.str "R1")
      (playState examplePayload 1)).error = some ⟨"update failed"⟩ ∧
    (step worldAInR1 (Input.videoPlay "s1" examplePayload 1 2 (some ⟨"update failed"⟩))).1.db =
      worldAInR1.db ∧
    (step worldAInR1 (Input.videoPlay "s1" examplePayload 1 2 (some ⟨"update failed"⟩))).2 =
      [Effect.store (StoreOp.updateCurrentVideo (JsVal.str "R1") (playState examplePayload 1)),
       Effect.emit (Address.others (JsVal.str "R1") "s1")
         (ServerEvent.videoPlay (playbackPayload socketAInR1 examplePayload 2))] ∧
    (step worldAInR1 (Input.videoPause "s1" examplePayload 1 2 (some ⟨"update failed"⟩))).1.db =
      worldAInR1.db ∧
    (step worldAInR1 (Input.videoPause "s1" examplePayload 1 2 (some ⟨"update failed"⟩))).2 =
      [Effect.store (StoreOp.updateCurrentVideo (JsVal.str "R1") (pauseState examplePayload 1)),
       Effect.emit (Address.others (JsVal.str "R1") "s1")
         (ServerEvent.videoPause (playbackPayload socketAInR1 examplePayload 2))] ∧
    (step worldAInR1 (Input.videoSeek "s1" examplePayload 1 2 (some ⟨"update failed"⟩))).1.db =
      worldAInR1.db ∧
    (step worldAInR1 (Input.videoSeek "s1" examplePayload 1 2 (some ⟨"update failed"⟩))).2 =
      [Effect.store (StoreOp.updateCurrentVideo (JsVal.str "R1") (seekState examplePayload 1)),
       Effect.emit (Address.others (JsVal.str "R1") "s1")
         (ServerEvent.videoSeek (playbackPayload socketAInR1 examplePayload 2))] ∧
    (step worldAInR1 (Input.videoPlay "s1" examplePayload 1 2 (some ⟨"update failed"⟩))).2.any
      Effect.isError = false ∧
    (step worldABInR1 (Input.videoPlay "s1" examplePayload 1 2 (some ⟨"update failed"⟩))).1.db =
      worldABInR1.db ∧
    (step worldABInR1 (Input.videoPlay "s1" examplePayload 1 2 (some ⟨"update failed"⟩))).2 =
      [Effect.store (StoreOp.updateCurrentVideo (JsVal.str "R1") (playState examplePayload 1)),
       Effect.emit (Address.others (JsVal.str "R1") "s1")
         (ServerEvent.videoPlay (playbackPayload socketAInR1 examplePayload 2))] ∧
    recipients worldABInR1.sockets (Address.others (JsVal.str "R1") "s1") = ["s2"] := by
  refine ⟨by decide, by decide, by decide, by decide, by decide, by decide, by decide,
    by decide, by decide, by decide, by decide, by decide, by decide, by decide⟩

/-- C9: for every chat-message event from a connection in a room whose `message` is a
string, the handler rejects it (its whole outcome is the one error event
`Message cannot be empty` to the sender, with no store call and no broadcast, state
unchanged) if and only if the message is empty after trimming white space; and that error
event is among the effects in no other case. -/
theorem chat_rejected_iff_blank (insert : JsVal → String → String → Resp ChatRecord)
    (regs : Registries) (sock : Socket) (data : JsData) (msg : String)
    (hroom : sock.currentRoom.truthy = true)
    (hmsg : data.prop "message" = some (JsVal.str msg)) :
    (onChatMessage insert regs sock data = reject regs sock "Message cannot be empty" ↔
      jsTrim msg = "") ∧
    (Effect.emit (Address.self sock.id) (ServerEvent.error "Message cannot be empty") ∈
        (onChatMessage insert regs sock data).effects ↔
      jsTrim msg = "") := by
  by_cases hb : jsTrim msg = ""
  · have hrej : onChatMessage insert regs sock data =
        reject regs sock "Message cannot be empty" := by
      unfold onChatMessage
      simp only [hroom, hmsg, Bool.not_true, Bool.false_eq_true, if_false]
      by_cases hm : (JsVal.str msg).truthy = true
      · simp [hm, JsVal.trim, hb]
      · simp [hm]
    refine ⟨iff_of_true hrej hb, iff_of_true ?_ hb⟩
    rw [hrej]
    simp [reject]
  · have heff := chat_effects_of_accepted insert regs sock data msg hroom hmsg hb
    refine ⟨iff_of_false ?_ hb, iff_of_false ?_ hb⟩
    · rw [heff]
      simp [reject]
    · rw [heff]
      simp only [List.mem_cons, reduceCtorEq, false_or]
      unfold onChatMessageResume
      repeat' split
      all_goals simp

/-- C9 at concrete inputs: from user A in room R1, the message of a space, a tab and a line
feed is rejected, and the message " hi " is not. -/
theorem chat_rejected_iff_blank_witness :
    onChatMessage (storeInsertChat exampleDb "m1" 5 none) regsAInR1 socketAInR1
        (JsData.obj [("message", JsVal.str " \t\n")]) =
      reject regsAInR1 socketAInR1 "Message cannot be empty" ∧
    onChatMessage (storeInsertChat exampleDb "m1" 5 none) regsAInR1 socketAInR1
        (JsData.obj [("message", JsVal.str " hi ")]) ≠
      reject regsAInR1 socketAInR1 "Message cannot be empty" :=
  ⟨(chat_rejected_iff_blank (storeInsertChat exampleDb "m1" 5 none) regsAInR1 socketAInR1
      (JsData.obj [("message", JsVal.str " \t\n")]) " \t\n" (by decide) (by decide)).1.2
      (by decide),
   fun h => absurd
    ((chat_rejected_iff_blank (storeInsertChat exampleDb "m1" 5 none) regsAInR1 socketAInR1
      (JsData.obj [("message", JsVal.str " hi ")]) " hi " (by decide) (by decide)).1.1 h)
    (by decide)⟩

/-- C10: for every chat-message from a connection in a room whose text is a string that is
not blank, and whose insert succeeds: the store records the row with the id and `created_at`
it assigns and with the trimmed text; every chat-message event the handler emits carries that
id and timestamp, `roomId` the sender's current room, `user.id` the sending connection's user
id and as `message` the trimmed text; when the sender's profile row exists the handler emits
exactly that broadcast to the whole room; and the trimmed text is the sender's text without a
prefix and a suffix of white space, starts and ends with a character that is not white space,
and is not blank. -/
theorem chat_broadcast_carries_persisted_row (db : Db) (regs : Registries) (sock : Socket)
    (data : JsData) (msg newId : String) (now : Nat)
    (hroom : sock.currentRoom.truthy = true)
    (hmsg : data.prop "message" = some (JsVal.str msg))
    (hne : jsTrim msg ≠ "") :
    ((insertChatMessage db sock.currentRoom sock.userId (jsTrim msg) newId now none).2.error =
        none →
      (insertChatMessage db sock.currentRoom sock.userId (jsTrim msg) newId now
          none).1.chat_messages =
        db.chat_messages ++
          [{ id := newId, room_id := jsToString sock.currentRoom, user_id := sock.userId,
             message := jsTrim msg, created_at := now }]) ∧
    (∀ dest chatResponse,
      Effect.emit dest (ServerEvent.chatMessage chatResponse) ∈
        (onChatMessage (storeInsertChat db newId now none) regs sock data).effects →
      chatResponse.id = newId ∧ chatResponse.timestamp = now ∧
      chatResponse.roomId = sock.currentRoom ∧ chatResponse.user.id = JsVal.str sock.userId ∧
      chatResponse.message = jsTrim msg) ∧
    (∀ profile, embedProfile db sock.userId = some profile →
      (onChatMessage (storeInsertChat db newId now none) regs sock data).effects =
        [Effect.store (StoreOp.insertChatMessage sock.currentRoom sock.userId (jsTrim msg)),
         Effect.emit (Address.all sock.currentRoom)
           (ServerEvent.chatMessage
             { id := newId, message := jsTrim msg,
               user := { id := JsVal.str sock.userId,
                         username := jsOr profile.username (getField sock.user "username"),
                         avatar := jsOr profile.avatar (getField sock.user "avatar") },
               timestamp := now, roomId := sock.currentRoom })]) ∧
    (∃ pre post, msg.data = pre ++ (jsTrim msg).data ++ post ∧
      pre.all isJsWhiteSpace = true ∧ post.all isJsWhiteSpace = true) ∧
    (∀ c, (jsTrim msg).data.head? = some c → isJsWhiteSpace c = false) ∧
    (∀ c, (jsTrim msg).data.getLast? = some c → isJsWhiteSpace c = false) ∧
    (jsTrim msg).data.all isJsWhiteSpace = false := by
  have heff := chat_effects_of_accepted (storeInsertChat db newId now none) regs sock data msg
    hroom hmsg hne
  have hjs : jsOr JsVal.undefined (JsVal.str sock.userId) = JsVal.str sock.userId := rfl
  refine ⟨?_, ?_, ?_, trimChars_decompose msg.data, trimChars_head_not_space msg.data,
    trimChars_last_not_space msg.data, ?_⟩
  · intro h
    cases hp : embedProfile db sock.userId with
    | none => simp [insertChatMessage, hp] at h
    | some profile => simp [insertChatMessage, hp]
  · intro dest r h
    rw [heff] at h
    simp only [List.mem_cons, reduceCtorEq, false_or] at h
    cases hp : embedProfile db sock.userId with
    | none =>
      simp [onChatMessageResume, storeInsertChat, insertChatMessage, single, hp] at h
    | some profile =>
      simp [onChatMessageResume, storeInsertChat, insertChatMessage, single, hp] at h
      obtain ⟨_, rfl⟩ := h
      exact ⟨rfl, rfl, rfl, hjs, rfl⟩
  · intro profile hp
    rw [heff]
    simp [onChatMessageResume, storeInsertChat, insertChatMessage, single, hp, hjs]
  · apply trimChars_not_blank
    intro h0
    exact hne (String.ext h0)

/-- C10 at a concrete input: user A, in room R1, sends " hi "; the store assigns id m1 and
time 5; the broadcast to room R1 carries m1, 5, R1, user id A and the text "hi". -/
theorem chat_broadcast_carries_persisted_row_witness :
    (onChatMessage (storeInsertChat exampleDb "m1" 5 none) regsAInR1 socketAInR1
        (JsData.obj [("message", JsVal.str " hi ")])).effects =
      [Effect.store (StoreOp.insertChatMessage (JsVal.str "R1") "A" "hi"),
       Effect.emit (Address.all (JsVal.str "R1"))
         (ServerEvent.chatMessage
           { id := "m1", message := "hi",
             user := { id := JsVal.str "A", username := JsVal.str "alice",
                       avatar := JsVal.null },
             timestamp := 5, roomId := JsVal.str "R1" })] :=
  (chat_broadcast_carries_persisted_row exampleDb regsAInR1 socketAInR1
    (JsData.obj [("message", JsVal.str " hi ")]) " hi " "m1" 5 (by decide) (by decide)
    (by decide)).2.2.1 { username := JsVal.str "alice", avatar := JsVal.null } (by decide)

/-- C11: for every successful join-room (the payload carries a room id, the store returned
the room, the requester is an active participant), the one room-state event carries as
`connectedUsers` the live membership set of the room after the join, which is the set before
the join with the joiner added (`Set.add`: kept in place when already a member, appended when
not), so it contains the joiner; and when user A and then another user B join a room whose
set was empty, the snapshot of A is [A] and the snapshot of B is [A, B]. -/
theorem room_state_lists_live_set (fetchRoom : JsVal → Resp RoomRecord) (regs : Registries)
    (sock : Socket) (data : JsData) (roomId : JsVal) (room : RoomRecord)
    (ps : List ParticipantEmbed) (now : Nat)
    (hdata : data.prop "roomId" = some roomId)
    (hresp : fetchRoom roomId = { data := some room, error := none })
    (hps : room.participants = some ps)
    (hany : ps.any (fun p => decide (p.user_id = sock.userId) && p.is_active) = true) :
    (onJoinRoom fetchRoom regs sock data now).effects.filter Effect.isRoomState =
      [Effect.emit (Address.self sock.id)
        (ServerEvent.roomState room (liveSet (onJoinRoom fetchRoom regs sock data now).regs roomId))] ∧
    liveSet (onJoinRoom fetchRoom regs sock data now).regs roomId =
      setAdd (liveSet regs roomId) sock.userId ∧
    sock.userId ∈ liveSet (onJoinRoom fetchRoom regs sock data now).regs roomId ∧
    (sock.userId ∈ liveSet regs roomId →
      liveSet (onJoinRoom fetchRoom regs sock data now).regs roomId = liveSet regs roomId) ∧
    (sock.userId ∉ liveSet regs roomId →
      liveSet (onJoinRoom fetchRoom regs sock data now).regs roomId =
        liveSet regs roomId ++ [sock.userId]) ∧
    (∀ (sockB : Socket) (dataB : JsData) (later : Nat),
      liveSet regs roomId = [] → sockB.userId ≠ sock.userId →
      dataB.prop "roomId" = some roomId →
      ps.any (fun p => decide (p.user_id = sockB.userId) && p.is_active) = true →
      (onJoinRoom fetchRoom regs sock data now).effects.filter Effect.isRoomState =
        [Effect.emit (Address.self sock.id) (ServerEvent.roomState room [sock.userId])] ∧
      (onJoinRoom fetchRoom (onJoinRoom fetchRoom regs sock data now).regs sockB dataB
          later).effects.filter Effect.isRoomState =
        [Effect.emit (Address.self sockB.id)
          (ServerEvent.roomState room [sock.userId, sockB.userId])]) := by
  have h := onJoinRoom_accepted fetchRoom regs sock data roomId room ps now hdata hresp hps hany
  refine ⟨?_, h.2.1, ?_, ?_, ?_, ?_⟩
  · rw [h.1, h.2.1]; rfl
  · rw [h.2.1]; exact mem_setAdd_self _ _
  · intro hin; rw [h.2.1]; simp [setAdd, hin]
  · intro hnin; rw [h.2.1]; simp [setAdd, hnin]
  · intro sockB dataB later hempty hne hdataB hanyB
    have hB := onJoinRoom_accepted fetchRoom (onJoinRoom fetchRoom regs sock data now).regs sockB
      dataB roomId room ps later hdataB hresp hps hanyB
    have hne2 : ¬ sockB.userId = sock.userId := hne
    refine ⟨?_, ?_⟩
    · rw [h.1, hempty]; rfl
    · rw [hB.1, h.2.1, hempty]
      simp [setAdd, hne2, List.filter, Effect.isRoomState]

/-- C11 at a concrete input: A and then B join room R1 while no room is tracked; the
snapshots are [A] and [A, B]. -/
theorem room_state_lists_live_set_witness :
    (onJoinRoom (storeFetchRoom exampleDb none) regsNoRoom socketAConnected
        (JsData.obj [("roomId", JsVal.str "R1")]) 1).effects.filter Effect.isRoomState =
      [Effect.emit (Address.self "s1") (ServerEvent.roomState exampleRecordR1 ["A"])] ∧
    (onJoinRoom (storeFetchRoom exampleDb none)
        (onJoinRoom (storeFetchRoom exampleDb none) regsNoRoom socketAConnected
          (JsData.obj [("roomId", JsVal.str "R1")]) 1).regs
        socketBConnected (JsData.obj [("roomId", JsVal.str "R1")]) 2).effects.filter
        Effect.isRoomState =
      [Effect.emit (Address.self "s2") (ServerEvent.roomState exampleRecordR1 ["A", "B"])] :=
  (room_state_lists_live_set (storeFetchRoom exampleDb none) regsNoRoom socketAConnected
    (JsData.obj [("roomId", JsVal.str "R1")]) (JsVal.str "R1") exampleRecordR1
    (embedParticipants exampleDb "R1") 1 (by decide) (by decide) (by decide)
    (by decide)).2.2.2.2.2 socketBConnected (JsData.obj [("roomId", JsVal.str "R1")]) 2
    (by decide) (by decide) (by decide) (by decide)

/-- C12: every successful join-room emits exactly two events, in this order: user-joined
with the id, username and avatar of `socket.user`, addressed to the room except the joining
socket (its receivers are the members of the room other than the joiner, never the joiner),
then room-state addressed to the joining socket only. -/
theorem join_emits_user_joined_then_room_state (fetchRoom : JsVal → Resp RoomRecord)
    (regs : Registries) (sock : Socket) (data : JsData) (roomId : JsVal) (room : RoomRecord)
    (ps : List ParticipantEmbed) (now : Nat)
    (hdata : data.prop "roomId" = some roomId)
    (hresp : fetchRoom roomId = { data := some room, error := none })
    (hps : room.participants = some ps)
    (hany : ps.any (fun p => decide (p.user_id = sock.userId) && p.is_active) = true) :
    (onJoinRoom fetchRoom regs sock data now).effects.filter Effect.isEmit =
      [Effect.emit (Address.others roomId sock.id)
         (ServerEvent.userJoined
           { id := getField sock.user "id", username := getField sock.user "username",
             avatar := getField sock.user "avatar" } now),
       Effect.emit (Address.self sock.id)
         (ServerEvent.roomState room
           (liveSet (onJoinRoom fetchRoom regs sock data now).regs roomId))] ∧
    (∀ sockets i, i ∈ recipients sockets (Address.others roomId sock.id) ↔
      i ∈ members sockets roomId ∧ i ≠ sock.id) ∧
    (∀ sockets, sock.id ∉ recipients sockets (Address.others roomId sock.id)) ∧
    (∀ sockets i, i ∈ recipients sockets (Address.self sock.id) → i = sock.id) := by
  have h := onJoinRoom_accepted fetchRoom regs sock data roomId room ps now hdata hresp hps hany
  refine ⟨?_, fun sockets i => mem_recipients_others sockets _ _ i, ?_, ?_⟩
  · rw [h.1, h.2.1]; rfl
  · intro sockets hmem
    exact ((mem_recipients_others sockets _ _ _).1 hmem).2 rfl
  · intro sockets i hi
    simp only [recipients, List.mem_map, List.mem_filter, Bool.and_eq_true,
      decide_eq_true_eq] at hi
    obtain ⟨s, ⟨_, _, hid⟩, rfl⟩ := hi
    exact hid

/-- C12 at a concrete input: B joins room R1 where A is; A (socket s1) receives user-joined
with B's id, username and avatar, B (socket s2) receives room-state. -/
theorem join_emits_user_joined_then_room_state_witness :
    (step worldAInR1 (Input.connection "s2" "B" exampleUserB 0 none)).1.sockets =
      [socketAInR1, socketBConnected] ∧
    (onJoinRoom (storeFetchRoom exampleDb none) regsAInR1 socketBConnected
        (JsData.obj [("roomId", JsVal.str "R1")]) 2).effects.filter Effect.isEmit =
      [Effect.emit (Address.others (JsVal.str "R1") "s2")
         (ServerEvent.userJoined
           { id := JsVal.str "B", username := JsVal.str "bob", avatar := JsVal.null } 2),
       Effect.emit (Address.self "s2") (ServerEvent.roomState exampleRecordR1 ["A", "B"])] ∧
    recipients [socketAInR1, socketBInR1] (Address.others (JsVal.str "R1") "s2") = ["s1"] :=
  ⟨by decide,
   (join_emits_user_joined_then_room_state (storeFetchRoom exampleDb none) regsAInR1
      socketBConnected (JsData.obj [("roomId", JsVal.str "R1")]) (JsVal.str "R1") exampleRecordR1
      (embedParticipants exampleDb "R1") 2 (by decide) (by decide) (by decide) (by decide)).1,
   by decide⟩

/-- C13 (counterexample to the claim as stated): A and B are each connected twice and all
four connections joined room R1; the first connection of A and then the first connection of B
are closed, which empties and deletes the set of R1. The second connection of A (s4) has
joined R1 and R1 is its current room; when it disconnects, no user-left event is emitted,
although the second connection of B (s5) is still in the room; only the presence write is
issued. -/
theorem disconnect_without_room_entry_emits_no_user_left :
    Reachable worldSecondConnectionsLeft ∧
    (findSocket worldSecondConnectionsLeft.sockets "s4").map (fun s => s.currentRoom) =
      some (JsVal.str "R1") ∧
    members worldSecondConnectionsLeft.sockets (JsVal.str "R1") = ["s4", "s5"] ∧
    mapHas worldSecondConnectionsLeft.regs.roomConnections (JsVal.str "R1") = false ∧
    (step worldSecondConnectionsLeft (Input.disconnect "s4" 4 none)).2 =
      [Effect.store (StoreOp.updatePresence "A" false 4)] ∧
    (step worldSecondConnectionsLeft (Input.disconnect "s4" 4 none)).2.any Effect.isUserLeft =
      false :=
  ⟨⟨exampleDb,
    inputsTwoConnectionsEach ++ [Input.disconnect "s1" 2 none, Input.disconnect "s2" 3 none], rfl⟩,
   by decide, by decide, by decide, by decide, by decide⟩

/-- C13 (as amended): when a connection whose current room is R disconnects and
`roomConnections` holds a set for R (as it does whenever the user's id is in the set of R),
the handler emits user-left with the id, username and avatar of `socket.user` to the room
except the disconnecting socket, and then issues the presence write `is_online = false` with
the time as `last_seen` for the user; when the connection has no current room, or
`roomConnections` holds no set for it, the handler emits no user-left and issues the presence
write alone. -/
theorem disconnect_notifies_tracked_room (regs : Registries) (sock : Socket) (now : Nat) :
    (sock.currentRoom.truthy = true → mapHas regs.roomConnections sock.currentRoom = true →
      (onDisconnect regs sock now).effects =
        [Effect.emit (Address.others sock.currentRoom sock.id)
           (ServerEvent.userLeft
             { id := getField sock.user "id", username := getField sock.user "username",
               avatar := getField sock.user "avatar" } now),
         Effect.store (StoreOp.updatePresence sock.userId false now)]) ∧
    (sock.userId ∈ liveSet regs sock.currentRoom →
      mapHas regs.roomConnections sock.currentRoom = true) ∧
    (sock.currentRoom.truthy = false ∨ mapHas regs.roomConnections sock.currentRoom = false →
      (onDisconnect regs sock now).effects =
        [Effect.store (StoreOp.updatePresence sock.userId false now)]) ∧
    (∀ sockets i, i ∈ recipients sockets (Address.others sock.currentRoom sock.id) ↔
      i ∈ members sockets sock.currentRoom ∧ i ≠ sock.id) := by
  refine ⟨?_, ?_, ?_, fun sockets i => mem_recipients_others sockets _ _ i⟩
  · intro ht hh
    simp [onDisconnect, ht, hh, userInfo]
  · intro hmem
    cases hh : mapHas regs.roomConnections sock.currentRoom with
    | true => rfl
    | false =>
      unfold liveSet at hmem
      rw [mapGet_eq_none_of_not_has _ _ hh] at hmem
      simp at hmem
  · intro h
    rcases h with h | h
    · simp [onDisconnect, h]
    · simp [onDisconnect, h]

/-- C13 (as amended) at concrete inputs: A and B are in room R1 and A disconnects: user-left
goes to B's socket and the presence write is issued; A connected but in no room disconnects:
the presence write alone. -/
theorem disconnect_notifies_tracked_room_witness :
    (onDisconnect worldABInR1.regs { socketAInR1 with rooms := [], connected := false } 9).effects =
      [Effect.emit (Address.others (JsVal.str "R1") "s1")
         (ServerEvent.userLeft
           { id := JsVal.str "A", username := JsVal.str "alice", avatar := JsVal.null } 9),
       Effect.store (StoreOp.updatePresence "A" false 9)] ∧
    recipients (step worldABInR1 (Input.disconnect "s1" 9 none)).1.sockets
      (Address.others (JsVal.str "R1") "s1") = ["s2"] ∧
    (onDisconnect worldAConnected.regs { socketAConnected with rooms := [], connected := false }
        9).effects =
      [Effect.store (StoreOp.updatePresence "A" false 9)] :=
  ⟨(disconnect_notifies_tracked_room worldABInR1.regs
      { socketAInR1 with rooms := [], connected := false } 9).1 (by decide) (by decide),
   by decide,
   (disconnect_notifies_tracked_room worldAConnected.regs
      { socketAConnected with rooms := [], connected := false } 9).2.2.1 (Or.inl (by decide))⟩

/-- C14: the disconnect handler of a connection whose current room is R leaves as the live
membership set of R the set before without the disconnecting user's id: the user's id is not
in it, every other user id is in it exactly when it was before, in the same order; and the
set of every other room is as before. -/
theorem disconnect_removes_only_the_user (regs : Registries) (sock : Socket) (now : Nat)
    (hroom : sock.currentRoom.truthy = true) :
    liveSet (onDisconnect regs sock now).regs sock.currentRoom =
      (liveSet regs sock.currentRoom).filter (fun u => decide (u ≠ sock.userId)) ∧
    sock.userId ∉ liveSet (onDisconnect regs sock now).regs sock.currentRoom ∧
    (∀ u, u ≠ sock.userId →
      (u ∈ liveSet (onDisconnect regs sock now).regs sock.currentRoom ↔
        u ∈ liveSet regs sock.currentRoom)) ∧
    (∀ r, r ≠ sock.currentRoom →
      mapGet (onDisconnect regs sock now).regs.roomConnections r =
        mapGet regs.roomConnections r) := by
  have h := onDisconnect_current regs sock now hroom
  refine ⟨h, ?_, ?_, fun r hr => onDisconnect_other regs sock now r hr⟩
  · rw [h, mem_setDelete]
    exact fun hc => hc.2 rfl
  · intro u hu
    rw [h, mem_setDelete]
    exact ⟨fun hc => hc.1, fun hc => ⟨hc, hu⟩⟩

/-- C14 at a concrete input: with A and B in R1 and C in R2, the disconnect of A leaves B in
R1 and C in R2. -/
theorem disconnect_removes_only_the_user_witness :
    (onDisconnect regsTwoRooms { socketAInR1 with rooms := [], connected := false }
        9).regs.roomConnections =
      [(JsVal.str "R1", ["B"]), (JsVal.str "R2", ["C"])] ∧
    liveSet (onDisconnect regsTwoRooms { socketAInR1 with rooms := [], connected := false }
        9).regs (JsVal.str "R1") = ["B"] :=
  ⟨by decide,
   (disconnect_removes_only_the_user regsTwoRooms
      { socketAInR1 with rooms := [], connected := false } 9 (by decide)).1⟩

/-- C15: the middleware refuses a connection whose token is not truthy (missing or empty)
with `Authentication error: No token provided` and makes no call to the Identity Provider; it
refuses with `Authentication error: Invalid token` when the token verification fails (an
error, or no user) and when the profile query fails; and for every refused connection the
connection handler does not run: the world, with its registries, is unchanged. -/
theorem unauthenticated_connection_is_refused (getUser : JsVal → Resp AuthUser)
    (selectProfile : String → Resp JsObj) (token : JsVal) :
    (token.truthy = false →
      authenticateSocket getUser selectProfile token =
        { result := Handshake.refused "Authentication error: No token provided", calls := [] }) ∧
    (token.truthy = true →
      ((getUser token).error ≠ none ∨ (getUser token).data = none) →
      authenticateSocket getUser selectProfile token =
        { result := Handshake.refused "Authentication error: Invalid token",
          calls := [IdentityCall.getUser token] }) ∧
    (∀ user, token.truthy = true →
      (getUser token).error = none → (getUser token).data = some user →
      (selectProfile user.id).error ≠ none →
      authenticateSocket getUser selectProfile token =
        { result := Handshake.refused "Authentication error: Invalid token",
          calls := [IdentityCall.getUser token, IdentityCall.selectProfile user.id] }) ∧
    (∀ (w : World) (socketId reason : String) (now : Nat) (fault : Option StoreError),
      (authenticateSocket getUser selectProfile token).result = Handshake.refused reason →
      (connect w getUser selectProfile socketId token now fault).1 = w) := by
  refine ⟨?_, ?_, ?_, ?_⟩
  · intro ht
    simp [authenticateSocket, ht]
  · intro ht hfail
    have hv : verifySupabaseToken getUser token = none := by
      unfold verifySupabaseToken
      rcases hfail with h | h
      · cases he : (getUser token).error with
        | none => exact absurd he h
        | some e => rfl
      · rw [h]
        cases (getUser token).error <;> rfl
    simp [authenticateSocket, ht, hv]
  · intro user ht he hd hp
    have hv : verifySupabaseToken getUser token = some user := by
      unfold verifySupabaseToken
      rw [he, hd]
    have hg : getUserProfile selectProfile user.id = none := by
      unfold getUserProfile
      cases hpe : (selectProfile user.id).error with
      | none => exact absurd hpe hp
      | some e => rfl
    simp [authenticateSocket, ht, hv, hg]
  · intro w socketId reason now fault hr
    simp [connect, hr]

/-- C15 at concrete inputs: no token, the empty token, an unknown token, and a good token
whose profile row is gone are refused; the good token with its profile row is accepted and
registers user A. -/
theorem unauthenticated_connection_is_refused_witness :
    authenticateSocket exampleGetUser (storeSelectProfile exampleDb none) JsVal.undefined =
      { result := Handshake.refused "Authentication error: No token provided", calls := [] } ∧
    authenticateSocket exampleGetUser (storeSelectProfile exampleDb none) (JsVal.str "bad") =
      { result := Handshake.refused "Authentication error: Invalid token",
        calls := [IdentityCall.getUser (JsVal.str "bad")] } ∧
    authenticateSocket exampleGetUser (storeSelectProfile exampleDbNoProfileA none)
        (JsVal.str "good") =
      { result := Handshake.refused "Authentication error: Invalid token",
        calls := [IdentityCall.getUser (JsVal.str "good"), IdentityCall.selectProfile "A"] } ∧
    (connect (World.init exampleDb) exampleGetUser (storeSelectProfile exampleDb none) "s1"
        (JsVal.str "") 0 none).1 = World.init exampleDb ∧
    (connect (World.init exampleDb) exampleGetUser (storeSelectProfile exampleDb none) "s1"
        (JsVal.str "good") 0 none).1.regs.activeConnections.map Prod.fst = ["A"] :=
  ⟨(unauthenticated_connection_is_refused exampleGetUser (storeSelectProfile exampleDb none)
      JsVal.undefined).1 (by decide),
   (unauthenticated_connection_is_refused exampleGetUser (storeSelectProfile exampleDb none)
      (JsVal.str "bad")).2.1 (by decide) (Or.inl (by decide)),
   (unauthenticated_connection_is_refused exampleGetUser
      (storeSelectProfile exampleDbNoProfileA none) (JsVal.str "good")).2.2.1
      { id := "A", email := JsVal.str "a@example.org" } (by decide) (by decide) (by decide)
      (by decide),
   (unauthenticated_connection_is_refused exampleGetUser (storeSelectProfile exampleDb none)
      (JsVal.str "")).2.2.2 (World.init exampleDb) "s1"
      "Authentication error: No token provided" 0 none (by decide),
   by decide⟩

/-- C16 (the code departs from the claim): user A connects as s1 and then, s1 still open, as
s4; the entry of A in `activeConnections` records s4. When the older connection s1
disconnects, the entry of A is deleted although the connection it records, s4, is still
connected. -/
theorem older_disconnect_removes_newer_entry :
    Reachable worldAReconnected ∧
    mapGet worldAReconnected.regs.activeConnections "A" =
      some { socketId := "s4", user := exampleUserA, connectedAt := 1 } ∧
    mapHas (step worldAReconnected (Input.disconnect "s1" 2 none)).1.regs.activeConnections "A" =
      false ∧
    (findSocket (step worldAReconnected (Input.disconnect "s1" 2 none)).1.sockets "s4").isSome =
      true :=
  ⟨⟨exampleDb,
    [Input.connection "s1" "A" exampleUserA 0 none, Input.connection "s4" "A" exampleUserA 1 none],
    rfl⟩, by decide, by decide, by decide⟩

/-- C17: a step of the engine puts a user id into the live membership set of a room only if
it is a join-room request of a socket of that user for that room which the store answered
with the record of that room holding a participant record of the user with `is_active` true;
hence for every run from process start, every user id in a set was put there by such a step
of the run. -/
theorem live_members_were_validated :
    (∀ (w : World) (i : Input) (room : JsVal) (u : String),
      u ∈ liveSet (step w i).1.regs room → u ∉ liveSet w.regs room →
      ValidatedJoin w i room u) ∧
    (∀ (db : Db) (inputs : List Input) (room : JsVal) (u : String),
      u ∈ liveSet (run (World.init db) inputs).regs room →
      ∃ pre i post, inputs = pre ++ i :: post ∧
        ValidatedJoin (run (World.init db) pre) i room u ∧
        u ∉ liveSet (run (World.init db) pre).regs room ∧
        u ∈ liveSet (step (run (World.init db) pre) i).1.regs room) := by
  refine ⟨step_adds_only_validated, ?_⟩
  intro db inputs room u h
  rcases run_members_validated inputs (World.init db) room u h with h0 | h1
  · simp [liveSet, World.init, mapGet] at h0
  · exact h1

/-- C17 at a concrete input: B is in the set of R1 after A and B joined, and the run holds
the validated join that put B there. -/
theorem live_members_were_validated_witness :
    "B" ∈ liveSet worldABInR1.regs (JsVal.str "R1") ∧
    ∃ pre i post, inputsABJoinR1 = pre ++ i :: post ∧
      ValidatedJoin (run (World.init exampleDb) pre) i (JsVal.str "R1") "B" ∧
      "B" ∉ liveSet (run (World.init exampleDb) pre).regs (JsVal.str "R1") ∧
      "B" ∈ liveSet (step (run (World.init exampleDb) pre) i).1.regs (JsVal.str "R1") :=
  ⟨by decide,
   live_members_were_validated.2 exampleDb inputsABJoinR1 (JsVal.str "R1") "B" (by decide)⟩

/-- C18: in every reachable world no entry of `roomConnections` holds an empty set, and
none does after any further step; and a disconnect that leaves no other user id in the set of
the current room leaves no entry for that room. -/
theorem no_empty_room_entry (w : World) (h : Reachable w) :
    (∀ e ∈ w.regs.roomConnections, e.2 ≠ []) ∧
    (∀ (i : Input), ∀ e ∈ (step w i).1.regs.roomConnections, e.2 ≠ []) ∧
    (∀ (sock : Socket) (now : Nat), sock.currentRoom.truthy = true →
      (liveSet w.regs sock.currentRoom).filter (fun u => decide (u ≠ sock.userId)) = [] →
      mapGet (onDisconnect w.regs sock now).regs.roomConnections sock.currentRoom = none) := by
  obtain ⟨db, inputs, rfl⟩ := h
  have hinv : NoEmptyRoom (run (World.init db) inputs).regs := by
    apply noEmpty_run
    intro e he
    simp [World.init] at he
  refine ⟨hinv, fun i => noEmpty_step _ i hinv, ?_⟩
  intro sock now ht hempty
  cases hh : mapHas (run (World.init db) inputs).regs.roomConnections sock.currentRoom with
  | false =>
    have hno : (onDisconnect (run (World.init db) inputs).regs sock now).regs.roomConnections =
        (run (World.init db) inputs).regs.roomConnections := by
      simp [onDisconnect, hh]
    rw [hno]
    exact mapGet_eq_none_of_not_has _ _ hh
  | true =>
    have hrem : setDelete ((mapGet (run (World.init db) inputs).regs.roomConnections
        sock.currentRoom).getD []) sock.userId = [] := hempty
    simp only [onDisconnect, ht, hh, Bool.and_self, if_true, hrem, List.length_nil,
      beq_self_eq_true]
    exact mapGet_mapDelete_self _ _

/-- C18 at a concrete input: after A and B joined R1 the one entry is R1 with A and B;
after A alone was in R1 and disconnected, the map is empty. -/
theorem no_empty_room_entry_witness :
    worldABInR1.regs.roomConnections = [(JsVal.str "R1", ["A", "B"])] ∧
    (∀ e ∈ worldABInR1.regs.roomConnections, e.2 ≠ []) ∧
    (step worldAInR1 (Input.disconnect "s1" 9 none)).1.regs.roomConnections = [] :=
  ⟨by decide,
   (no_empty_room_entry worldABInR1 ⟨exampleDb, inputsABJoinR1, rfl⟩).1,
   by decide⟩

/-- C19: a join-room request fails in four ways, each with exactly one error event to the
sender and the registries and the socket (with its current room) unchanged: a payload that is
`undefined` or `null` (`Error joining room`), a store error or no record (`Room not found`), a
record without a participant list (`Error joining room`), no active participant record of the
requester (`Not authorized to join this room`); every request that emits no room-state event
is of that form; and an event addressed to the sender's socket reaches no other socket. -/
theorem failed_join_reports_once_and_changes_nothing (fetchRoom : JsVal → Resp RoomRecord)
    (regs : Registries) (sock : Socket) (data : JsData) (now : Nat) :
    (data.prop "roomId" = none →
      onJoinRoom fetchRoom regs sock data now =
        { regs := regs, sock := sock,
          effects := [Effect.emit (Address.self sock.id) (ServerEvent.error "Error joining room")] }) ∧
    (∀ roomId, data.prop "roomId" = some roomId →
      ((fetchRoom roomId).error ≠ none ∨ (fetchRoom roomId).data = none) →
      onJoinRoom fetchRoom regs sock data now =
        { regs := regs, sock := sock,
          effects := [Effect.store (StoreOp.selectRoom roomId),
            Effect.emit (Address.self sock.id) (ServerEvent.error "Room not found")] }) ∧
    (∀ roomId room, data.prop "roomId" = some roomId →
      (fetchRoom roomId).error = none → (fetchRoom roomId).data = some room →
      room.participants = none →
      onJoinRoom fetchRoom regs sock data now =
        { regs := regs, sock := sock,
          effects := [Effect.store (StoreOp.selectRoom roomId),
            Effect.emit (Address.self sock.id) (ServerEvent.error "Error joining room")] }) ∧
    (∀ roomId room ps, data.prop "roomId" = some roomId →
      (fetchRoom roomId).error = none → (fetchRoom roomId).data = some room →
      room.participants = some ps →
      ps.any (fun p => decide (p.user_id = sock.userId) && p.is_active) = false →
      onJoinRoom fetchRoom regs sock data now =
        { regs := regs, sock := sock,
          effects := [Effect.store (StoreOp.selectRoom roomId),
            Effect.emit (Address.self sock.id)
              (ServerEvent.error "Not authorized to join this room")] }) ∧
    ((onJoinRoom fetchRoom regs sock data now).effects.any Effect.isRoomState = false →
      ∃ message,
        (onJoinRoom fetchRoom regs sock data now).effects.filter Effect.isEmit =
          [Effect.emit (Address.self sock.id) (ServerEvent.error message)] ∧
        (onJoinRoom fetchRoom regs sock data now).regs = regs ∧
        (onJoinRoom fetchRoom regs sock data now).sock = sock) ∧
    (∀ sockets i, i ∈ recipients sockets (Address.self sock.id) → i = sock.id) := by
  have c1 : data.prop "roomId" = none →
      onJoinRoom fetchRoom regs sock data now =
        { regs := regs, sock := sock,
          effects := [Effect.emit (Address.self sock.id) (ServerEvent.error "Error joining room")] } := by
    intro hd; simp [onJoinRoom, hd, reject]
  have c2 : ∀ roomId, data.prop "roomId" = some roomId →
      ((fetchRoom roomId).error ≠ none ∨ (fetchRoom roomId).data = none) →
      onJoinRoom fetchRoom regs sock data now =
        { regs := regs, sock := sock,
          effects := [Effect.store (StoreOp.selectRoom roomId),
            Effect.emit (Address.self sock.id) (ServerEvent.error "Room not found")] } := by
    intro roomId hd hf
    simp only [onJoinRoom, hd]
    rw [(onJoinRoomResume_rejected regs sock roomId (fetchRoom roomId) now).1 hf]
    rfl
  have c3 : ∀ roomId room, data.prop "roomId" = some roomId →
      (fetchRoom roomId).error = none → (fetchRoom roomId).data = some room →
      room.participants = none →
      onJoinRoom fetchRoom regs sock data now =
        { regs := regs, sock := sock,
          effects := [Effect.store (StoreOp.selectRoom roomId),
            Effect.emit (Address.self sock.id) (ServerEvent.error "Error joining room")] } := by
    intro roomId room hd he hdat hp
    simp only [onJoinRoom, hd]
    rw [(onJoinRoomResume_rejected regs sock roomId (fetchRoom roomId) now).2.1 room he hdat hp]
    rfl
  have c4 : ∀ roomId room ps, data.prop "roomId" = some roomId →
      (fetchRoom roomId).error = none → (fetchRoom roomId).data = some room →
      room.participants = some ps →
      ps.any (fun p => decide (p.user_id = sock.userId) && p.is_active) = false →
      onJoinRoom fetchRoom regs sock data now =
        { regs := regs, sock := sock,
          effects := [Effect.store (StoreOp.selectRoom roomId),
            Effect.emit (Address.self sock.id)
              (ServerEvent.error "Not authorized to join this room")] } := by
    intro roomId room ps hd he hdat hp hany
    simp only [onJoinRoom, hd]
    rw [(onJoinRoomResume_rejected regs sock roomId (fetchRoom roomId) now).2.2 room ps he hdat
      hp hany]
    rfl
  refine ⟨c1, c2, c3, c4, ?_, ?_⟩
  · intro hno
    cases hd : data.prop "roomId" with
    | none => rw [c1 hd]; exact ⟨_, rfl, rfl, rfl⟩
    | some roomId =>
      cases he : (fetchRoom roomId).error with
      | some e =>
        rw [c2 roomId hd (Or.inl (by rw [he]; simp))]; exact ⟨_, rfl, rfl, rfl⟩
      | none =>
        cases hdat : (fetchRoom roomId).data with
        | none => rw [c2 roomId hd (Or.inr hdat)]; exact ⟨_, rfl, rfl, rfl⟩
        | some room =>
          cases hp : room.participants with
          | none => rw [c3 roomId room hd he hdat hp]; exact ⟨_, rfl, rfl, rfl⟩
          | some ps =>
            cases hany : ps.any (fun p => decide (p.user_id = sock.userId) && p.is_active) with
            | false => rw [c4 roomId room ps hd he hdat hp hany]; exact ⟨_, rfl, rfl, rfl⟩
            | true =>
              exfalso
              have hresp : fetchRoom roomId = { data := some room, error := none } := by
                rw [← he, ← hdat]
              have hacc := onJoinRoom_accepted fetchRoom regs sock data roomId room ps now hd
                hresp hp hany
              rw [hacc.1] at hno
              simp [Effect.isRoomState] at hno
  · intro sockets i hi
    simp only [recipients, List.mem_map, List.mem_filter, Bool.and_eq_true,
      decide_eq_true_eq] at hi
    obtain ⟨s, ⟨_, _, hid⟩, rfl⟩ := hi
    exact hid

/-- C19 at concrete inputs: user C sends join-room without payload, for the unknown room
R9, and for a record that has no participant list. -/
theorem failed_join_reports_once_and_changes_nothing_witness :
    onJoinRoom (storeFetchRoom exampleDb none) regsAInR1 socketC (JsData.val JsVal.undefined) 1 =
      { regs := regsAInR1, sock := socketC,
        effects := [Effect.emit (Address.self "s3") (ServerEvent.error "Error joining room")] } ∧
    onJoinRoom (storeFetchRoom exampleDb none) regsAInR1 socketC
        (JsData.obj [("roomId", JsVal.str "R9")]) 1 =
      { regs := regsAInR1, sock := socketC,
        effects := [Effect.store (StoreOp.selectRoom (JsVal.str "R9")),
          Effect.emit (Address.self "s3") (ServerEvent.error "Room not found")] } ∧
    onJoinRoom (fun _ => { data := some { row := exampleRoom "R1" true, participants := none },
                           error := none }) regsAInR1 socketC
        (JsData.obj [("roomId", JsVal.str "R1")]) 1 =
      { regs := regsAInR1, sock := socketC,
        effects := [Effect.store (StoreOp.selectRoom (JsVal.str "R1")),
          Effect.emit (Address.self "s3") (ServerEvent.error "Error joining room")] } :=
  ⟨(failed_join_reports_once_and_changes_nothing (storeFetchRoom exampleDb none) regsAInR1 socketC
      (JsData.val JsVal.undefined) 1).1 (by decide),
   (failed_join_reports_once_and_changes_nothing (storeFetchRoom exampleDb none) regsAInR1 socketC
      (JsData.obj [("roomId", JsVal.str "R9")]) 1).2.1 (JsVal.str "R9") (by decide)
      (Or.inl (by decide)),
   (failed_join_reports_once_and_changes_nothing
      (fun _ => { data := some { row := exampleRoom "R1" true, participants := none },
                  error := none }) regsAInR1 socketC
      (JsData.obj [("roomId", JsVal.str "R1")]) 1).2.2.1 (JsVal.str "R1")
      { row := exampleRoom "R1" true, participants := none } (by decide) rfl rfl rfl⟩

/-- C20: for every payload and receipt time, the object written by video-play has
`is_playing` true, the one written by video-pause has `is_playing` false, both have
`last_updated` the receipt time, and every other field reads as in the payload; that object
is the one the handler of a connection in a room sends to the store, in its only write; and
the store puts it in column `current_video` of the room. -/
theorem persisted_play_state_overrides_payload (data : JsData) (now : Nat) :
    getField (playState data now) "is_playing" = JsVal.bool true ∧
    getField (pauseState data now) "is_playing" = JsVal.bool false ∧
    getField (playState data now) "last_updated" = JsVal.date now ∧
    getField (pauseState data now) "last_updated" = JsVal.date now ∧
    (∀ k, k ≠ "is_playing" → k ≠ "last_updated" →
      getField (playState data now) k = getField (spread data) k ∧
      getField (pauseState data now) k = getField (spread data) k) ∧
    (∀ (update : JsVal → JsObj → Resp Unit) (regs : Registries) (sock : Socket) (later : Nat),
      sock.currentRoom.truthy = true →
      (onVideoPlay update regs sock data now later).effects.filter Effect.isStoreWrite =
        [Effect.store (StoreOp.updateCurrentVideo sock.currentRoom (playState data now))] ∧
      (onVideoPause update regs sock data now later).effects.filter Effect.isStoreWrite =
        [Effect.store (StoreOp.updateCurrentVideo sock.currentRoom (pauseState data now))]) ∧
    (∀ (db : Db) (roomId : JsVal) (current_video : JsObj),
      ∀ r ∈ (updateCurrentVideo db roomId current_video none).1.rooms,
        r.id = jsToString roomId → r.current_video = some current_video) := by
  have hne : ("is_playing" : String) ≠ "last_updated" := by decide
  refine ⟨?_, ?_, ?_, ?_, ?_, ?_, ?_⟩
  · unfold playState
    rw [getField_setField_other _ _ _ _ hne, getField_setField_self]
  · unfold pauseState
    rw [getField_setField_other _ _ _ _ hne, getField_setField_self]
  · unfold playState; rw [getField_setField_self]
  · unfold pauseState; rw [getField_setField_self]
  · intro k h1 h2
    unfold playState pauseState
    rw [getField_setField_other _ _ _ _ h2, getField_setField_other _ _ _ _ h1,
      getField_setField_other _ _ _ _ h2, getField_setField_other _ _ _ _ h1]
    exact ⟨rfl, rfl⟩
  · intro update regs sock later ht
    simp [onVideoPlay, onVideoPause, onVideoPlayThen, onVideoPauseThen, ht, Effect.isStoreWrite,
      StoreOp.isWrite]
  · intro db roomId cv r hr hid
    simp only [updateCurrentVideo, List.mem_map] at hr
    obtain ⟨r0, _, rfl⟩ := hr
    by_cases h0 : r0.id = jsToString roomId
    · simp [h0]
    · simp only [h0, if_false] at hid

/-- C20 at a concrete input: a payload with `is_playing` false and its own `last_updated`
sent as video-play at time 7 is stored with `is_playing` true and `last_updated` 7. -/
theorem persisted_play_state_overrides_payload_witness :
    playState (JsData.obj [("is_playing", JsVal.bool false), ("position", JsVal.num 3),
        ("last_updated", JsVal.str "1999")]) 7 =
      [("is_playing", JsVal.bool true), ("position", JsVal.num 3),
       ("last_updated", JsVal.date 7)] ∧
    getField (pauseState (JsData.obj [("is_playing", JsVal.bool true), ("position", JsVal.num 3)])
      7) "is_playing" = JsVal.bool false ∧
    (step worldAInR1 (Input.videoPlay "s1"
        (JsData.obj [("is_playing", JsVal.bool false), ("position", JsVal.num 3)]) 7 8
        none)).1.db.rooms.map (fun r => r.current_video) =
      [some [("is_playing", JsVal.bool true), ("position", JsVal.num 3),
             ("last_updated", JsVal.date 7)], none, none, none] :=
  ⟨by decide,
   (persisted_play_state_overrides_payload
      (JsData.obj [("is_playing", JsVal.bool true), ("position", JsVal.num 3)]) 7).2.1,
   by decide⟩

/-- C21 (counterexample to the claim as stated): the playback state of room R1 holds the
media descriptor `videoId` v1 and `is_playing` true; user A, in R1, sends video-seek with the
payload of the position only at time 7. The state persisted is the position and
`last_updated` 7: `videoId` and `is_playing` are gone. -/
theorem seek_drops_unmentioned_fields :
    worldAInR1Playing.db.rooms.map (fun r => (r.id, r.current_video)) =
      [("R1", some examplePriorState), ("R2", none), ("R3", none), ("R4", none)] ∧
    getField examplePriorState "videoId" = JsVal.str "v1" ∧
    getField examplePriorState "is_playing" = JsVal.bool true ∧
    (step worldAInR1Playing (Input.videoSeek "s1" exampleSeek 7 8 none)).1.db.rooms.map
        (fun r => (r.id, r.current_video)) =
      [("R1", some [("position", JsVal.num 42), ("last_updated", JsVal.date 7)]),
       ("R2", none), ("R3", none), ("R4", none)] ∧
    getField (seekState exampleSeek 7) "videoId" = JsVal.undefined ∧
    getField (seekState exampleSeek 7) "is_playing" = JsVal.undefined := by
  refine ⟨by decide, by decide, by decide, by decide, by decide, by decide⟩

/-- C21 (as amended): video-seek replaces the playback state of the room by its payload with
`last_updated` set to the receipt time: the object the handler sends to the store, in its only
write, has `last_updated` the receipt time and every other property exactly as the payload
has it (present with the payload's value, or absent), and the store puts that object in
column `current_video`, whatever the column held before. -/
theorem seek_replaces_playback_state (data : JsData) (now : Nat) :
    List.lookup "last_updated" (seekState data now) = some (JsVal.date now) ∧
    (∀ k, k ≠ "last_updated" →
      List.lookup k (seekState data now) = List.lookup k (spread data)) ∧
    (∀ (update : JsVal → JsObj → Resp Unit) (regs : Registries) (sock : Socket) (later : Nat),
      sock.currentRoom.truthy = true →
      (onVideoSeek update regs sock data now later).effects.filter Effect.isStoreWrite =
        [Effect.store (StoreOp.updateCurrentVideo sock.currentRoom (seekState data now))]) ∧
    (∀ (db : Db) (roomId : JsVal),
      ∀ r ∈ (updateCurrentVideo db roomId (seekState data now) none).1.rooms,
        r.id = jsToString roomId → r.current_video = some (seekState data now)) := by
  refine ⟨?_, ?_, ?_, ?_⟩
  · unfold seekState; exact lookup_setField_self _ _ _
  · intro k hk
    unfold seekState; exact lookup_setField_other _ _ _ _ hk
  · intro update regs sock later ht
    simp [onVideoSeek, onVideoSeekThen, ht, Effect.isStoreWrite, StoreOp.isWrite]
  · intro db roomId r hr hid
    simp only [updateCurrentVideo, List.mem_map] at hr
    obtain ⟨r0, _, rfl⟩ := hr
    by_cases h0 : r0.id = jsToString roomId
    · simp [h0]
    · simp only [h0, if_false] at hid

/-- C22: for every playback payload the object broadcast has `triggeredBy` the username of
`socket.user` and `timestamp` the server time, and every other property as the payload has
it; so two payloads with the same properties apart from `triggeredBy` and `timestamp` give
objects with the same properties; and that object is the payload of the one event each of
the three playback handlers emits, to the room except the sender. -/
theorem broadcast_tag_overrides_payload (sock : Socket) (d1 d2 : JsData) (now : Nat) :
    List.lookup "triggeredBy" (playbackPayload sock d1 now) =
      some (getField sock.user "username") ∧
    List.lookup "timestamp" (playbackPayload sock d1 now) = some (JsVal.date now) ∧
    (∀ k, k ≠ "triggeredBy" → k ≠ "timestamp" →
      List.lookup k (playbackPayload sock d1 now) = List.lookup k (spread d1)) ∧
    ((∀ k, k ≠ "triggeredBy" → k ≠ "timestamp" →
        List.lookup k (spread d1) = List.lookup k (spread d2)) →
      SameProperties (playbackPayload sock d1 now) (playbackPayload sock d2 now)) ∧
    (∀ (update : JsVal → JsObj → Resp Unit) (regs : Registries) (received : Nat),
      sock.currentRoom.truthy = true →
      (onVideoPlay update regs sock d1 received now).effects.filter Effect.isEmit =
        [Effect.emit (Address.others sock.currentRoom sock.id)
          (ServerEvent.videoPlay (playbackPayload sock d1 now))] ∧
      (onVideoPause update regs sock d1 received now).effects.filter Effect.isEmit =
        [Effect.emit (Address.others sock.currentRoom sock.id)
          (ServerEvent.videoPause (playbackPayload sock d1 now))] ∧
      (onVideoSeek update regs sock d1 received now).effects.filter Effect.isEmit =
        [Effect.emit (Address.others sock.currentRoom sock.id)
          (ServerEvent.videoSeek (playbackPayload sock d1 now))]) := by
  have hne : ("triggeredBy" : String) ≠ "timestamp" := by decide
  have hother : ∀ (d : JsData) k, k ≠ "triggeredBy" → k ≠ "timestamp" →
      List.lookup k (playbackPayload sock d now) = List.lookup k (spread d) := by
    intro d k h1 h2
    unfold playbackPayload
    rw [lookup_setField_other _ _ _ _ h2, lookup_setField_other _ _ _ _ h1]
  have htrig : ∀ d : JsData, List.lookup "triggeredBy" (playbackPayload sock d now) =
      some (getField sock.user "username") := by
    intro d
    unfold playbackPayload
    rw [lookup_setField_other _ _ _ _ hne, lookup_setField_self]
  have htime : ∀ d : JsData, List.lookup "timestamp" (playbackPayload sock d now) =
      some (JsVal.date now) := by
    intro d
    unfold playbackPayload
    rw [lookup_setField_self]
  refine ⟨htrig d1, htime d1, hother d1, ?_, ?_⟩
  · intro hsame k
    by_cases h1 : k = "triggeredBy"
    · subst h1; rw [htrig d1, htrig d2]
    · by_cases h2 : k = "timestamp"
      · subst h2; rw [htime d1, htime d2]
      · rw [hother d1 k h1 h2, hother d2 k h1 h2]; exact hsame k h1 h2
  · intro update regs received ht
    simp [onVideoPlay, onVideoPause, onVideoSeek, onVideoPlayThen, onVideoPauseThen,
      onVideoSeekThen, ht, Effect.isEmit]

/-- C22 at a concrete input: a payload that spells `triggeredBy` mallory and `timestamp` 0
and a payload without them give the same properties, `triggeredBy` alice and the server time
8. -/
theorem broadcast_tag_overrides_payload_witness :
    playbackPayload socketAInR1
        (JsData.obj [("triggeredBy", JsVal.str "mallory"), ("position", JsVal.num 3),
          ("timestamp", JsVal.num 0)]) 8 =
      [("triggeredBy", JsVal.str "alice"), ("position", JsVal.num 3),
       ("timestamp", JsVal.date 8)] ∧
    playbackPayload socketAInR1 (JsData.obj [("position", JsVal.num 3)]) 8 =
      [("position", JsVal.num 3), ("triggeredBy", JsVal.str "alice"),
       ("timestamp", JsVal.date 8)] ∧
    SameProperties
      (playbackPayload socketAInR1
        (JsData.obj [("triggeredBy", JsVal.str "mallory"), ("position", JsVal.num 3),
          ("timestamp", JsVal.num 0)]) 8)
      (playbackPayload socketAInR1 (JsData.obj [("position", JsVal.num 3)]) 8) :=
  ⟨by decide, by decide,
   (broadcast_tag_overrides_payload socketAInR1
      (JsData.obj [("triggeredBy", JsVal.str "mallory"), ("position", JsVal.num 3),
        ("timestamp", JsVal.num 0)])
      (JsData.obj [("position", JsVal.num 3)]) 8).2.2.2.1
      (by
        intro k h1 h2
        have e1 : ¬ "triggeredBy" = k := fun h => h1 h.symm
        have e2 : ¬ "timestamp" = k := fun h => h2 h.symm
        show List.lookup k [("triggeredBy", JsVal.str "mallory"), ("position", JsVal.num 3),
            ("timestamp", JsVal.num 0)] = List.lookup k [("position", JsVal.num 3)]
        rw [lookup_cons_eq, lookup_cons_eq, lookup_cons_eq, lookup_cons_eq]
        simp only [e1, e2, if_false])⟩

/-- C23 (counterexample to the claim as stated): the Identity Provider verifies user A with
email a@example.org, and the profile row of A holds the email old@example.org; the object
attached to the socket, and `req.user` built by the HTTP middleware, carry the id A and the
email old@example.org. -/
theorem profile_email_overrides_verified_email :
    exampleGetUser (JsVal.str "good") =
      { data := some { id := "A", email := JsVal.str "a@example.org" }, error := none } ∧
    (storeSelectProfile exampleDbStaleEmail none "A").data =
      some [("id", JsVal.str "A"), ("username", JsVal.str "alice"),
            ("email", JsVal.str "old@example.org"), ("avatar", JsVal.null),
            ("is_online", JsVal.bool false), ("last_seen", JsVal.date 0)] ∧
    (authenticateSocket exampleGetUser (storeSelectProfile exampleDbStaleEmail none)
        (JsVal.str "good")).result =
      Handshake.accepted "A"
        [("id", JsVal.str "A"), ("email", JsVal.str "old@example.org"),
         ("username", JsVal.str "alice"), ("avatar", JsVal.null),
         ("is_online", JsVal.bool false), ("last_seen", JsVal.date 0)] ∧
    authenticateToken exampleGetUser (storeSelectProfile exampleDbStaleEmail none)
        (some "Bearer good") =
      HttpAuth.next
        [("id", JsVal.str "A"), ("email", JsVal.str "old@example.org"),
         ("username", JsVal.str "alice"), ("avatar", JsVal.null),
         ("is_online", JsVal.bool false), ("last_seen", JsVal.date 0)] := by
  refine ⟨by decide, by decide, by decide, by decide⟩

/-- C23 (as amended): over every state of the tables and every outcome of the profile query,
for every accepted socket handshake there are the user the Identity Provider verified and a
row of table profiles with that user's id such that `socket.userId` and the `id` of
`socket.user` are the verified id, the `email` of `socket.user` is the email of the row, and
`socket.user` is the object of the verified id, the row's email and the other columns of the
row; the same holds for `req.user` on every request the HTTP middleware lets through. -/
theorem identity_id_verified_email_from_profile (getUser : JsVal → Resp AuthUser) (db : Db)
    (fault : Option StoreError) :
    (∀ (token : JsVal) (userId : String) (user : JsObj),
      (authenticateSocket getUser (storeSelectProfile db fault) token).result =
        Handshake.accepted userId user →
      ∃ verified row,
        verifySupabaseToken getUser token = some verified ∧
        row ∈ db.profiles ∧ row.id = verified.id ∧
        userId = verified.id ∧
        getField user "id" = JsVal.str verified.id ∧
        getField user "email" = row.email ∧
        user =
          [("id", JsVal.str verified.id), ("email", row.email), ("username", row.username),
           ("avatar", row.avatar), ("is_online", JsVal.bool row.is_online),
           ("last_seen", JsVal.date row.last_seen)]) ∧
    (∀ (authHeader : Option String) (user : JsObj),
      authenticateToken getUser (storeSelectProfile db fault) authHeader = HttpAuth.next user →
      ∃ token verified row,
        bearerToken authHeader = some token ∧
        verifySupabaseToken getUser (JsVal.str token) = some verified ∧
        row ∈ db.profiles ∧ row.id = verified.id ∧
        getField user "id" = JsVal.str verified.id ∧
        getField user "email" = row.email ∧
        user =
          [("id", JsVal.str verified.id), ("email", row.email), ("username", row.username),
           ("avatar", row.avatar), ("is_online", JsVal.bool row.is_online),
           ("last_seen", JsVal.date row.last_seen)]) := by
  have key : ∀ (verified : AuthUser) (profile : Option JsObj),
      getUserProfile (storeSelectProfile db fault) verified.id = some profile →
      ∃ row, row ∈ db.profiles ∧ row.id = verified.id ∧
        getField (spreadInto [("id", JsVal.str verified.id), ("email", verified.email)]
          (profile.getD [])) "id" = JsVal.str verified.id ∧
        getField (spreadInto [("id", JsVal.str verified.id), ("email", verified.email)]
          (profile.getD [])) "email" = row.email ∧
        spreadInto [("id", JsVal.str verified.id), ("email", verified.email)]
            (profile.getD []) =
          [("id", JsVal.str verified.id), ("email", row.email), ("username", row.username),
           ("avatar", row.avatar), ("is_online", JsVal.bool row.is_online),
           ("last_seen", JsVal.date row.last_seen)] := by
    intro verified profile hp
    obtain ⟨row, hmem, hid, hprof⟩ := getUserProfile_store db fault verified.id profile hp
    have hs := spreadInto_profileObject verified.email row
    rw [hid] at hs
    subst hprof
    simp only [Option.getD_some]
    rw [hs]
    exact ⟨row, hmem, hid, by simp [getField, lookup_cons_eq],
      by simp [getField, lookup_cons_eq], rfl⟩
  refine ⟨?_, ?_⟩
  · intro token userId user h
    unfold authenticateSocket at h
    split at h
    · simp at h
    · cases hv : verifySupabaseToken getUser token with
      | none => simp [hv] at h
      | some verified =>
        cases hp : getUserProfile (storeSelectProfile db fault) verified.id with
        | none => simp [hv, hp] at h
        | some profile =>
          simp only [hv, hp, Handshake.accepted.injEq] at h
          obtain ⟨row, hmem, hid, h1, h2, h3⟩ := key verified profile hp
          rw [← h.2]
          exact ⟨verified, row, rfl, hmem, hid, h.1.symm, h1, h2, h3⟩
  · intro authHeader user h
    unfold authenticateToken at h
    cases hb : bearerToken authHeader with
    | none => simp [hb] at h
    | some token =>
      simp only [hb] at h
      split at h
      · simp at h
      · cases hv : verifySupabaseToken getUser (JsVal.str token) with
        | none => simp [hv] at h
        | some verified =>
          cases hp : getUserProfile (storeSelectProfile db fault) verified.id with
          | none => simp [hv, hp] at h
          | some profile =>
            simp only [hv, hp, HttpAuth.next.injEq] at h
            obtain ⟨row, hmem, hid, h1, h2, h3⟩ := key verified profile hp
            rw [← h]
            exact ⟨token, verified, row, rfl, hv, hmem, hid, h1, h2, h3⟩

/-- C23 (as amended) at concrete inputs: the token of A over `exampleDb`, through the socket
middleware and through the HTTP middleware. -/
theorem identity_id_verified_email_from_profile_witness :
    (∃ verified row,
      verifySupabaseToken exampleGetUser (JsVal.str "good") = some verified ∧
      row ∈ exampleDb.profiles ∧ row.id = verified.id ∧
      "A" = verified.id ∧
      getField [("id", JsVal.str "A"), ("email", JsVal.str "a@example.org"),
          ("username", JsVal.str "alice"), ("avatar", JsVal.null),
          ("is_online", JsVal.bool false), ("last_seen", JsVal.date 0)] "id" =
        JsVal.str verified.id ∧
      getField [("id", JsVal.str "A"), ("email", JsVal.str "a@example.org"),
          ("username", JsVal.str "alice"), ("avatar", JsVal.null),
          ("is_online", JsVal.bool false), ("last_seen", JsVal.date 0)] "email" = row.email ∧
      [("id", JsVal.str "A"), ("email", JsVal.str "a@example.org"),
       ("username", JsVal.str "alice"), ("avatar", JsVal.null),
       ("is_online", JsVal.bool false), ("last_seen", JsVal.date 0)] =
        [("id", JsVal.str verified.id), ("email", row.email), ("username", row.username),
         ("avatar", row.avatar), ("is_online", JsVal.bool row.is_online),
         ("last_seen", JsVal.date row.last_seen)]) ∧
    authenticateToken exampleGetUser (storeSelectProfile exampleDb none) (some "Bearer good") =
      HttpAuth.next
        [("id", JsVal.str "A"), ("email", JsVal.str "a@example.org"),
         ("username", JsVal.str "alice"), ("avatar", JsVal.null),
         ("is_online", JsVal.bool false), ("last_seen", JsVal.date 0)] :=
  ⟨(identity_id_verified_email_from_profile exampleGetUser exampleDb none).1
      (JsVal.str "good") "A" _ (by decide),
   by decide⟩

/-- C24 (the code departs from the claim): room R5 has `max_participants` 1 and one active
participant, A; B has an inactive participant row. `joinRoom` by B answers
`Joined room successfully` and leaves two active participants; a caller without a row, C, is
answered `Room is full`. -/
theorem reactivation_exceeds_capacity :
    exampleDbFull.rooms.map (fun r => (r.id, r.is_active, r.settings.max_participants)) =
      [("R5", true, 1)] ∧
    activeCount exampleDbFull "R5" = 1 ∧
    (joinRoom exampleDbFull "R5" "B" 9 none none none).2 =
      { status := 200, message := "Joined room successfully" } ∧
    activeCount (joinRoom exampleDbFull "R5" "B" 9 none none none).1 "R5" = 2 ∧
    (joinRoom exampleDbFull "R5" "C" 9 none none none).2 =
      { status := 400, message := "Room is full" } := by
  refine ⟨by decide, by decide, by decide, by decide, by decide⟩

/-- C25 (the code departs from the claim): with page 2 and limit 10 supplied in the query
string, `getRooms` and `listReviews` ask for rows 10 to 1009 (1000 rows), and `listMemes` with
page 2 and limit 20 for rows 20 to 2019: `offset + limit` concatenates the number and the
string. With the defaults, and on page 1, the range is the one the claim states. -/
theorem query_string_page_range_is_concatenated :
    getRoomsRange (some "2") (some "10") = (PageVal.num 10, PageVal.num 1009) ∧
    listMemesRange (some "2") (some "20") = (PageVal.num 20, PageVal.num 2019) ∧
    listReviewsRange (some "2") (some "10") = (PageVal.num 10, PageVal.num 1009) ∧
    rowsRequested (getRoomsRange (some "2") (some "10")) = some 1000 ∧
    getRoomsRange none none = (PageVal.num 0, PageVal.num 9) ∧
    listMemesRange none none = (PageVal.num 0, PageVal.num 19) ∧
    listReviewsRange none none = (PageVal.num 0, PageVal.num 9) ∧
    getRoomsRange (some "1") (some "10") = (PageVal.num 0, PageVal.num 9) := by
  refine ⟨by decide, by decide, by decide, by decide, by decide, by decide, by decide,
    by decide⟩

end StreamSync
